import Mathlib

/-!
Verification of the clinical-zone classification core of
scripts/convert_flame_to_web.py.

The development shallowly embeds the two classification components:

* the Mask-Guided Subdivider (subdivide_flame_masks_to_clinical_zones),
  embedded as subdivide below, and
* the Position-Only Classifier (_position_only_regions),
  embedded as posOnly below,

together with the helpers they use (_compute_vertex_stats, _mask_to_indices,
np.percentile / np.median over an index subset).  Coordinates are modelled
as exact rationals; machine floats do not affect any of the verified
properties, which are structural (key sets, sortedness, subset and
emptiness relations, determinism).  Vertex indices are modelled as
naturals; numpy reductions that would raise on an empty vertex array are
modelled with a default value and excluded by explicit hypotheses where a
theorem needs a non-empty mesh.  The one genuinely partial operation in
the sources, the unguarded division by a possibly-zero axis range in
_position_only_regions, is modelled by safeDiv, whose result none plays
the role of the IEEE NaN that numpy produces there (every comparison
against none is false, exactly as every comparison against NaN is false).
-/

/-- A vertex of the mesh: the x, y, z coordinates of one row of v_template. -/
abbrev Vec3 : Type := ℚ × ℚ × ℚ

/-- The x column of the vertex array (v_template[:, 0]). -/
def xCoords (verts : List Vec3) : List ℚ := verts.map (fun v => v.1)

/-- The y column of the vertex array (v_template[:, 1]). -/
def yCoords (verts : List Vec3) : List ℚ := verts.map (fun v => v.2.1)

/-- The z column of the vertex array (v_template[:, 2]). -/
def zCoords (verts : List Vec3) : List ℚ := verts.map (fun v => v.2.2)

/-- Coordinate lookup c[i].  numpy raises on an out-of-range index; the
model returns 0 there, and every theorem whose conclusion could depend on
it carries an in-range hypothesis. -/
def coordAt (c : List ℚ) (i : ℕ) : ℚ := c.getD i 0

/-- Minimum of an array (np.min).  numpy raises on an empty array; the
model returns 0 there, excluded by hypotheses where relevant. -/
def listMin : List ℚ → ℚ
  | [] => 0
  | a :: t => t.foldl min a

/-- Maximum of an array (np.max), with the same empty-array convention as
listMin. -/
def listMax : List ℚ → ℚ
  | [] => 0
  | a :: t => t.foldl max a

/-- Python sorted() on a list of vertex indices: ascending, stable, and
keeping duplicates. -/
def pySorted (l : List ℕ) : List ℕ := l.insertionSort (· ≤ ·)

/-- Python sorted() on a set of vertex indices (sorted(set(...))):
ascending with no duplicates. -/
def sortFinset (s : Finset ℕ) : List ℕ := s.sort (· ≤ ·)

/-- Union of a list of index lists, as a set.  Models the set.update /
set-union accumulation patterns of the source. -/
def unionFinsets (ls : List (List ℕ)) : Finset ℕ :=
  ls.foldl (fun s l => s ∪ l.toFinset) ∅

/-- np.percentile with the default linear interpolation, on an already
sorted non-empty list: the value at fractional position q/100 * (n-1). -/
def percentileSorted (s : List ℚ) (q : ℚ) : ℚ :=
  let n := s.length
  let h : ℚ := ((n : ℚ) - 1) * q / 100
  let i : ℕ := (Int.floor h).toNat
  let lo := s.getD i 0
  let hi := s.getD (i + 1) lo
  lo + (h - (Int.floor h : ℤ)) * (hi - lo)

/-- np.percentile(vals, q).  The empty case returns 0, matching the
explicit len == 0 guards of _percentile_x / _percentile_y / _median_x /
_median_y in the source (the zone code never calls percentile on an empty
array without such a guard). -/
def percentile (vals : List ℚ) (q : ℚ) : ℚ :=
  if vals = [] then 0 else percentileSorted (vals.insertionSort (· ≤ ·)) q

/-- _percentile_y / _percentile_x: percentile of coordinate c over the
index subset idx, 0.0 when idx is empty. -/
def pctOf (c : List ℚ) (idx : List ℕ) (q : ℚ) : ℚ :=
  percentile (idx.map (coordAt c)) q

/-- _median_y / _median_x: np.median equals the 50th percentile with
linear interpolation. -/
def medOf (c : List ℚ) (idx : List ℕ) : ℚ := pctOf c idx 50

/-- A value of the coarse-region mapping: either a boolean membership
mask or an explicit integer index list (the two forms accepted by
_mask_to_indices). -/
inductive MaskVal : Type
  | bools : List Bool → MaskVal
  | ints : List ℕ → MaskVal

/-- _mask_to_indices: normalize one coarse-region value to an index list.
A boolean array goes through np.where; an integer array of size 0 yields
the empty list; an integer array whose length equals the vertex count and
whose maximum is at most 1 is (mis)taken for a boolean mask; any other
integer array is taken as an explicit index list, as is. -/
def maskToIndices (nVerts : ℕ) (v : MaskVal) : List ℕ :=
  match v with
  | MaskVal.bools bs => (List.range bs.length).filter (fun i => bs.getD i false)
  | MaskVal.ints l =>
      if l.isEmpty then []
      else if l.length = nVerts ∧ (∀ e ∈ l, e ≤ 1) then
        (List.range l.length).filter (fun i => l.getD i 0 ≠ 0)
      else l

/-- Dictionary lookup in the coarse-region mapping (first binding wins,
as in a Python dict, whose keys are unique). -/
def lookupMask (masks : List (String × MaskVal)) (key : String) : Option MaskVal :=
  (masks.find? (fun p => p.1 == key)).map (fun p => p.2)

/-- fm.get(key, empty): the normalized index list of a coarse region, the
empty list when the key is absent. -/
def regionIdx (nVerts : ℕ) (masks : List (String × MaskVal)) (key : String) : List ℕ :=
  match lookupMask masks key with
  | none => []
  | some v => maskToIndices nVerts v

/-- The 61 fixed clinical zone names (ALL_CLINICAL_ZONES), in source
order. -/
def ALL_CLINICAL_ZONES : List String :=
  ["full_face",
   "forehead", "forehead_left", "forehead_right", "forehead_center",
   "brow_left", "brow_right", "brow_inner_left", "brow_inner_right",
   "eye_left_upper", "eye_left_lower", "eye_right_upper", "eye_right_lower",
   "eye_left_corner_inner", "eye_left_corner_outer",
   "eye_right_corner_inner", "eye_right_corner_outer",
   "under_eye_left", "under_eye_right",
   "tear_trough_left", "tear_trough_right",
   "nose_bridge", "nose_bridge_upper", "nose_bridge_lower",
   "nose_tip", "nose_tip_left", "nose_tip_right",
   "nostril_left", "nostril_right", "nose_dorsum",
   "cheek_left", "cheek_right", "cheekbone_left", "cheekbone_right",
   "cheek_hollow_left", "cheek_hollow_right",
   "nasolabial_left", "nasolabial_right",
   "lip_upper", "lip_upper_left", "lip_upper_right", "lip_upper_center",
   "lip_lower", "lip_lower_left", "lip_lower_right", "lip_lower_center",
   "lip_corner_left", "lip_corner_right",
   "chin", "chin_center", "chin_left", "chin_right",
   "jaw_left", "jaw_right", "jawline_left", "jawline_right",
   "temple_left", "temple_right",
   "ear_left", "ear_right",
   "neck"]

/-- The ten keys whose indices are collected into specific_regions before
the face remainder is computed. -/
def specificKeys : List String :=
  ["nose", "lips", "forehead", "left_eye_region", "right_eye_region",
   "neck", "left_ear", "right_ear", "left_eyeball", "right_eyeball"]

/-- The twelve coarse-region keys the Subdivider reads. -/
def usedRegionKeys : List String :=
  ["nose", "lips", "forehead", "left_eye_region", "right_eye_region",
   "face", "neck", "left_ear", "right_ear", "scalp",
   "left_eyeball", "right_eyeball"]

/-- The zone lists produced by the FOREHEAD subdivision block. -/
structure ForeheadZones : Type where
  forehead : List ℕ
  fl : List ℕ
  fr : List ℕ
  fc : List ℕ
  browL : List ℕ
  browR : List ℕ
  browInL : List ℕ
  browInR : List ℕ
  templeL : List ℕ
  templeR : List ℕ

/-- FOREHEAD subdivision (source lines 504-562).  The center strip uses
the middle third between the 25th and 75th x-percentiles; brows are the
low-y band split at the midline; inner brows are the brow subsets within
an x-band of the midline; temples are the outermost x-percentile bands in
a mid-y window. -/
def foreheadBlock (x y : List ℚ) (midlineX : ℚ) (fidx : List ℕ) : ForeheadZones :=
  if fidx = [] then ⟨[], [], [], [], [], [], [], [], [], []⟩ else
  let fhYMed := medOf y fidx
  let fhYLo := pctOf y fidx 15
  let fhXLo := pctOf x fidx 25
  let fhXHi := pctOf x fidx 75
  let fhThird := (fhXHi - fhXLo) / 3
  let centerLo := fhXLo + fhThird
  let centerHi := fhXHi - fhThird
  let browYThr := fhYLo + (fhYMed - fhYLo) * 0.3
  let browCands := fidx.filter (fun i => decide (coordAt y i ≤ browYThr))
  let browLC := browCands.filter (fun i => decide (midlineX < coordAt x i))
  let browRC := browCands.filter (fun i => !decide (midlineX < coordAt x i))
  let innerRng := (fhXHi - fhXLo) * 0.15
  let tXHi := pctOf x fidx 85
  let tXLo := pctOf x fidx 15
  let tYLo := pctOf y fidx 10
  let tYHi := pctOf y fidx 70
  let tCands := fidx.filter
    (fun i => decide (tYLo ≤ coordAt y i) && decide (coordAt y i ≤ tYHi))
  { forehead := pySorted fidx
    fl := fidx.filter (fun i => decide (centerHi < coordAt x i))
    fr := fidx.filter
      (fun i => !decide (centerHi < coordAt x i) && decide (coordAt x i < centerLo))
    fc := fidx.filter
      (fun i => !decide (centerHi < coordAt x i) && !decide (coordAt x i < centerLo))
    browL := pySorted browLC
    browR := pySorted browRC
    browInL :=
      if browLC = [] then []
      else pySorted (browLC.filter (fun i => decide (coordAt x i < midlineX + innerRng)))
    browInR :=
      if browRC = [] then []
      else pySorted (browRC.filter (fun i => decide (midlineX - innerRng < coordAt x i)))
    templeL :=
      if tCands = [] then []
      else pySorted (tCands.filter (fun i => decide (tXHi < coordAt x i)))
    templeR :=
      if tCands = [] then []
      else pySorted (tCands.filter (fun i => decide (coordAt x i < tXLo))) }

/-- The zone lists produced by one side of the EYE REGION block. -/
structure EyeZones : Type where
  upperZ : List ℕ
  lowerZ : List ℕ
  cornerIn : List ℕ
  cornerOut : List ℕ
  underEye : List ℕ
  tearTrough : List ℕ

/-- Source lines 593-595: remove the recognized eyeball indices from the
eye region; if nothing is left, fall back to the original eye region. -/
def eyeSkinResolved (eyeIdx eyeballIdx : List ℕ) : List ℕ :=
  let s := eyeIdx.filter (fun i => !(eyeballIdx.contains i))
  if s = [] then eyeIdx else s

/-- EYE REGION subdivision for one side (source lines 567-643).  The
median and the 10th/90th y-percentiles are taken over the full eye
region, before eyeball removal; all zone candidates are drawn from the
resolved eye-skin set.  The inner/outer meaning of the corner x-bands is
mirrored between the two sides.  (The 10th/90th x-percentiles computed by
the source are never used and are omitted; the corner thresholds are
referentially transparent, so computing them per filter is equal to the
source computing them once.) -/
def eyeBlock (x y : List ℚ) (isLeft : Bool) (eyeIdx eyeballIdx : List ℕ) : EyeZones :=
  if eyeIdx = [] then ⟨[], [], [], [], [], []⟩ else
  let eyeMedY := medOf y eyeIdx
  let eyeYLo := pctOf y eyeIdx 10
  let eyeYHi := pctOf y eyeIdx 90
  let skin := eyeSkinResolved eyeIdx eyeballIdx
  let upper := skin.filter (fun i => decide (eyeMedY < coordAt y i))
  let lower := skin.filter (fun i => !decide (eyeMedY < coordAt y i))
  let cornerBand := skin.filter
    (fun i => decide (|coordAt y i - eyeMedY| < (eyeYHi - eyeYLo) * 0.3))
  let cIn :=
    if cornerBand = [] then []
    else if isLeft then
      pySorted (cornerBand.filter (fun i => decide (coordAt x i ≤ pctOf x cornerBand 15)))
    else
      pySorted (cornerBand.filter (fun i => decide (pctOf x cornerBand 85 ≤ coordAt x i)))
  let cOut :=
    if cornerBand = [] then []
    else if isLeft then
      pySorted (cornerBand.filter (fun i => decide (pctOf x cornerBand 85 ≤ coordAt x i)))
    else
      pySorted (cornerBand.filter (fun i => decide (coordAt x i ≤ pctOf x cornerBand 15)))
  let tear :=
    if lower = [] then []
    else
      let ueMedX := medOf x lower
      if isLeft then pySorted (lower.filter (fun i => decide (coordAt x i < ueMedX)))
      else pySorted (lower.filter (fun i => decide (ueMedX < coordAt x i)))
  ⟨pySorted upper, pySorted lower, cIn, cOut, pySorted lower, tear⟩

/-- The zone lists produced by the NOSE block. -/
structure NoseZones : Type where
  bridge : List ℕ
  bridgeU : List ℕ
  bridgeL : List ℕ
  tip : List ℕ
  tipL : List ℕ
  tipR : List ℕ
  nostrilL : List ℕ
  nostrilR : List ℕ

/-- NOSE subdivision (source lines 648-704).  The bridge is the upper
part of the nose within a central x-band; the tip is a lower y-band
filtered to a central x-band; the nostrils flank the midline with a dead
zone between them.  nose_dorsum reuses the bridge list (handled at the
assembly level). -/
def noseBlock (x y : List ℚ) (midlineX noseMedY : ℚ) (noseIdx : List ℕ) : NoseZones :=
  if noseIdx = [] then ⟨[], [], [], [], [], [], [], []⟩ else
  let nYLo := pctOf y noseIdx 5
  let nYHi := pctOf y noseIdx 95
  let nYRange := nYHi - nYLo
  let nXLo := pctOf x noseIdx 10
  let nXHi := pctOf x noseIdx 90
  let bridgeYThr := nYLo + nYRange * 0.40
  let bridgeXHalf := (nXHi - nXLo) * 0.35
  let bridgeCands := noseIdx.filter
    (fun i => decide (bridgeYThr < coordAt y i) &&
      decide (|coordAt x i - midlineX| < bridgeXHalf))
  let bridgeMidY := if bridgeCands = [] then noseMedY else medOf y bridgeCands
  let tipYThr := nYLo + nYRange * 0.30
  let tipC0 := noseIdx.filter
    (fun i => decide (coordAt y i ≤ tipYThr) &&
      decide (nYLo + nYRange * 0.10 < coordAt y i))
  let tipXHalf := (nXHi - nXLo) * 0.35
  let tipCands :=
    if tipC0 = [] then tipC0
    else tipC0.filter (fun i => decide (|coordAt x i - midlineX| < tipXHalf))
  let nostrilCands := noseIdx.filter (fun i => decide (coordAt y i ≤ nYLo + nYRange * 0.30))
  let nostrilXInner := (nXHi - nXLo) * 0.15
  { bridge := pySorted bridgeCands
    bridgeU :=
      if bridgeCands = [] then []
      else pySorted (bridgeCands.filter (fun i => decide (bridgeMidY < coordAt y i)))
    bridgeL :=
      if bridgeCands = [] then []
      else pySorted (bridgeCands.filter (fun i => decide (coordAt y i ≤ bridgeMidY)))
    tip := pySorted tipCands
    tipL :=
      if tipCands = [] then []
      else pySorted (tipCands.filter (fun i => decide (midlineX < coordAt x i)))
    tipR :=
      if tipCands = [] then []
      else pySorted (tipCands.filter (fun i => decide (coordAt x i ≤ midlineX)))
    nostrilL :=
      if nostrilCands = [] then []
      else pySorted (nostrilCands.filter
        (fun i => decide (midlineX + nostrilXInner < coordAt x i)))
    nostrilR :=
      if nostrilCands = [] then []
      else pySorted (nostrilCands.filter
        (fun i => decide (coordAt x i < midlineX - nostrilXInner))) }

/-- The zone lists produced by the LIPS block. -/
structure LipZones : Type where
  lipU : List ℕ
  lipLo : List ℕ
  upLeft : List ℕ
  upRight : List ℕ
  upCenter : List ℕ
  loLeft : List ℕ
  loRight : List ℕ
  loCenter : List ℕ
  cornerL : List ℕ
  cornerR : List ℕ

/-- LIPS subdivision (source lines 709-759): split at the region median
y into upper and lower, each split into left/center/right thirds between
the 5th and 95th x-percentiles; the corners are the outermost
x-percentile bands of a y-band around the median. -/
def lipsBlock (x y : List ℚ) (lipsIdx : List ℕ) : LipZones :=
  if lipsIdx = [] then ⟨[], [], [], [], [], [], [], [], [], []⟩ else
  let lYMed := medOf y lipsIdx
  let lXLo := pctOf x lipsIdx 5
  let lXHi := pctOf x lipsIdx 95
  let lThird := (lXHi - lXLo) / 3
  let upper := lipsIdx.filter (fun i => decide (lYMed < coordAt y i))
  let lower := lipsIdx.filter (fun i => !decide (lYMed < coordAt y i))
  let cLoX := lXLo + lThird
  let cHiX := lXHi - lThird
  let ySpan := listMax (lipsIdx.map (coordAt y)) - listMin (lipsIdx.map (coordAt y))
  let cornerCands := lipsIdx.filter
    (fun i => decide (lYMed - ySpan * 0.20 ≤ coordAt y i) &&
      decide (coordAt y i ≤ lYMed + ySpan * 0.20))
  { lipU := pySorted upper
    lipLo := pySorted lower
    upLeft :=
      if upper = [] then []
      else pySorted (upper.filter (fun i => decide (cHiX < coordAt x i)))
    upRight :=
      if upper = [] then []
      else pySorted (upper.filter (fun i => decide (coordAt x i < cLoX)))
    upCenter :=
      if upper = [] then []
      else pySorted (upper.filter
        (fun i => decide (cLoX ≤ coordAt x i) && decide (coordAt x i ≤ cHiX)))
    loLeft :=
      if lower = [] then []
      else pySorted (lower.filter (fun i => decide (cHiX < coordAt x i)))
    loRight :=
      if lower = [] then []
      else pySorted (lower.filter (fun i => decide (coordAt x i < cLoX)))
    loCenter :=
      if lower = [] then []
      else pySorted (lower.filter
        (fun i => decide (cLoX ≤ coordAt x i) && decide (coordAt x i ≤ cHiX)))
    cornerL :=
      if cornerCands = [] then []
      else pySorted (cornerCands.filter
        (fun i => decide (pctOf x cornerCands 85 < coordAt x i)))
    cornerR :=
      if cornerCands = [] then []
      else pySorted (cornerCands.filter
        (fun i => decide (coordAt x i < pctOf x cornerCands 15))) }

/-- The zone lists produced by the FACE-remainder block. -/
structure FaceZones : Type where
  chin : List ℕ
  chinC : List ℕ
  chinL : List ℕ
  chinR : List ℕ
  jawL : List ℕ
  jawR : List ℕ
  jawlineL : List ℕ
  jawlineR : List ℕ
  cheekL : List ℕ
  cheekR : List ℕ
  cheekboneL : List ℕ
  cheekboneR : List ℕ
  hollowL : List ℕ
  hollowR : List ℕ
  nasoL : List ℕ
  nasoR : List ℕ

/-- FACE remainder subdivision (source lines 765-859): chin, jaw and
jawline, cheeks with cheekbone/hollow split at the cheek median y, and
the nasolabial strip between the lips median y and the nose 30th
y-percentile at an x-distance between 0.4 and 0.9 of the nose x-range
(only when both nose and lips are present). -/
def faceBlock (x y : List ℚ) (midlineX : ℚ) (fr noseIdx lipsIdx : List ℕ) : FaceZones :=
  if fr = [] then ⟨[], [], [], [], [], [], [], [], [], [], [], [], [], [], [], []⟩ else
  let frYLo := pctOf y fr 5
  let frYHi := pctOf y fr 95
  let frYRange := frYHi - frYLo
  let frXSpan := listMax (fr.map (coordAt x)) - listMin (fr.map (coordAt x))
  let chinYThr := frYLo + frYRange * 0.25
  let chinXHalf := frXSpan * 0.25
  let chinCands := fr.filter
    (fun i => decide (coordAt y i ≤ chinYThr) &&
      decide (|coordAt x i - midlineX| < chinXHalf))
  let chinThird := chinXHalf * 2 / 3
  let jawYThr := frYLo + frYRange * 0.40
  let jawCands := fr.filter
    (fun i => decide (coordAt y i ≤ jawYThr) &&
      decide (chinXHalf ≤ |coordAt x i - midlineX|))
  let jawLC := jawCands.filter (fun i => decide (midlineX < coordAt x i))
  let jawRC := jawCands.filter (fun i => !decide (midlineX < coordAt x i))
  let cheekYLo := frYLo + frYRange * 0.25
  let cheekYHi := frYLo + frYRange * 0.70
  let cheekXInner := frXSpan * 0.10
  let cheekCands := fr.filter
    (fun i => decide (cheekYLo ≤ coordAt y i) && decide (coordAt y i ≤ cheekYHi) &&
      decide (cheekXInner < |coordAt x i - midlineX|))
  let cheekLC := cheekCands.filter (fun i => decide (midlineX < coordAt x i))
  let cheekRC := cheekCands.filter (fun i => !decide (midlineX < coordAt x i))
  let cheekMidY := if cheekCands = [] then (cheekYLo + cheekYHi) / 2 else medOf y cheekCands
  let nlPair : List ℕ × List ℕ :=
    if noseIdx = [] ∨ lipsIdx = [] then ([], [])
    else
      let nlYLo := pctOf y lipsIdx 50
      let nlYHi := pctOf y noseIdx 30
      let nXRange := pctOf x noseIdx 90 - pctOf x noseIdx 10
      let nlCands := fr.filter
        (fun i => decide (nlYLo ≤ coordAt y i) && decide (coordAt y i ≤ nlYHi) &&
          decide (nXRange * 0.4 ≤ |coordAt x i - midlineX|) &&
          decide (|coordAt x i - midlineX| ≤ nXRange * 0.9))
      (pySorted (nlCands.filter (fun i => decide (midlineX < coordAt x i))),
       pySorted (nlCands.filter (fun i => !decide (midlineX < coordAt x i))))
  { chin := pySorted chinCands
    chinC :=
      if chinCands = [] then []
      else pySorted (chinCands.filter
        (fun i => decide (|coordAt x i - midlineX| < chinThird / 2)))
    chinL :=
      if chinCands = [] then []
      else pySorted (chinCands.filter
        (fun i => decide (midlineX + chinThird / 2 < coordAt x i)))
    chinR :=
      if chinCands = [] then []
      else pySorted (chinCands.filter
        (fun i => decide (coordAt x i < midlineX - chinThird / 2)))
    jawL := pySorted jawLC
    jawR := pySorted jawRC
    jawlineL :=
      if jawLC = [] then []
      else pySorted (jawLC.filter (fun i => decide (coordAt y i < pctOf y jawLC 35)))
    jawlineR :=
      if jawRC = [] then []
      else pySorted (jawRC.filter (fun i => decide (coordAt y i < pctOf y jawRC 35)))
    cheekL := pySorted cheekLC
    cheekR := pySorted cheekRC
    cheekboneL :=
      if cheekLC = [] then []
      else pySorted (cheekLC.filter (fun i => decide (cheekMidY < coordAt y i)))
    cheekboneR :=
      if cheekRC = [] then []
      else pySorted (cheekRC.filter (fun i => decide (cheekMidY < coordAt y i)))
    hollowL :=
      if cheekLC = [] then []
      else pySorted (cheekLC.filter (fun i => decide (coordAt y i ≤ cheekMidY)))
    hollowR :=
      if cheekRC = [] then []
      else pySorted (cheekRC.filter (fun i => decide (coordAt y i ≤ cheekMidY)))
    nasoL := nlPair.1
    nasoR := nlPair.2 }

/-- Temple fallback from the scalp (source lines 871-884): when the
forehead-derived temple_left list is empty and a scalp region exists,
both temples are recomputed from the lower half of the scalp, with the
70th/30th x-percentile thresholds; if the lower half is empty the old
pair is kept.  (The 5th y-percentile the source computes is unused.) -/
def scalpTemples (x y : List ℚ) (scalpIdx : List ℕ) (old : List ℕ × List ℕ) :
    List ℕ × List ℕ :=
  let scalpYMed := medOf y scalpIdx
  let scalpLow := scalpIdx.filter (fun i => decide (coordAt y i < scalpYMed))
  if scalpLow = [] then old
  else
    (pySorted (scalpLow.filter (fun i => decide (pctOf x scalpLow 70 < coordAt x i))),
     pySorted (scalpLow.filter (fun i => decide (coordAt x i < pctOf x scalpLow 30))))

/-- The face remainder (source lines 427-430): the face mask minus the
ten specific regions, sorted and duplicate-free, empty when the face
mask is empty. -/
def faceRemainder (faceIdx : List ℕ) (specific : Finset ℕ) : List ℕ :=
  if faceIdx = [] then [] else sortFinset (faceIdx.toFinset \ specific)

/-- The final temple pair (source lines 871-884): the forehead-derived
temples unless temple_left came out empty and a scalp region exists, in
which case both temples are recomputed from the scalp. -/
def templesFinal (x y : List ℚ) (scalpIdx : List ℕ) (F : ForeheadZones) :
    List ℕ × List ℕ :=
  if F.templeL = [] ∧ scalpIdx ≠ [] then
    scalpTemples x y scalpIdx (F.templeL, F.templeR)
  else (F.templeL, F.templeR)

/-- All intermediate data of one run of the Mask-Guided Subdivider: the
coordinate columns, the twelve normalized coarse regions, the face
remainder, the midline, the per-block zone lists and the final temple
pair (after the scalp fallback). -/
structure SubParts : Type where
  n : ℕ
  x : List ℚ
  y : List ℚ
  noseIdx : List ℕ
  lipsIdx : List ℕ
  foreheadIdx : List ℕ
  leftEyeIdx : List ℕ
  rightEyeIdx : List ℕ
  faceIdx : List ℕ
  neckIdx : List ℕ
  leftEarIdx : List ℕ
  rightEarIdx : List ℕ
  scalpIdx : List ℕ
  leftEyeballIdx : List ℕ
  rightEyeballIdx : List ℕ
  faceRem : List ℕ
  midlineX : ℚ
  F : ForeheadZones
  EL : EyeZones
  ER : EyeZones
  NZ : NoseZones
  LZ : LipZones
  FZ : FaceZones
  templeLZ : List ℕ
  templeRZ : List ℕ

/-- One run of the Mask-Guided Subdivider, following the source order:
normalize the coarse regions, compute the face remainder (face minus the
ten specific regions) and the midline (median nose x, else 0), run the
per-region blocks, then apply the scalp temple fallback. -/
def subParts (verts : List Vec3) (masks : List (String × MaskVal)) : SubParts :=
  let n := verts.length
  let x := xCoords verts
  let y := yCoords verts
  let noseIdx := regionIdx n masks "nose"
  let lipsIdx := regionIdx n masks "lips"
  let foreheadIdx := regionIdx n masks "forehead"
  let leftEyeIdx := regionIdx n masks "left_eye_region"
  let rightEyeIdx := regionIdx n masks "right_eye_region"
  let faceIdx := regionIdx n masks "face"
  let neckIdx := regionIdx n masks "neck"
  let leftEarIdx := regionIdx n masks "left_ear"
  let rightEarIdx := regionIdx n masks "right_ear"
  let scalpIdx := regionIdx n masks "scalp"
  let leftEyeballIdx := regionIdx n masks "left_eyeball"
  let rightEyeballIdx := regionIdx n masks "right_eyeball"
  let specific := unionFinsets
    [noseIdx, lipsIdx, foreheadIdx, leftEyeIdx, rightEyeIdx,
     neckIdx, leftEarIdx, rightEarIdx, leftEyeballIdx, rightEyeballIdx]
  let faceRem := faceRemainder faceIdx specific
  let noseMedY := medOf y noseIdx
  let midlineX := if noseIdx = [] then 0 else medOf x noseIdx
  let F := foreheadBlock x y midlineX foreheadIdx
  let EL := eyeBlock x y true leftEyeIdx leftEyeballIdx
  let ER := eyeBlock x y false rightEyeIdx rightEyeballIdx
  let NZ := noseBlock x y midlineX noseMedY noseIdx
  let LZ := lipsBlock x y lipsIdx
  let FZ := faceBlock x y midlineX faceRem noseIdx lipsIdx
  let tlr := templesFinal x y scalpIdx F
  { n := n, x := x, y := y
    noseIdx := noseIdx, lipsIdx := lipsIdx, foreheadIdx := foreheadIdx
    leftEyeIdx := leftEyeIdx, rightEyeIdx := rightEyeIdx, faceIdx := faceIdx
    neckIdx := neckIdx, leftEarIdx := leftEarIdx, rightEarIdx := rightEarIdx
    scalpIdx := scalpIdx, leftEyeballIdx := leftEyeballIdx
    rightEyeballIdx := rightEyeballIdx
    faceRem := faceRem, midlineX := midlineX
    F := F, EL := EL, ER := ER, NZ := NZ, LZ := LZ, FZ := FZ
    templeLZ := tlr.1, templeRZ := tlr.2 }

/-- The lists united into full_face (source lines 889-906): every zone
list except neck, ear_left, ear_right and full_face itself (nose_dorsum
shares the nose_bridge list), followed by the six raw coarse sets that
are unioned in afterwards. -/
def ffList (P : SubParts) : List (List ℕ) :=
  [P.F.forehead, P.F.fl, P.F.fr, P.F.fc,
   P.F.browL, P.F.browR, P.F.browInL, P.F.browInR,
   P.EL.upperZ, P.EL.lowerZ, P.ER.upperZ, P.ER.lowerZ,
   P.EL.cornerIn, P.EL.cornerOut, P.ER.cornerIn, P.ER.cornerOut,
   P.EL.underEye, P.ER.underEye, P.EL.tearTrough, P.ER.tearTrough,
   P.NZ.bridge, P.NZ.bridgeU, P.NZ.bridgeL,
   P.NZ.tip, P.NZ.tipL, P.NZ.tipR, P.NZ.nostrilL, P.NZ.nostrilR,
   P.FZ.cheekL, P.FZ.cheekR, P.FZ.cheekboneL, P.FZ.cheekboneR,
   P.FZ.hollowL, P.FZ.hollowR, P.FZ.nasoL, P.FZ.nasoR,
   P.LZ.lipU, P.LZ.upLeft, P.LZ.upRight, P.LZ.upCenter,
   P.LZ.lipLo, P.LZ.loLeft, P.LZ.loRight, P.LZ.loCenter,
   P.LZ.cornerL, P.LZ.cornerR,
   P.FZ.chin, P.FZ.chinC, P.FZ.chinL, P.FZ.chinR,
   P.FZ.jawL, P.FZ.jawR, P.FZ.jawlineL, P.FZ.jawlineR,
   P.templeLZ, P.templeRZ,
   P.faceIdx, P.foreheadIdx, P.noseIdx, P.lipsIdx, P.leftEyeIdx, P.rightEyeIdx]

/-- The final zone list for one zone name, from the run data P.  Each arm
returns the list the source leaves in regions[name] when it returns. -/
def zoneFun (P : SubParts) (nm : String) : List ℕ :=
  if nm = "full_face" then sortFinset (unionFinsets (ffList P))
  else if nm = "forehead" then P.F.forehead
  else if nm = "forehead_left" then P.F.fl
  else if nm = "forehead_right" then P.F.fr
  else if nm = "forehead_center" then P.F.fc
  else if nm = "brow_left" then P.F.browL
  else if nm = "brow_right" then P.F.browR
  else if nm = "brow_inner_left" then P.F.browInL
  else if nm = "brow_inner_right" then P.F.browInR
  else if nm = "eye_left_upper" then P.EL.upperZ
  else if nm = "eye_left_lower" then P.EL.lowerZ
  else if nm = "eye_right_upper" then P.ER.upperZ
  else if nm = "eye_right_lower" then P.ER.lowerZ
  else if nm = "eye_left_corner_inner" then P.EL.cornerIn
  else if nm = "eye_left_corner_outer" then P.EL.cornerOut
  else if nm = "eye_right_corner_inner" then P.ER.cornerIn
  else if nm = "eye_right_corner_outer" then P.ER.cornerOut
  else if nm = "under_eye_left" then P.EL.underEye
  else if nm = "under_eye_right" then P.ER.underEye
  else if nm = "tear_trough_left" then P.EL.tearTrough
  else if nm = "tear_trough_right" then P.ER.tearTrough
  else if nm = "nose_bridge" then P.NZ.bridge
  else if nm = "nose_bridge_upper" then P.NZ.bridgeU
  else if nm = "nose_bridge_lower" then P.NZ.bridgeL
  else if nm = "nose_tip" then P.NZ.tip
  else if nm = "nose_tip_left" then P.NZ.tipL
  else if nm = "nose_tip_right" then P.NZ.tipR
  else if nm = "nostril_left" then P.NZ.nostrilL
  else if nm = "nostril_right" then P.NZ.nostrilR
  else if nm = "nose_dorsum" then P.NZ.bridge
  else if nm = "cheek_left" then P.FZ.cheekL
  else if nm = "cheek_right" then P.FZ.cheekR
  else if nm = "cheekbone_left" then P.FZ.cheekboneL
  else if nm = "cheekbone_right" then P.FZ.cheekboneR
  else if nm = "cheek_hollow_left" then P.FZ.hollowL
  else if nm = "cheek_hollow_right" then P.FZ.hollowR
  else if nm = "nasolabial_left" then P.FZ.nasoL
  else if nm = "nasolabial_right" then P.FZ.nasoR
  else if nm = "lip_upper" then P.LZ.lipU
  else if nm = "lip_upper_left" then P.LZ.upLeft
  else if nm = "lip_upper_right" then P.LZ.upRight
  else if nm = "lip_upper_center" then P.LZ.upCenter
  else if nm = "lip_lower" then P.LZ.lipLo
  else if nm = "lip_lower_left" then P.LZ.loLeft
  else if nm = "lip_lower_right" then P.LZ.loRight
  else if nm = "lip_lower_center" then P.LZ.loCenter
  else if nm = "lip_corner_left" then P.LZ.cornerL
  else if nm = "lip_corner_right" then P.LZ.cornerR
  else if nm = "chin" then P.FZ.chin
  else if nm = "chin_center" then P.FZ.chinC
  else if nm = "chin_left" then P.FZ.chinL
  else if nm = "chin_right" then P.FZ.chinR
  else if nm = "jaw_left" then P.FZ.jawL
  else if nm = "jaw_right" then P.FZ.jawR
  else if nm = "jawline_left" then P.FZ.jawlineL
  else if nm = "jawline_right" then P.FZ.jawlineR
  else if nm = "temple_left" then P.templeLZ
  else if nm = "temple_right" then P.templeRZ
  else if nm = "ear_left" then pySorted P.leftEarIdx
  else if nm = "ear_right" then pySorted P.rightEarIdx
  else if nm = "neck" then pySorted P.neckIdx
  else []

/-- subdivide_flame_masks_to_clinical_zones: the returned dict, as the
list of its key/value pairs in key-insertion order (the dict is created
with all 61 keys up front and no key is ever added or removed). -/
def subdivide (verts : List Vec3) (masks : List (String × MaskVal)) :
    List (String × List ℕ) :=
  ALL_CLINICAL_ZONES.map (fun nm => (nm, zoneFun (subParts verts masks) nm))

/-- Zone lookup in a returned zone map (regions[name], empty for a key
that is not present). -/
def zoneGet (zm : List (String × List ℕ)) (nm : String) : List ℕ :=
  match zm.find? (fun p => p.1 == nm) with
  | some p => p.2
  | none => []

/-- Division with an explicit zero-divisor fault.  numpy float division
by zero does not raise; it produces NaN (or inf), and every subsequent
comparison against it is false.  none models that absorbing value. -/
def safeDiv (a b : ℚ) : Option ℚ := if b = 0 then none else some (a / b)

/-- NaN-aware strict less-than against a constant: false when the left
operand is the fault value. -/
def oLt (o : Option ℚ) (c : ℚ) : Bool :=
  match o with
  | none => false
  | some v => decide (v < c)

/-- NaN-aware strict greater-than against a constant. -/
def oGt (o : Option ℚ) (c : ℚ) : Bool :=
  match o with
  | none => false
  | some v => decide (c < v)

/-- NaN-aware open-interval membership lo < v < hi. -/
def oBtw (lo : ℚ) (o : Option ℚ) (hi : ℚ) : Bool :=
  match o with
  | none => false
  | some v => decide (lo < v) && decide (v < hi)

/-- NaN-aware absolute-value bound abs(v) < c. -/
def oAbsLt (o : Option ℚ) (c : ℚ) : Bool :=
  match o with
  | none => false
  | some v => decide (|v| < c)

/-- NaN-aware absolute-value bound abs(v) > c. -/
def oAbsGt (o : Option ℚ) (c : ℚ) : Bool :=
  match o with
  | none => false
  | some v => decide (c < |v|)

/-- NaN-aware nearness test abs(v - c) < eps. -/
def oNear (o : Option ℚ) (c eps : ℚ) : Bool :=
  match o with
  | none => false
  | some v => decide (|v - c| < eps)

/-- The z bounding-box midpoint of the mesh ((z_min + z_max) / 2). -/
def zMid (verts : List Vec3) : ℚ :=
  (listMin (zCoords verts) + listMax (zCoords verts)) / 2

/-- The per-vertex data of _position_only_regions (source lines
1498-1517): normalized height yn in [0, 1], normalized lateral offset xn
in [-1, 1] around the bounding-box midline, and the front-facing gate
z > z_mid.  The two divisions are written exactly as in the source, with
no fallback divisor, so a degenerate axis range produces the fault value
none (numpy NaN) for every vertex. -/
structure PosParams : Type where
  yn : ℕ → Option ℚ
  xn : ℕ → Option ℚ
  front : ℕ → Bool

/-- Build the PosParams of a vertex array. -/
def posParams (verts : List Vec3) : PosParams :=
  let x := xCoords verts
  let y := yCoords verts
  let z := zCoords verts
  let yMin := listMin y
  let yMax := listMax y
  let xMin := listMin x
  let xMax := listMax x
  let yRange := yMax - yMin
  let xRange := xMax - xMin
  let midline := (xMin + xMax) / 2
  let zm := zMid verts
  { yn := fun i => safeDiv (coordAt y i - yMin) yRange
    xn := fun i => safeDiv (coordAt x i - midline) (xRange / 2)
    front := fun i => decide (zm < coordAt z i) }

/-- The gate shared by every zone test except neck (source lines
1519-1525): the vertex was not claimed by the neck branch (whose test
would have continued the loop) and is front-facing. -/
def cGate (p : PosParams) (i : ℕ) : Bool :=
  !(oLt (p.yn i) 0.10) && p.front i

/-- The per-vertex membership test of each zone in
_position_only_regions (source lines 1519-1686), keyed by zone name.
Each arm is the conjunction of the conditions on the control path that
appends the vertex to that zone list. -/
def posCond (p : PosParams) (nm : String) (i : ℕ) : Bool :=
  let yn := p.yn i
  let xn := p.xn i
  let g := cGate p i
  let foreheadC := g && oGt yn 0.75
  let browBand := g && oBtw 0.65 yn 0.75
  let browLC := browBand && oGt xn 0.10
  let browRC := browBand && oLt xn (-0.10)
  let eyeBand := g && oBtw 0.55 yn 0.68
  let eyeL := eyeBand && oBtw 0.15 xn 0.55
  let eyeR := eyeBand && oBtw (-0.55) xn (-0.15)
  let ueBand := g && oBtw 0.48 yn 0.58
  let ueL := ueBand && oBtw 0.10 xn 0.50
  let ueR := ueBand && oBtw (-0.50) xn (-0.10)
  let bridgeC := g && oBtw 0.35 yn 0.60 && oAbsLt xn 0.15
  let tipC := g && oBtw 0.30 yn 0.40 && oAbsLt xn 0.15
  let nostB := g && oBtw 0.28 yn 0.38
  let cheekC := g && oBtw 0.30 yn 0.55 && oAbsGt xn 0.25
  let cheekLC := cheekC && oGt xn 0
  let cheekRC := cheekC && !(oGt xn 0)
  let nasoC := g && oBtw 0.28 yn 0.48 && oAbsGt xn 0.15 && oAbsLt xn 0.28
  let lipsB := g && oBtw 0.22 yn 0.32 && oAbsLt xn 0.25
  let lipUC := lipsB && oGt yn 0.27
  let lipLC := lipsB && !(oGt yn 0.27)
  let lipCornerB := lipsB && oNear yn 0.27 0.03 && oAbsGt xn 0.18
  let chinB := g && oBtw 0.12 yn 0.24 && oAbsLt xn 0.30
  let jawB := g && oBtw 0.10 yn 0.30 && oAbsGt xn 0.25
  let jawLC := jawB && oGt xn 0
  let jawRC := jawB && !(oGt xn 0)
  let templeB := g && oBtw 0.60 yn 0.78 && oAbsGt xn 0.50
  let earB := g && oBtw 0.40 yn 0.70 && oAbsGt xn 0.80
  if nm = "neck" then oLt yn 0.10
  else if nm = "full_face" then g && oGt yn 0.10
  else if nm = "forehead" then foreheadC
  else if nm = "forehead_left" then foreheadC && oGt xn 0.15
  else if nm = "forehead_right" then foreheadC && !(oGt xn 0.15) && oLt xn (-0.15)
  else if nm = "forehead_center" then foreheadC && !(oGt xn 0.15) && !(oLt xn (-0.15))
  else if nm = "brow_left" then browLC
  else if nm = "brow_inner_left" then browLC && oLt xn 0.30
  else if nm = "brow_right" then browRC
  else if nm = "brow_inner_right" then browRC && oGt xn (-0.30)
  else if nm = "eye_left_upper" then eyeL && oGt yn 0.62
  else if nm = "eye_left_lower" then eyeL && !(oGt yn 0.62)
  else if nm = "eye_left_corner_inner" then eyeL && oLt xn 0.25
  else if nm = "eye_left_corner_outer" then eyeL && oGt xn 0.45
  else if nm = "eye_right_upper" then eyeR && oGt yn 0.62
  else if nm = "eye_right_lower" then eyeR && !(oGt yn 0.62)
  else if nm = "eye_right_corner_inner" then eyeR && oGt xn (-0.25)
  else if nm = "eye_right_corner_outer" then eyeR && oLt xn (-0.45)
  else if nm = "under_eye_left" then ueL
  else if nm = "tear_trough_left" then ueL && oLt xn 0.30
  else if nm = "under_eye_right" then ueR
  else if nm = "tear_trough_right" then ueR && oGt xn (-0.30)
  else if nm = "nose_bridge" then bridgeC
  else if nm = "nose_dorsum" then bridgeC
  else if nm = "nose_bridge_upper" then bridgeC && oGt yn 0.48
  else if nm = "nose_bridge_lower" then bridgeC && !(oGt yn 0.48)
  else if nm = "nose_tip" then tipC
  else if nm = "nose_tip_left" then tipC && oGt xn 0
  else if nm = "nose_tip_right" then tipC && !(oGt xn 0)
  else if nm = "nostril_left" then nostB && oBtw 0.08 xn 0.22
  else if nm = "nostril_right" then nostB && oBtw (-0.22) xn (-0.08)
  else if nm = "cheek_left" then cheekLC
  else if nm = "cheekbone_left" then cheekLC && oGt yn 0.42
  else if nm = "cheek_hollow_left" then cheekLC && !(oGt yn 0.42)
  else if nm = "cheek_right" then cheekRC
  else if nm = "cheekbone_right" then cheekRC && oGt yn 0.42
  else if nm = "cheek_hollow_right" then cheekRC && !(oGt yn 0.42)
  else if nm = "nasolabial_left" then nasoC && oGt xn 0
  else if nm = "nasolabial_right" then nasoC && !(oGt xn 0)
  else if nm = "lip_upper" then lipUC
  else if nm = "lip_upper_left" then lipUC && oGt xn 0.06
  else if nm = "lip_upper_right" then lipUC && !(oGt xn 0.06) && oLt xn (-0.06)
  else if nm = "lip_upper_center" then lipUC && !(oGt xn 0.06) && !(oLt xn (-0.06))
  else if nm = "lip_lower" then lipLC
  else if nm = "lip_lower_left" then lipLC && oGt xn 0.06
  else if nm = "lip_lower_right" then lipLC && !(oGt xn 0.06) && oLt xn (-0.06)
  else if nm = "lip_lower_center" then lipLC && !(oGt xn 0.06) && !(oLt xn (-0.06))
  else if nm = "lip_corner_left" then lipCornerB && oGt xn 0
  else if nm = "lip_corner_right" then lipCornerB && !(oGt xn 0)
  else if nm = "chin" then chinB
  else if nm = "chin_center" then chinB && oAbsLt xn 0.10
  else if nm = "chin_left" then chinB && !(oAbsLt xn 0.10) && oGt xn 0
  else if nm = "chin_right" then chinB && !(oAbsLt xn 0.10) && !(oGt xn 0)
  else if nm = "jaw_left" then jawLC
  else if nm = "jawline_left" then jawLC && oLt yn 0.18
  else if nm = "jaw_right" then jawRC
  else if nm = "jawline_right" then jawRC && oLt yn 0.18
  else if nm = "temple_left" then templeB && oGt xn 0
  else if nm = "temple_right" then templeB && !(oGt xn 0)
  else if nm = "ear_left" then earB && oGt xn 0
  else if nm = "ear_right" then earB && !(oGt xn 0)
  else false

/-- _position_only_regions: the returned dict, as the list of its
key/value pairs.  The source appends vertices in index order, so each
zone list is the filter of range(n) by that zone's membership test. -/
def posOnly (verts : List Vec3) : List (String × List ℕ) :=
  ALL_CLINICAL_ZONES.map
    (fun nm => (nm, (List.range verts.length).filter (posCond (posParams verts) nm)))

/-- The yn value of _compute_vertex_stats (source lines 356-357), which,
unlike _position_only_regions, guards the divisor: when the y range is
not positive the divisor falls back to 1, so yn is (y - y_min) / 1 = 0
for a degenerate range. -/
def vertexStatsYn (verts : List Vec3) (i : ℕ) : ℚ :=
  let y := yCoords verts
  let yMin := listMin y
  let yRange := listMax y - yMin
  (coordAt y i - yMin) / (if 0 < yRange then yRange else 1)

/-- A checked run of the Mask-Guided Subdivider, modelling the fault
surface of the Python code conservatively: numpy raises when the vertex
array is empty (min/max reductions in _compute_vertex_stats) and when a
coarse region holds a vertex index outside range(N) that reaches a
coordinate lookup; the check flags every out-of-range index of the
twelve read regions.  When no fault is flagged the result is exactly the
total model subdivide. -/
def subdivideChecked (verts : List Vec3) (masks : List (String × MaskVal)) :
    Option (List (String × List ℕ)) :=
  if verts.length = 0 then none
  else if usedRegionKeys.all
      (fun k => (regionIdx verts.length masks k).all (fun i => decide (i < verts.length))) then
    some (subdivide verts masks)
  else none

/-- All indices of a zone list are valid indices into the vertex array. -/
def BoundedLt (n : ℕ) (l : List ℕ) : Prop := ∀ i ∈ l, i < n

/-- A candidate index list: duplicate-free and within range. -/
def GoodList (n : ℕ) (l : List ℕ) : Prop := l.Nodup ∧ BoundedLt n l

/-- A well-formed output zone list: strictly increasing and within
range. -/
def StrictSorted (n : ℕ) (l : List ℕ) : Prop :=
  l.Pairwise (· < ·) ∧ BoundedLt n l

theorem goodList_nil (n : ℕ) : GoodList n [] :=
  ⟨List.nodup_nil, fun i h => absurd h (List.not_mem_nil i)⟩

theorem strictSorted_nil (n : ℕ) : StrictSorted n [] :=
  ⟨List.Pairwise.nil, fun i h => absurd h (List.not_mem_nil i)⟩

theorem goodList_of_strictSorted {n : ℕ} {l : List ℕ} (h : StrictSorted n l) :
    GoodList n l :=
  ⟨h.1.imp (fun hab => Nat.ne_of_lt hab), h.2⟩

theorem goodList_sublist {n : ℕ} {l l2 : List ℕ} (hs : l.Sublist l2)
    (h : GoodList n l2) : GoodList n l :=
  ⟨h.1.sublist hs, fun i hi => h.2 i (hs.subset hi)⟩

theorem goodList_filter {n : ℕ} {l : List ℕ} (p : ℕ → Bool) (h : GoodList n l) :
    GoodList n (l.filter p) :=
  goodList_sublist (List.filter_sublist l) h

theorem mem_pySorted {l : List ℕ} {i : ℕ} : i ∈ pySorted l ↔ i ∈ l :=
  (List.perm_insertionSort (· ≤ ·) l).mem_iff

theorem strictSorted_pySorted {n : ℕ} {l : List ℕ} (h : GoodList n l) :
    StrictSorted n (pySorted l) := by
  constructor
  · have hle : (pySorted l).Pairwise (· ≤ ·) := List.sorted_insertionSort (· ≤ ·) l
    have hnd : (pySorted l).Nodup :=
      ((List.perm_insertionSort (· ≤ ·) l).nodup_iff).mpr h.1
    exact (hle.and hnd).imp (fun hab => lt_of_le_of_ne hab.1 hab.2)
  · intro i hi
    exact h.2 i (mem_pySorted.mp hi)

theorem mem_sortFinset {s : Finset ℕ} {i : ℕ} : i ∈ sortFinset s ↔ i ∈ s :=
  Finset.mem_sort (· ≤ ·)

theorem strictSorted_sortFinset {n : ℕ} {s : Finset ℕ} (h : ∀ i ∈ s, i < n) :
    StrictSorted n (sortFinset s) :=
  ⟨Finset.sort_sorted_lt s, fun i hi => h i (mem_sortFinset.mp hi)⟩

theorem mem_unionFoldl (ls : List (List ℕ)) (s : Finset ℕ) (i : ℕ) :
    (i ∈ ls.foldl (fun s l => s ∪ l.toFinset) s) ↔ (i ∈ s ∨ ∃ l ∈ ls, i ∈ l) := by
  induction ls generalizing s with
  | nil => simp
  | cons a t ih =>
      rw [List.foldl_cons, ih]
      simp only [Finset.mem_union, List.mem_toFinset, List.mem_cons]
      constructor
      · rintro ((h | h) | ⟨l, hl, hil⟩)
        · exact Or.inl h
        · exact Or.inr ⟨a, Or.inl rfl, h⟩
        · exact Or.inr ⟨l, Or.inr hl, hil⟩
      · rintro (h | ⟨l, (rfl | hl), hil⟩)
        · exact Or.inl (Or.inl h)
        · exact Or.inl (Or.inr hil)
        · exact Or.inr ⟨l, hl, hil⟩

theorem mem_unionFinsets {ls : List (List ℕ)} {i : ℕ} :
    i ∈ unionFinsets ls ↔ ∃ l ∈ ls, i ∈ l := by
  unfold unionFinsets
  rw [mem_unionFoldl]
  simp

theorem zoneGet_keyed (f : String → List ℕ) :
    ∀ (keys : List String) (nm : String), nm ∈ keys →
      zoneGet (keys.map (fun k => (k, f k))) nm = f nm := by
  intro keys
  induction keys with
  | nil => intro nm h; exact absurd h (List.not_mem_nil nm)
  | cons k t ih =>
      intro nm hm
      by_cases hk : k = nm
      · subst hk
        unfold zoneGet
        rw [List.map_cons, List.find?_cons_of_pos]
        exact beq_self_eq_true k
      · have hmt : nm ∈ t := by
          rcases List.mem_cons.mp hm with h | h
          · exact absurd h.symm hk
          · exact h
        unfold zoneGet at ih ⊢
        rw [List.map_cons, List.find?_cons_of_neg]
        · exact ih nm hmt
        · simp [hk]

theorem zoneGet_keyed_not (f : String → List ℕ) :
    ∀ (keys : List String) (nm : String), nm ∉ keys →
      zoneGet (keys.map (fun k => (k, f k))) nm = [] := by
  intro keys
  induction keys with
  | nil => intro nm _; rfl
  | cons k t ih =>
      intro nm hm
      have hk : k ≠ nm := fun h => hm (h ▸ List.mem_cons_self k t)
      have hmt : nm ∉ t := fun h => hm (List.mem_cons_of_mem k h)
      unfold zoneGet at ih ⊢
      rw [List.map_cons, List.find?_cons_of_neg]
      · exact ih nm hmt
      · simp [hk]

theorem zoneGet_subdivide (verts : List Vec3) (masks : List (String × MaskVal))
    {nm : String} (h : nm ∈ ALL_CLINICAL_ZONES) :
    zoneGet (subdivide verts masks) nm = zoneFun (subParts verts masks) nm :=
  zoneGet_keyed _ ALL_CLINICAL_ZONES nm h

theorem zoneGet_posOnly (verts : List Vec3) {nm : String}
    (h : nm ∈ ALL_CLINICAL_ZONES) :
    zoneGet (posOnly verts) nm =
      (List.range verts.length).filter (posCond (posParams verts) nm) :=
  zoneGet_keyed _ ALL_CLINICAL_ZONES nm h

theorem strictSorted_filter {n : ℕ} {l : List ℕ} (p : ℕ → Bool)
    (h : StrictSorted n l) : StrictSorted n (l.filter p) :=
  ⟨h.1.sublist (List.filter_sublist l),
   fun i hi => h.2 i ((List.filter_sublist l).subset hi)⟩

theorem strictSorted_ite {n : ℕ} {c : Prop} [Decidable c] {l1 l2 : List ℕ}
    (h1 : StrictSorted n l1) (h2 : StrictSorted n l2) :
    StrictSorted n (if c then l1 else l2) := by
  split
  · exact h1
  · exact h2

theorem goodList_ite {n : ℕ} {c : Prop} [Decidable c] {l1 l2 : List ℕ}
    (h1 : GoodList n l1) (h2 : GoodList n l2) :
    GoodList n (if c then l1 else l2) := by
  split
  · exact h1
  · exact h2

theorem strictSorted_pySorted_filter {n : ℕ} {l : List ℕ} (p : ℕ → Bool)
    (h : GoodList n l) : StrictSorted n (pySorted (l.filter p)) :=
  strictSorted_pySorted (goodList_filter p h)

theorem foreheadBlock_strict {n : ℕ} (x y : List ℚ) (mx : ℚ) {fidx : List ℕ}
    (h : StrictSorted n fidx) :
    StrictSorted n (foreheadBlock x y mx fidx).forehead ∧
    StrictSorted n (foreheadBlock x y mx fidx).fl ∧
    StrictSorted n (foreheadBlock x y mx fidx).fr ∧
    StrictSorted n (foreheadBlock x y mx fidx).fc ∧
    StrictSorted n (foreheadBlock x y mx fidx).browL ∧
    StrictSorted n (foreheadBlock x y mx fidx).browR ∧
    StrictSorted n (foreheadBlock x y mx fidx).browInL ∧
    StrictSorted n (foreheadBlock x y mx fidx).browInR ∧
    StrictSorted n (foreheadBlock x y mx fidx).templeL ∧
    StrictSorted n (foreheadBlock x y mx fidx).templeR := by
  have hg : GoodList n fidx := goodList_of_strictSorted h
  unfold foreheadBlock
  split
  · exact ⟨strictSorted_nil n, strictSorted_nil n, strictSorted_nil n,
      strictSorted_nil n, strictSorted_nil n, strictSorted_nil n,
      strictSorted_nil n, strictSorted_nil n, strictSorted_nil n,
      strictSorted_nil n⟩
  · refine ⟨strictSorted_pySorted hg, strictSorted_filter _ h,
      strictSorted_filter _ h, strictSorted_filter _ h,
      strictSorted_pySorted_filter _ (goodList_filter _ hg),
      strictSorted_pySorted_filter _ (goodList_filter _ hg),
      strictSorted_ite (strictSorted_nil n)
        (strictSorted_pySorted_filter _ (goodList_filter _ (goodList_filter _ hg))),
      strictSorted_ite (strictSorted_nil n)
        (strictSorted_pySorted_filter _ (goodList_filter _ (goodList_filter _ hg))),
      strictSorted_ite (strictSorted_nil n)
        (strictSorted_pySorted_filter _ (goodList_filter _ hg)),
      strictSorted_ite (strictSorted_nil n)
        (strictSorted_pySorted_filter _ (goodList_filter _ hg))⟩

theorem goodList_eyeSkinResolved {n : ℕ} {eyeIdx eyeballIdx : List ℕ}
    (h : GoodList n eyeIdx) : GoodList n (eyeSkinResolved eyeIdx eyeballIdx) := by
  unfold eyeSkinResolved
  exact goodList_ite h (goodList_filter _ h)

theorem eyeBlock_strict {n : ℕ} (x y : List ℚ) (isLeft : Bool)
    {eyeIdx : List ℕ} (eyeballIdx : List ℕ) (h : GoodList n eyeIdx) :
    StrictSorted n (eyeBlock x y isLeft eyeIdx eyeballIdx).upperZ ∧
    StrictSorted n (eyeBlock x y isLeft eyeIdx eyeballIdx).lowerZ ∧
    StrictSorted n (eyeBlock x y isLeft eyeIdx eyeballIdx).cornerIn ∧
    StrictSorted n (eyeBlock x y isLeft eyeIdx eyeballIdx).cornerOut ∧
    StrictSorted n (eyeBlock x y isLeft eyeIdx eyeballIdx).underEye ∧
    StrictSorted n (eyeBlock x y isLeft eyeIdx eyeballIdx).tearTrough := by
  have hskin : GoodList n (eyeSkinResolved eyeIdx eyeballIdx) :=
    goodList_eyeSkinResolved h
  unfold eyeBlock
  split
  · exact ⟨strictSorted_nil n, strictSorted_nil n, strictSorted_nil n,
      strictSorted_nil n, strictSorted_nil n, strictSorted_nil n⟩
  · refine ⟨strictSorted_pySorted_filter _ hskin,
      strictSorted_pySorted_filter _ hskin, ?_, ?_,
      strictSorted_pySorted_filter _ hskin, ?_⟩
    · refine strictSorted_ite (strictSorted_nil n) ?_
      exact strictSorted_ite
        (strictSorted_pySorted_filter _ (goodList_filter _ hskin))
        (strictSorted_pySorted_filter _ (goodList_filter _ hskin))
    · refine strictSorted_ite (strictSorted_nil n) ?_
      exact strictSorted_ite
        (strictSorted_pySorted_filter _ (goodList_filter _ hskin))
        (strictSorted_pySorted_filter _ (goodList_filter _ hskin))
    · refine strictSorted_ite (strictSorted_nil n) ?_
      exact strictSorted_ite
        (strictSorted_pySorted_filter _ (goodList_filter _ hskin))
        (strictSorted_pySorted_filter _ (goodList_filter _ hskin))

theorem noseBlock_strict {n : ℕ} (x y : List ℚ) (mx nmy : ℚ) {noseIdx : List ℕ}
    (h : GoodList n noseIdx) :
    StrictSorted n (noseBlock x y mx nmy noseIdx).bridge ∧
    StrictSorted n (noseBlock x y mx nmy noseIdx).bridgeU ∧
    StrictSorted n (noseBlock x y mx nmy noseIdx).bridgeL ∧
    StrictSorted n (noseBlock x y mx nmy noseIdx).tip ∧
    StrictSorted n (noseBlock x y mx nmy noseIdx).tipL ∧
    StrictSorted n (noseBlock x y mx nmy noseIdx).tipR ∧
    StrictSorted n (noseBlock x y mx nmy noseIdx).nostrilL ∧
    StrictSorted n (noseBlock x y mx nmy noseIdx).nostrilR := by
  have htip : GoodList n
      (if noseIdx.filter (fun i => decide (coordAt y i ≤ pctOf y noseIdx 5 +
          (pctOf y noseIdx 95 - pctOf y noseIdx 5) * 0.30) &&
          decide (pctOf y noseIdx 5 + (pctOf y noseIdx 95 - pctOf y noseIdx 5) * 0.10 <
            coordAt y i)) = [] then
        noseIdx.filter (fun i => decide (coordAt y i ≤ pctOf y noseIdx 5 +
          (pctOf y noseIdx 95 - pctOf y noseIdx 5) * 0.30) &&
          decide (pctOf y noseIdx 5 + (pctOf y noseIdx 95 - pctOf y noseIdx 5) * 0.10 <
            coordAt y i))
      else (noseIdx.filter (fun i => decide (coordAt y i ≤ pctOf y noseIdx 5 +
          (pctOf y noseIdx 95 - pctOf y noseIdx 5) * 0.30) &&
          decide (pctOf y noseIdx 5 + (pctOf y noseIdx 95 - pctOf y noseIdx 5) * 0.10 <
            coordAt y i))).filter
          (fun i => decide (|coordAt x i - mx| <
            (pctOf x noseIdx 90 - pctOf x noseIdx 10) * 0.35))) :=
    goodList_ite (goodList_filter _ h) (goodList_filter _ (goodList_filter _ h))
  unfold noseBlock
  split
  · exact ⟨strictSorted_nil n, strictSorted_nil n, strictSorted_nil n,
      strictSorted_nil n, strictSorted_nil n, strictSorted_nil n,
      strictSorted_nil n, strictSorted_nil n⟩
  · refine ⟨strictSorted_pySorted_filter _ h, ?_, ?_,
      strictSorted_pySorted htip, ?_, ?_, ?_, ?_⟩
    · exact strictSorted_ite (strictSorted_nil n)
        (strictSorted_pySorted_filter _ (goodList_filter _ h))
    · exact strictSorted_ite (strictSorted_nil n)
        (strictSorted_pySorted_filter _ (goodList_filter _ h))
    · exact strictSorted_ite (strictSorted_nil n)
        (strictSorted_pySorted_filter _ htip)
    · exact strictSorted_ite (strictSorted_nil n)
        (strictSorted_pySorted_filter _ htip)
    · exact strictSorted_ite (strictSorted_nil n)
        (strictSorted_pySorted_filter _ (goodList_filter _ h))
    · exact strictSorted_ite (strictSorted_nil n)
        (strictSorted_pySorted_filter _ (goodList_filter _ h))

theorem lipsBlock_strict {n : ℕ} (x y : List ℚ) {lipsIdx : List ℕ}
    (h : GoodList n lipsIdx) :
    StrictSorted n (lipsBlock x y lipsIdx).lipU ∧
    StrictSorted n (lipsBlock x y lipsIdx).lipLo ∧
    StrictSorted n (lipsBlock x y lipsIdx).upLeft ∧
    StrictSorted n (lipsBlock x y lipsIdx).upRight ∧
    StrictSorted n (lipsBlock x y lipsIdx).upCenter ∧
    StrictSorted n (lipsBlock x y lipsIdx).loLeft ∧
    StrictSorted n (lipsBlock x y lipsIdx).loRight ∧
    StrictSorted n (lipsBlock x y lipsIdx).loCenter ∧
    StrictSorted n (lipsBlock x y lipsIdx).cornerL ∧
    StrictSorted n (lipsBlock x y lipsIdx).cornerR := by
  unfold lipsBlock
  split
  · exact ⟨strictSorted_nil n, strictSorted_nil n, strictSorted_nil n,
      strictSorted_nil n, strictSorted_nil n, strictSorted_nil n,
      strictSorted_nil n, strictSorted_nil n, strictSorted_nil n,
      strictSorted_nil n⟩
  · refine ⟨strictSorted_pySorted_filter _ h, strictSorted_pySorted_filter _ h,
      ?_, ?_, ?_, ?_, ?_, ?_, ?_, ?_⟩ <;>
    exact strictSorted_ite (strictSorted_nil n)
      (strictSorted_pySorted_filter _ (goodList_filter _ h))

theorem faceBlock_strict {n : ℕ} (x y : List ℚ) (mx : ℚ)
    {fr : List ℕ} (noseIdx lipsIdx : List ℕ) (h : GoodList n fr) :
    StrictSorted n (faceBlock x y mx fr noseIdx lipsIdx).chin ∧
    StrictSorted n (faceBlock x y mx fr noseIdx lipsIdx).chinC ∧
    StrictSorted n (faceBlock x y mx fr noseIdx lipsIdx).chinL ∧
    StrictSorted n (faceBlock x y mx fr noseIdx lipsIdx).chinR ∧
    StrictSorted n (faceBlock x y mx fr noseIdx lipsIdx).jawL ∧
    StrictSorted n (faceBlock x y mx fr noseIdx lipsIdx).jawR ∧
    StrictSorted n (faceBlock x y mx fr noseIdx lipsIdx).jawlineL ∧
    StrictSorted n (faceBlock x y mx fr noseIdx lipsIdx).jawlineR ∧
    StrictSorted n (faceBlock x y mx fr noseIdx lipsIdx).cheekL ∧
    StrictSorted n (faceBlock x y mx fr noseIdx lipsIdx).cheekR ∧
    StrictSorted n (faceBlock x y mx fr noseIdx lipsIdx).cheekboneL ∧
    StrictSorted n (faceBlock x y mx fr noseIdx lipsIdx).cheekboneR ∧
    StrictSorted n (faceBlock x y mx fr noseIdx lipsIdx).hollowL ∧
    StrictSorted n (faceBlock x y mx fr noseIdx lipsIdx).hollowR ∧
    StrictSorted n (faceBlock x y mx fr noseIdx lipsIdx).nasoL ∧
    StrictSorted n (faceBlock x y mx fr noseIdx lipsIdx).nasoR := by
  unfold faceBlock
  split
  · exact ⟨strictSorted_nil n, strictSorted_nil n, strictSorted_nil n,
      strictSorted_nil n, strictSorted_nil n, strictSorted_nil n,
      strictSorted_nil n, strictSorted_nil n, strictSorted_nil n,
      strictSorted_nil n, strictSorted_nil n, strictSorted_nil n,
      strictSorted_nil n, strictSorted_nil n, strictSorted_nil n,
      strictSorted_nil n⟩
  · refine ⟨strictSorted_pySorted_filter _ h, ?_, ?_, ?_,
      strictSorted_pySorted_filter _ (goodList_filter _ h),
      strictSorted_pySorted_filter _ (goodList_filter _ h),
      ?_, ?_,
      strictSorted_pySorted_filter _ (goodList_filter _ h),
      strictSorted_pySorted_filter _ (goodList_filter _ h),
      ?_, ?_, ?_, ?_, ?_, ?_⟩
    · exact strictSorted_ite (strictSorted_nil n)
        (strictSorted_pySorted_filter _ (goodList_filter _ h))
    · exact strictSorted_ite (strictSorted_nil n)
        (strictSorted_pySorted_filter _ (goodList_filter _ h))
    · exact strictSorted_ite (strictSorted_nil n)
        (strictSorted_pySorted_filter _ (goodList_filter _ h))
    · exact strictSorted_ite (strictSorted_nil n)
        (strictSorted_pySorted_filter _ (goodList_filter _ (goodList_filter _ h)))
    · exact strictSorted_ite (strictSorted_nil n)
        (strictSorted_pySorted_filter _ (goodList_filter _ (goodList_filter _ h)))
    · exact strictSorted_ite (strictSorted_nil n)
        (strictSorted_pySorted_filter _ (goodList_filter _ (goodList_filter _ h)))
    · exact strictSorted_ite (strictSorted_nil n)
        (strictSorted_pySorted_filter _ (goodList_filter _ (goodList_filter _ h)))
    · exact strictSorted_ite (strictSorted_nil n)
        (strictSorted_pySorted_filter _ (goodList_filter _ (goodList_filter _ h)))
    · exact strictSorted_ite (strictSorted_nil n)
        (strictSorted_pySorted_filter _ (goodList_filter _ (goodList_filter _ h)))
    · show StrictSorted n (Prod.fst (if _ ∨ _ then _ else _))
      split
      · exact strictSorted_nil n
      · exact strictSorted_pySorted_filter _ (goodList_filter _ h)
    · show StrictSorted n (Prod.snd (if _ ∨ _ then _ else _))
      split
      · exact strictSorted_nil n
      · exact strictSorted_pySorted_filter _ (goodList_filter _ h)

theorem scalpTemples_strict {n : ℕ} (x y : List ℚ) {scalpIdx : List ℕ}
    (old : List ℕ × List ℕ) (h : GoodList n scalpIdx)
    (h1 : StrictSorted n old.1) (h2 : StrictSorted n old.2) :
    StrictSorted n (scalpTemples x y scalpIdx old).1 ∧
    StrictSorted n (scalpTemples x y scalpIdx old).2 := by
  unfold scalpTemples
  simp only []
  split
  · exact ⟨h1, h2⟩
  · exact ⟨strictSorted_pySorted_filter _ (goodList_filter _ h),
      strictSorted_pySorted_filter _ (goodList_filter _ h)⟩

theorem templesFinal_strict {n : ℕ} (x y : List ℚ) {scalpIdx : List ℕ}
    (F : ForeheadZones) (h : GoodList n scalpIdx)
    (h1 : StrictSorted n F.templeL) (h2 : StrictSorted n F.templeR) :
    StrictSorted n (templesFinal x y scalpIdx F).1 ∧
    StrictSorted n (templesFinal x y scalpIdx F).2 := by
  unfold templesFinal
  split
  · exact scalpTemples_strict x y (F.templeL, F.templeR) h h1 h2
  · exact ⟨h1, h2⟩

theorem faceRemainder_strict {n : ℕ} {faceIdx : List ℕ} (specific : Finset ℕ)
    (h : BoundedLt n faceIdx) : StrictSorted n (faceRemainder faceIdx specific) := by
  unfold faceRemainder
  split
  · exact strictSorted_nil n
  · refine strictSorted_sortFinset (fun i hi => ?_)
    exact h i (List.mem_toFinset.mp (Finset.mem_sdiff.mp hi).1)

set_option maxHeartbeats 1600000 in
theorem zoneFun_strict {n : ℕ} {P : SubParts}
    (hall : ∀ l ∈ ffList P, StrictSorted n l)
    (hneck : GoodList n P.neckIdx) (hearL : GoodList n P.leftEarIdx)
    (hearR : GoodList n P.rightEarIdx) :
    ∀ nm ∈ ALL_CLINICAL_ZONES, StrictSorted n (zoneFun P nm) := by
  have hffB : ∀ i ∈ unionFinsets (ffList P), i < n := by
    intro i hi
    rcases mem_unionFinsets.mp hi with ⟨l, hl, hil⟩
    exact (hall l hl).2 i hil
  have ha1 := hall _ (List.mem_cons_self _ _)
  have ha2 := hall _ (List.mem_cons_of_mem _ (List.mem_cons_self _ _))
  have ha3 := hall _ (List.mem_cons_of_mem _ (List.mem_cons_of_mem _ (List.mem_cons_self _ _)))
  have ha4 := hall _ (List.mem_cons_of_mem _ (List.mem_cons_of_mem _ (List.mem_cons_of_mem _ (List.mem_cons_self _ _))))
  have ha5 := hall _ (List.mem_cons_of_mem _ (List.mem_cons_of_mem _ (List.mem_cons_of_mem _ (List.mem_cons_of_mem _ (List.mem_cons_self _ _)))))
  have ha6 := hall _ (List.mem_cons_of_mem _ (List.mem_cons_of_mem _ (List.mem_cons_of_mem _ (List.mem_cons_of_mem _ (List.mem_cons_of_mem _ (List.mem_cons_self _ _))))))
  have ha7 := hall _ (List.mem_cons_of_mem _ (List.mem_cons_of_mem _ (List.mem_cons_of_mem _ (List.mem_cons_of_mem _ (List.mem_cons_of_mem _ (List.mem_cons_of_mem _ (List.mem_cons_self _ _)))))))
  have ha8 := hall _ (List.mem_cons_of_mem _ (List.mem_cons_of_mem _ (List.mem_cons_of_mem _ (List.mem_cons_of_mem _ (List.mem_cons_of_mem _ (List.mem_cons_of_mem _ (List.mem_cons_of_mem _ (List.mem_cons_self _ _))))))))
  have ha9 := hall _ (List.mem_cons_of_mem _ (List.mem_cons_of_mem _ (List.mem_cons_of_mem _ (List.mem_cons_of_mem _ (List.mem_cons_of_mem _ (List.mem_cons_of_mem _ (List.mem_cons_of_mem _ (List.mem_cons_of_mem _ (List.mem_cons_self _ _)))))))))
  have ha10 := hall _ (List.mem_cons_of_mem _ (List.mem_cons_of_mem _ (List.mem_cons_of_mem _ (List.mem_cons_of_mem _ (List.mem_cons_of_mem _ (List.mem_cons_of_mem _ (List.mem_cons_of_mem _ (List.mem_cons_of_mem _ (List.mem_cons_of_mem _ (List.mem_cons_self _ _))))))))))
  have ha11 := hall _ (List.mem_cons_of_mem _ (List.mem_cons_of_mem _ (List.mem_cons_of_mem _ (List.mem_cons_of_mem _ (List.mem_cons_of_mem _ (List.mem_cons_of_mem _ (List.mem_cons_of_mem _ (List.mem_cons_of_mem _ (List.mem_cons_of_mem _ (List.mem_cons_of_mem _ (List.mem_cons_self _ _)))))))))))
  have ha12 := hall _ (List.mem_cons_of_mem _ (List.mem_cons_of_mem _ (List.mem_cons_of_mem _ (List.mem_cons_of_mem _ (List.mem_cons_of_mem _ (List.mem_cons_of_mem _ (List.mem_cons_of_mem _ (List.mem_cons_of_mem _ (List.mem_cons_of_mem _ (List.mem_cons_of_mem _ (List.mem_cons_of_mem _ (List.mem_cons_self _ _))))))))))))
  have ha13 := hall _ (List.mem_cons_of_mem _ (List.mem_cons_of_mem _ (List.mem_cons_of_mem _ (List.mem_cons_of_mem _ (List.mem_cons_of_mem _ (List.mem_cons_of_mem _ (List.mem_cons_of_mem _ (List.mem_cons_of_mem _ (List.mem_cons_of_mem _ (List.mem_cons_of_mem _ (List.mem_cons_of_mem _ (List.mem_cons_of_mem _ (List.mem_cons_self _ _)))))))))))))
  have ha14 := hall _ (List.mem_cons_of_mem _ (List.mem_cons_of_mem _ (List.mem_cons_of_mem _ (List.mem_cons_of_mem _ (List.mem_cons_of_mem _ (List.mem_cons_of_mem _ (List.mem_cons_of_mem _ (List.mem_cons_of_mem _ (List.mem_cons_of_mem _ (List.mem_cons_of_mem _ (List.mem_cons_of_mem _ (List.mem_cons_of_mem _ (List.mem_cons_of_mem _ (List.mem_cons_self _ _))))))))))))))
  have ha15 := hall _ (List.mem_cons_of_mem _ (List.mem_cons_of_mem _ (List.mem_cons_of_mem _ (List.mem_cons_of_mem _ (List.mem_cons_of_mem _ (List.mem_cons_of_mem _ (List.mem_cons_of_mem _ (List.mem_cons_of_mem _ (List.mem_cons_of_mem _ (List.mem_cons_of_mem _ (List.mem_cons_of_mem _ (List.mem_cons_of_mem _ (List.mem_cons_of_mem _ (List.mem_cons_of_mem _ (List.mem_cons_self _ _)))))))))))))))
  have ha16 := hall _ (List.mem_cons_of_mem _ (List.mem_cons_of_mem _ (List.mem_cons_of_mem _ (List.mem_cons_of_mem _ (List.mem_cons_of_mem _ (List.mem_cons_of_mem _ (List.mem_cons_of_mem _ (List.mem_cons_of_mem _ (List.mem_cons_of_mem _ (List.mem_cons_of_mem _ (List.mem_cons_of_mem _ (List.mem_cons_of_mem _ (List.mem_cons_of_mem _ (List.mem_cons_of_mem _ (List.mem_cons_of_mem _ (List.mem_cons_self _ _))))))))))))))))
  have ha17 := hall _ (List.mem_cons_of_mem _ (List.mem_cons_of_mem _ (List.mem_cons_of_mem _ (List.mem_cons_of_mem _ (List.mem_cons_of_mem _ (List.mem_cons_of_mem _ (List.mem_cons_of_mem _ (List.mem_cons_of_mem _ (List.mem_cons_of_mem _ (List.mem_cons_of_mem _ (List.mem_cons_of_mem _ (List.mem_cons_of_mem _ (List.mem_cons_of_mem _ (List.mem_cons_of_mem _ (List.mem_cons_of_mem _ (List.mem_cons_of_mem _ (List.mem_cons_self _ _)))))))))))))))))
  have ha18 := hall _ (List.mem_cons_of_mem _ (List.mem_cons_of_mem _ (List.mem_cons_of_mem _ (List.mem_cons_of_mem _ (List.mem_cons_of_mem _ (List.mem_cons_of_mem _ (List.mem_cons_of_mem _ (List.mem_cons_of_mem _ (List.mem_cons_of_mem _ (List.mem_cons_of_mem _ (List.mem_cons_of_mem _ (List.mem_cons_of_mem _ (List.mem_cons_of_mem _ (List.mem_cons_of_mem _ (List.mem_cons_of_mem _ (List.mem_cons_of_mem _ (List.mem_cons_of_mem _ (List.mem_cons_self _ _))))))))))))))))))
  have ha19 := hall _ (List.mem_cons_of_mem _ (List.mem_cons_of_mem _ (List.mem_cons_of_mem _ (List.mem_cons_of_mem _ (List.mem_cons_of_mem _ (List.mem_cons_of_mem _ (List.mem_cons_of_mem _ (List.mem_cons_of_mem _ (List.mem_cons_of_mem _ (List.mem_cons_of_mem _ (List.mem_cons_of_mem _ (List.mem_cons_of_mem _ (List.mem_cons_of_mem _ (List.mem_cons_of_mem _ (List.mem_cons_of_mem _ (List.mem_cons_of_mem _ (List.mem_cons_of_mem _ (List.mem_cons_of_mem _ (List.mem_cons_self _ _)))))))))))))))))))
  have ha20 := hall _ (List.mem_cons_of_mem _ (List.mem_cons_of_mem _ (List.mem_cons_of_mem _ (List.mem_cons_of_mem _ (List.mem_cons_of_mem _ (List.mem_cons_of_mem _ (List.mem_cons_of_mem _ (List.mem_cons_of_mem _ (List.mem_cons_of_mem _ (List.mem_cons_of_mem _ (List.mem_cons_of_mem _ (List.mem_cons_of_mem _ (List.mem_cons_of_mem _ (List.mem_cons_of_mem _ (List.mem_cons_of_mem _ (List.mem_cons_of_mem _ (List.mem_cons_of_mem _ (List.mem_cons_of_mem _ (List.mem_cons_of_mem _ (List.mem_cons_self _ _))))))))))))))))))))
  have ha21 := hall _ (List.mem_cons_of_mem _ (List.mem_cons_of_mem _ (List.mem_cons_of_mem _ (List.mem_cons_of_mem _ (List.mem_cons_of_mem _ (List.mem_cons_of_mem _ (List.mem_cons_of_mem _ (List.mem_cons_of_mem _ (List.mem_cons_of_mem _ (List.mem_cons_of_mem _ (List.mem_cons_of_mem _ (List.mem_cons_of_mem _ (List.mem_cons_of_mem _ (List.mem_cons_of_mem _ (List.mem_cons_of_mem _ (List.mem_cons_of_mem _ (List.mem_cons_of_mem _ (List.mem_cons_of_mem _ (List.mem_cons_of_mem _ (List.mem_cons_of_mem _ (List.mem_cons_self _ _)))))))))))))))))))))
  have ha22 := hall _ (List.mem_cons_of_mem _ (List.mem_cons_of_mem _ (List.mem_cons_of_mem _ (List.mem_cons_of_mem _ (List.mem_cons_of_mem _ (List.mem_cons_of_mem _ (List.mem_cons_of_mem _ (List.mem_cons_of_mem _ (List.mem_cons_of_mem _ (List.mem_cons_of_mem _ (List.mem_cons_of_mem _ (List.mem_cons_of_mem _ (List.mem_cons_of_mem _ (List.mem_cons_of_mem _ (List.mem_cons_of_mem _ (List.mem_cons_of_mem _ (List.mem_cons_of_mem _ (List.mem_cons_of_mem _ (List.mem_cons_of_mem _ (List.mem_cons_of_mem _ (List.mem_cons_of_mem _ (List.mem_cons_self _ _))))))))))))))))))))))
  have ha23 := hall _ (List.mem_cons_of_mem _ (List.mem_cons_of_mem _ (List.mem_cons_of_mem _ (List.mem_cons_of_mem _ (List.mem_cons_of_mem _ (List.mem_cons_of_mem _ (List.mem_cons_of_mem _ (List.mem_cons_of_mem _ (List.mem_cons_of_mem _ (List.mem_cons_of_mem _ (List.mem_cons_of_mem _ (List.mem_cons_of_mem _ (List.mem_cons_of_mem _ (List.mem_cons_of_mem _ (List.mem_cons_of_mem _ (List.mem_cons_of_mem _ (List.mem_cons_of_mem _ (List.mem_cons_of_mem _ (List.mem_cons_of_mem _ (List.mem_cons_of_mem _ (List.mem_cons_of_mem _ (List.mem_cons_of_mem _ (List.mem_cons_self _ _)))))))))))))))))))))))
  have ha24 := hall _ (List.mem_cons_of_mem _ (List.mem_cons_of_mem _ (List.mem_cons_of_mem _ (List.mem_cons_of_mem _ (List.mem_cons_of_mem _ (List.mem_cons_of_mem _ (List.mem_cons_of_mem _ (List.mem_cons_of_mem _ (List.mem_cons_of_mem _ (List.mem_cons_of_mem _ (List.mem_cons_of_mem _ (List.mem_cons_of_mem _ (List.mem_cons_of_mem _ (List.mem_cons_of_mem _ (List.mem_cons_of_mem _ (List.mem_cons_of_mem _ (List.mem_cons_of_mem _ (List.mem_cons_of_mem _ (List.mem_cons_of_mem _ (List.mem_cons_of_mem _ (List.mem_cons_of_mem _ (List.mem_cons_of_mem _ (List.mem_cons_of_mem _ (List.mem_cons_self _ _))))))))))))))))))))))))
  have ha25 := hall _ (List.mem_cons_of_mem _ (List.mem_cons_of_mem _ (List.mem_cons_of_mem _ (List.mem_cons_of_mem _ (List.mem_cons_of_mem _ (List.mem_cons_of_mem _ (List.mem_cons_of_mem _ (List.mem_cons_of_mem _ (List.mem_cons_of_mem _ (List.mem_cons_of_mem _ (List.mem_cons_of_mem _ (List.mem_cons_of_mem _ (List.mem_cons_of_mem _ (List.mem_cons_of_mem _ (List.mem_cons_of_mem _ (List.mem_cons_of_mem _ (List.mem_cons_of_mem _ (List.mem_cons_of_mem _ (List.mem_cons_of_mem _ (List.mem_cons_of_mem _ (List.mem_cons_of_mem _ (List.mem_cons_of_mem _ (List.mem_cons_of_mem _ (List.mem_cons_of_mem _ (List.mem_cons_self _ _)))))))))))))))))))))))))
  have ha26 := hall _ (List.mem_cons_of_mem _ (List.mem_cons_of_mem _ (List.mem_cons_of_mem _ (List.mem_cons_of_mem _ (List.mem_cons_of_mem _ (List.mem_cons_of_mem _ (List.mem_cons_of_mem _ (List.mem_cons_of_mem _ (List.mem_cons_of_mem _ (List.mem_cons_of_mem _ (List.mem_cons_of_mem _ (List.mem_cons_of_mem _ (List.mem_cons_of_mem _ (List.mem_cons_of_mem _ (List.mem_cons_of_mem _ (List.mem_cons_of_mem _ (List.mem_cons_of_mem _ (List.mem_cons_of_mem _ (List.mem_cons_of_mem _ (List.mem_cons_of_mem _ (List.mem_cons_of_mem _ (List.mem_cons_of_mem _ (List.mem_cons_of_mem _ (List.mem_cons_of_mem _ (List.mem_cons_of_mem _ (List.mem_cons_self _ _))))))))))))))))))))))))))
  have ha27 := hall _ (List.mem_cons_of_mem _ (List.mem_cons_of_mem _ (List.mem_cons_of_mem _ (List.mem_cons_of_mem _ (List.mem_cons_of_mem _ (List.mem_cons_of_mem _ (List.mem_cons_of_mem _ (List.mem_cons_of_mem _ (List.mem_cons_of_mem _ (List.mem_cons_of_mem _ (List.mem_cons_of_mem _ (List.mem_cons_of_mem _ (List.mem_cons_of_mem _ (List.mem_cons_of_mem _ (List.mem_cons_of_mem _ (List.mem_cons_of_mem _ (List.mem_cons_of_mem _ (List.mem_cons_of_mem _ (List.mem_cons_of_mem _ (List.mem_cons_of_mem _ (List.mem_cons_of_mem _ (List.mem_cons_of_mem _ (List.mem_cons_of_mem _ (List.mem_cons_of_mem _ (List.mem_cons_of_mem _ (List.mem_cons_of_mem _ (List.mem_cons_self _ _)))))))))))))))))))))))))))
  have ha28 := hall _ (List.mem_cons_of_mem _ (List.mem_cons_of_mem _ (List.mem_cons_of_mem _ (List.mem_cons_of_mem _ (List.mem_cons_of_mem _ (List.mem_cons_of_mem _ (List.mem_cons_of_mem _ (List.mem_cons_of_mem _ (List.mem_cons_of_mem _ (List.mem_cons_of_mem _ (List.mem_cons_of_mem _ (List.mem_cons_of_mem _ (List.mem_cons_of_mem _ (List.mem_cons_of_mem _ (List.mem_cons_of_mem _ (List.mem_cons_of_mem _ (List.mem_cons_of_mem _ (List.mem_cons_of_mem _ (List.mem_cons_of_mem _ (List.mem_cons_of_mem _ (List.mem_cons_of_mem _ (List.mem_cons_of_mem _ (List.mem_cons_of_mem _ (List.mem_cons_of_mem _ (List.mem_cons_of_mem _ (List.mem_cons_of_mem _ (List.mem_cons_of_mem _ (List.mem_cons_self _ _))))))))))))))))))))))))))))
  have ha29 := hall _ (List.mem_cons_of_mem _ (List.mem_cons_of_mem _ (List.mem_cons_of_mem _ (List.mem_cons_of_mem _ (List.mem_cons_of_mem _ (List.mem_cons_of_mem _ (List.mem_cons_of_mem _ (List.mem_cons_of_mem _ (List.mem_cons_of_mem _ (List.mem_cons_of_mem _ (List.mem_cons_of_mem _ (List.mem_cons_of_mem _ (List.mem_cons_of_mem _ (List.mem_cons_of_mem _ (List.mem_cons_of_mem _ (List.mem_cons_of_mem _ (List.mem_cons_of_mem _ (List.mem_cons_of_mem _ (List.mem_cons_of_mem _ (List.mem_cons_of_mem _ (List.mem_cons_of_mem _ (List.mem_cons_of_mem _ (List.mem_cons_of_mem _ (List.mem_cons_of_mem _ (List.mem_cons_of_mem _ (List.mem_cons_of_mem _ (List.mem_cons_of_mem _ (List.mem_cons_of_mem _ (List.mem_cons_self _ _)))))))))))))))))))))))))))))
  have ha30 := hall _ (List.mem_cons_of_mem _ (List.mem_cons_of_mem _ (List.mem_cons_of_mem _ (List.mem_cons_of_mem _ (List.mem_cons_of_mem _ (List.mem_cons_of_mem _ (List.mem_cons_of_mem _ (List.mem_cons_of_mem _ (List.mem_cons_of_mem _ (List.mem_cons_of_mem _ (List.mem_cons_of_mem _ (List.mem_cons_of_mem _ (List.mem_cons_of_mem _ (List.mem_cons_of_mem _ (List.mem_cons_of_mem _ (List.mem_cons_of_mem _ (List.mem_cons_of_mem _ (List.mem_cons_of_mem _ (List.mem_cons_of_mem _ (List.mem_cons_of_mem _ (List.mem_cons_of_mem _ (List.mem_cons_of_mem _ (List.mem_cons_of_mem _ (List.mem_cons_of_mem _ (List.mem_cons_of_mem _ (List.mem_cons_of_mem _ (List.mem_cons_of_mem _ (List.mem_cons_of_mem _ (List.mem_cons_of_mem _ (List.mem_cons_self _ _))))))))))))))))))))))))))))))
  have ha31 := hall _ (List.mem_cons_of_mem _ (List.mem_cons_of_mem _ (List.mem_cons_of_mem _ (List.mem_cons_of_mem _ (List.mem_cons_of_mem _ (List.mem_cons_of_mem _ (List.mem_cons_of_mem _ (List.mem_cons_of_mem _ (List.mem_cons_of_mem _ (List.mem_cons_of_mem _ (List.mem_cons_of_mem _ (List.mem_cons_of_mem _ (List.mem_cons_of_mem _ (List.mem_cons_of_mem _ (List.mem_cons_of_mem _ (List.mem_cons_of_mem _ (List.mem_cons_of_mem _ (List.mem_cons_of_mem _ (List.mem_cons_of_mem _ (List.mem_cons_of_mem _ (List.mem_cons_of_mem _ (List.mem_cons_of_mem _ (List.mem_cons_of_mem _ (List.mem_cons_of_mem _ (List.mem_cons_of_mem _ (List.mem_cons_of_mem _ (List.mem_cons_of_mem _ (List.mem_cons_of_mem _ (List.mem_cons_of_mem _ (List.mem_cons_of_mem _ (List.mem_cons_self _ _)))))))))))))))))))))))))))))))
  have ha32 := hall _ (List.mem_cons_of_mem _ (List.mem_cons_of_mem _ (List.mem_cons_of_mem _ (List.mem_cons_of_mem _ (List.mem_cons_of_mem _ (List.mem_cons_of_mem _ (List.mem_cons_of_mem _ (List.mem_cons_of_mem _ (List.mem_cons_of_mem _ (List.mem_cons_of_mem _ (List.mem_cons_of_mem _ (List.mem_cons_of_mem _ (List.mem_cons_of_mem _ (List.mem_cons_of_mem _ (List.mem_cons_of_mem _ (List.mem_cons_of_mem _ (List.mem_cons_of_mem _ (List.mem_cons_of_mem _ (List.mem_cons_of_mem _ (List.mem_cons_of_mem _ (List.mem_cons_of_mem _ (List.mem_cons_of_mem _ (List.mem_cons_of_mem _ (List.mem_cons_of_mem _ (List.mem_cons_of_mem _ (List.mem_cons_of_mem _ (List.mem_cons_of_mem _ (List.mem_cons_of_mem _ (List.mem_cons_of_mem _ (List.mem_cons_of_mem _ (List.mem_cons_of_mem _ (List.mem_cons_self _ _))))))))))))))))))))))))))))))))
  have ha33 := hall _ (List.mem_cons_of_mem _ (List.mem_cons_of_mem _ (List.mem_cons_of_mem _ (List.mem_cons_of_mem _ (List.mem_cons_of_mem _ (List.mem_cons_of_mem _ (List.mem_cons_of_mem _ (List.mem_cons_of_mem _ (List.mem_cons_of_mem _ (List.mem_cons_of_mem _ (List.mem_cons_of_mem _ (List.mem_cons_of_mem _ (List.mem_cons_of_mem _ (List.mem_cons_of_mem _ (List.mem_cons_of_mem _ (List.mem_cons_of_mem _ (List.mem_cons_of_mem _ (List.mem_cons_of_mem _ (List.mem_cons_of_mem _ (List.mem_cons_of_mem _ (List.mem_cons_of_mem _ (List.mem_cons_of_mem _ (List.mem_cons_of_mem _ (List.mem_cons_of_mem _ (List.mem_cons_of_mem _ (List.mem_cons_of_mem _ (List.mem_cons_of_mem _ (List.mem_cons_of_mem _ (List.mem_cons_of_mem _ (List.mem_cons_of_mem _ (List.mem_cons_of_mem _ (List.mem_cons_of_mem _ (List.mem_cons_self _ _)))))))))))))))))))))))))))))))))
  have ha34 := hall _ (List.mem_cons_of_mem _ (List.mem_cons_of_mem _ (List.mem_cons_of_mem _ (List.mem_cons_of_mem _ (List.mem_cons_of_mem _ (List.mem_cons_of_mem _ (List.mem_cons_of_mem _ (List.mem_cons_of_mem _ (List.mem_cons_of_mem _ (List.mem_cons_of_mem _ (List.mem_cons_of_mem _ (List.mem_cons_of_mem _ (List.mem_cons_of_mem _ (List.mem_cons_of_mem _ (List.mem_cons_of_mem _ (List.mem_cons_of_mem _ (List.mem_cons_of_mem _ (List.mem_cons_of_mem _ (List.mem_cons_of_mem _ (List.mem_cons_of_mem _ (List.mem_cons_of_mem _ (List.mem_cons_of_mem _ (List.mem_cons_of_mem _ (List.mem_cons_of_mem _ (List.mem_cons_of_mem _ (List.mem_cons_of_mem _ (List.mem_cons_of_mem _ (List.mem_cons_of_mem _ (List.mem_cons_of_mem _ (List.mem_cons_of_mem _ (List.mem_cons_of_mem _ (List.mem_cons_of_mem _ (List.mem_cons_of_mem _ (List.mem_cons_self _ _))))))))))))))))))))))))))))))))))
  have ha35 := hall _ (List.mem_cons_of_mem _ (List.mem_cons_of_mem _ (List.mem_cons_of_mem _ (List.mem_cons_of_mem _ (List.mem_cons_of_mem _ (List.mem_cons_of_mem _ (List.mem_cons_of_mem _ (List.mem_cons_of_mem _ (List.mem_cons_of_mem _ (List.mem_cons_of_mem _ (List.mem_cons_of_mem _ (List.mem_cons_of_mem _ (List.mem_cons_of_mem _ (List.mem_cons_of_mem _ (List.mem_cons_of_mem _ (List.mem_cons_of_mem _ (List.mem_cons_of_mem _ (List.mem_cons_of_mem _ (List.mem_cons_of_mem _ (List.mem_cons_of_mem _ (List.mem_cons_of_mem _ (List.mem_cons_of_mem _ (List.mem_cons_of_mem _ (List.mem_cons_of_mem _ (List.mem_cons_of_mem _ (List.mem_cons_of_mem _ (List.mem_cons_of_mem _ (List.mem_cons_of_mem _ (List.mem_cons_of_mem _ (List.mem_cons_of_mem _ (List.mem_cons_of_mem _ (List.mem_cons_of_mem _ (List.mem_cons_of_mem _ (List.mem_cons_of_mem _ (List.mem_cons_self _ _)))))))))))))))))))))))))))))))))))
  have ha36 := hall _ (List.mem_cons_of_mem _ (List.mem_cons_of_mem _ (List.mem_cons_of_mem _ (List.mem_cons_of_mem _ (List.mem_cons_of_mem _ (List.mem_cons_of_mem _ (List.mem_cons_of_mem _ (List.mem_cons_of_mem _ (List.mem_cons_of_mem _ (List.mem_cons_of_mem _ (List.mem_cons_of_mem _ (List.mem_cons_of_mem _ (List.mem_cons_of_mem _ (List.mem_cons_of_mem _ (List.mem_cons_of_mem _ (List.mem_cons_of_mem _ (List.mem_cons_of_mem _ (List.mem_cons_of_mem _ (List.mem_cons_of_mem _ (List.mem_cons_of_mem _ (List.mem_cons_of_mem _ (List.mem_cons_of_mem _ (List.mem_cons_of_mem _ (List.mem_cons_of_mem _ (List.mem_cons_of_mem _ (List.mem_cons_of_mem _ (List.mem_cons_of_mem _ (List.mem_cons_of_mem _ (List.mem_cons_of_mem _ (List.mem_cons_of_mem _ (List.mem_cons_of_mem _ (List.mem_cons_of_mem _ (List.mem_cons_of_mem _ (List.mem_cons_of_mem _ (List.mem_cons_of_mem _ (List.mem_cons_self _ _))))))))))))))))))))))))))))))))))))
  have ha37 := hall _ (List.mem_cons_of_mem _ (List.mem_cons_of_mem _ (List.mem_cons_of_mem _ (List.mem_cons_of_mem _ (List.mem_cons_of_mem _ (List.mem_cons_of_mem _ (List.mem_cons_of_mem _ (List.mem_cons_of_mem _ (List.mem_cons_of_mem _ (List.mem_cons_of_mem _ (List.mem_cons_of_mem _ (List.mem_cons_of_mem _ (List.mem_cons_of_mem _ (List.mem_cons_of_mem _ (List.mem_cons_of_mem _ (List.mem_cons_of_mem _ (List.mem_cons_of_mem _ (List.mem_cons_of_mem _ (List.mem_cons_of_mem _ (List.mem_cons_of_mem _ (List.mem_cons_of_mem _ (List.mem_cons_of_mem _ (List.mem_cons_of_mem _ (List.mem_cons_of_mem _ (List.mem_cons_of_mem _ (List.mem_cons_of_mem _ (List.mem_cons_of_mem _ (List.mem_cons_of_mem _ (List.mem_cons_of_mem _ (List.mem_cons_of_mem _ (List.mem_cons_of_mem _ (List.mem_cons_of_mem _ (List.mem_cons_of_mem _ (List.mem_cons_of_mem _ (List.mem_cons_of_mem _ (List.mem_cons_of_mem _ (List.mem_cons_self _ _)))))))))))))))))))))))))))))))))))))
  have ha38 := hall _ (List.mem_cons_of_mem _ (List.mem_cons_of_mem _ (List.mem_cons_of_mem _ (List.mem_cons_of_mem _ (List.mem_cons_of_mem _ (List.mem_cons_of_mem _ (List.mem_cons_of_mem _ (List.mem_cons_of_mem _ (List.mem_cons_of_mem _ (List.mem_cons_of_mem _ (List.mem_cons_of_mem _ (List.mem_cons_of_mem _ (List.mem_cons_of_mem _ (List.mem_cons_of_mem _ (List.mem_cons_of_mem _ (List.mem_cons_of_mem _ (List.mem_cons_of_mem _ (List.mem_cons_of_mem _ (List.mem_cons_of_mem _ (List.mem_cons_of_mem _ (List.mem_cons_of_mem _ (List.mem_cons_of_mem _ (List.mem_cons_of_mem _ (List.mem_cons_of_mem _ (List.mem_cons_of_mem _ (List.mem_cons_of_mem _ (List.mem_cons_of_mem _ (List.mem_cons_of_mem _ (List.mem_cons_of_mem _ (List.mem_cons_of_mem _ (List.mem_cons_of_mem _ (List.mem_cons_of_mem _ (List.mem_cons_of_mem _ (List.mem_cons_of_mem _ (List.mem_cons_of_mem _ (List.mem_cons_of_mem _ (List.mem_cons_of_mem _ (List.mem_cons_self _ _))))))))))))))))))))))))))))))))))))))
  have ha39 := hall _ (List.mem_cons_of_mem _ (List.mem_cons_of_mem _ (List.mem_cons_of_mem _ (List.mem_cons_of_mem _ (List.mem_cons_of_mem _ (List.mem_cons_of_mem _ (List.mem_cons_of_mem _ (List.mem_cons_of_mem _ (List.mem_cons_of_mem _ (List.mem_cons_of_mem _ (List.mem_cons_of_mem _ (List.mem_cons_of_mem _ (List.mem_cons_of_mem _ (List.mem_cons_of_mem _ (List.mem_cons_of_mem _ (List.mem_cons_of_mem _ (List.mem_cons_of_mem _ (List.mem_cons_of_mem _ (List.mem_cons_of_mem _ (List.mem_cons_of_mem _ (List.mem_cons_of_mem _ (List.mem_cons_of_mem _ (List.mem_cons_of_mem _ (List.mem_cons_of_mem _ (List.mem_cons_of_mem _ (List.mem_cons_of_mem _ (List.mem_cons_of_mem _ (List.mem_cons_of_mem _ (List.mem_cons_of_mem _ (List.mem_cons_of_mem _ (List.mem_cons_of_mem _ (List.mem_cons_of_mem _ (List.mem_cons_of_mem _ (List.mem_cons_of_mem _ (List.mem_cons_of_mem _ (List.mem_cons_of_mem _ (List.mem_cons_of_mem _ (List.mem_cons_of_mem _ (List.mem_cons_self _ _)))))))))))))))))))))))))))))))))))))))
  have ha40 := hall _ (List.mem_cons_of_mem _ (List.mem_cons_of_mem _ (List.mem_cons_of_mem _ (List.mem_cons_of_mem _ (List.mem_cons_of_mem _ (List.mem_cons_of_mem _ (List.mem_cons_of_mem _ (List.mem_cons_of_mem _ (List.mem_cons_of_mem _ (List.mem_cons_of_mem _ (List.mem_cons_of_mem _ (List.mem_cons_of_mem _ (List.mem_cons_of_mem _ (List.mem_cons_of_mem _ (List.mem_cons_of_mem _ (List.mem_cons_of_mem _ (List.mem_cons_of_mem _ (List.mem_cons_of_mem _ (List.mem_cons_of_mem _ (List.mem_cons_of_mem _ (List.mem_cons_of_mem _ (List.mem_cons_of_mem _ (List.mem_cons_of_mem _ (List.mem_cons_of_mem _ (List.mem_cons_of_mem _ (List.mem_cons_of_mem _ (List.mem_cons_of_mem _ (List.mem_cons_of_mem _ (List.mem_cons_of_mem _ (List.mem_cons_of_mem _ (List.mem_cons_of_mem _ (List.mem_cons_of_mem _ (List.mem_cons_of_mem _ (List.mem_cons_of_mem _ (List.mem_cons_of_mem _ (List.mem_cons_of_mem _ (List.mem_cons_of_mem _ (List.mem_cons_of_mem _ (List.mem_cons_of_mem _ (List.mem_cons_self _ _))))))))))))))))))))))))))))))))))))))))
  have ha41 := hall _ (List.mem_cons_of_mem _ (List.mem_cons_of_mem _ (List.mem_cons_of_mem _ (List.mem_cons_of_mem _ (List.mem_cons_of_mem _ (List.mem_cons_of_mem _ (List.mem_cons_of_mem _ (List.mem_cons_of_mem _ (List.mem_cons_of_mem _ (List.mem_cons_of_mem _ (List.mem_cons_of_mem _ (List.mem_cons_of_mem _ (List.mem_cons_of_mem _ (List.mem_cons_of_mem _ (List.mem_cons_of_mem _ (List.mem_cons_of_mem _ (List.mem_cons_of_mem _ (List.mem_cons_of_mem _ (List.mem_cons_of_mem _ (List.mem_cons_of_mem _ (List.mem_cons_of_mem _ (List.mem_cons_of_mem _ (List.mem_cons_of_mem _ (List.mem_cons_of_mem _ (List.mem_cons_of_mem _ (List.mem_cons_of_mem _ (List.mem_cons_of_mem _ (List.mem_cons_of_mem _ (List.mem_cons_of_mem _ (List.mem_cons_of_mem _ (List.mem_cons_of_mem _ (List.mem_cons_of_mem _ (List.mem_cons_of_mem _ (List.mem_cons_of_mem _ (List.mem_cons_of_mem _ (List.mem_cons_of_mem _ (List.mem_cons_of_mem _ (List.mem_cons_of_mem _ (List.mem_cons_of_mem _ (List.mem_cons_of_mem _ (List.mem_cons_self _ _)))))))))))))))))))))))))))))))))))))))))
  have ha42 := hall _ (List.mem_cons_of_mem _ (List.mem_cons_of_mem _ (List.mem_cons_of_mem _ (List.mem_cons_of_mem _ (List.mem_cons_of_mem _ (List.mem_cons_of_mem _ (List.mem_cons_of_mem _ (List.mem_cons_of_mem _ (List.mem_cons_of_mem _ (List.mem_cons_of_mem _ (List.mem_cons_of_mem _ (List.mem_cons_of_mem _ (List.mem_cons_of_mem _ (List.mem_cons_of_mem _ (List.mem_cons_of_mem _ (List.mem_cons_of_mem _ (List.mem_cons_of_mem _ (List.mem_cons_of_mem _ (List.mem_cons_of_mem _ (List.mem_cons_of_mem _ (List.mem_cons_of_mem _ (List.mem_cons_of_mem _ (List.mem_cons_of_mem _ (List.mem_cons_of_mem _ (List.mem_cons_of_mem _ (List.mem_cons_of_mem _ (List.mem_cons_of_mem _ (List.mem_cons_of_mem _ (List.mem_cons_of_mem _ (List.mem_cons_of_mem _ (List.mem_cons_of_mem _ (List.mem_cons_of_mem _ (List.mem_cons_of_mem _ (List.mem_cons_of_mem _ (List.mem_cons_of_mem _ (List.mem_cons_of_mem _ (List.mem_cons_of_mem _ (List.mem_cons_of_mem _ (List.mem_cons_of_mem _ (List.mem_cons_of_mem _ (List.mem_cons_of_mem _ (List.mem_cons_self _ _))))))))))))))))))))))))))))))))))))))))))
  have ha43 := hall _ (List.mem_cons_of_mem _ (List.mem_cons_of_mem _ (List.mem_cons_of_mem _ (List.mem_cons_of_mem _ (List.mem_cons_of_mem _ (List.mem_cons_of_mem _ (List.mem_cons_of_mem _ (List.mem_cons_of_mem _ (List.mem_cons_of_mem _ (List.mem_cons_of_mem _ (List.mem_cons_of_mem _ (List.mem_cons_of_mem _ (List.mem_cons_of_mem _ (List.mem_cons_of_mem _ (List.mem_cons_of_mem _ (List.mem_cons_of_mem _ (List.mem_cons_of_mem _ (List.mem_cons_of_mem _ (List.mem_cons_of_mem _ (List.mem_cons_of_mem _ (List.mem_cons_of_mem _ (List.mem_cons_of_mem _ (List.mem_cons_of_mem _ (List.mem_cons_of_mem _ (List.mem_cons_of_mem _ (List.mem_cons_of_mem _ (List.mem_cons_of_mem _ (List.mem_cons_of_mem _ (List.mem_cons_of_mem _ (List.mem_cons_of_mem _ (List.mem_cons_of_mem _ (List.mem_cons_of_mem _ (List.mem_cons_of_mem _ (List.mem_cons_of_mem _ (List.mem_cons_of_mem _ (List.mem_cons_of_mem _ (List.mem_cons_of_mem _ (List.mem_cons_of_mem _ (List.mem_cons_of_mem _ (List.mem_cons_of_mem _ (List.mem_cons_of_mem _ (List.mem_cons_of_mem _ (List.mem_cons_self _ _)))))))))))))))))))))))))))))))))))))))))))
  have ha44 := hall _ (List.mem_cons_of_mem _ (List.mem_cons_of_mem _ (List.mem_cons_of_mem _ (List.mem_cons_of_mem _ (List.mem_cons_of_mem _ (List.mem_cons_of_mem _ (List.mem_cons_of_mem _ (List.mem_cons_of_mem _ (List.mem_cons_of_mem _ (List.mem_cons_of_mem _ (List.mem_cons_of_mem _ (List.mem_cons_of_mem _ (List.mem_cons_of_mem _ (List.mem_cons_of_mem _ (List.mem_cons_of_mem _ (List.mem_cons_of_mem _ (List.mem_cons_of_mem _ (List.mem_cons_of_mem _ (List.mem_cons_of_mem _ (List.mem_cons_of_mem _ (List.mem_cons_of_mem _ (List.mem_cons_of_mem _ (List.mem_cons_of_mem _ (List.mem_cons_of_mem _ (List.mem_cons_of_mem _ (List.mem_cons_of_mem _ (List.mem_cons_of_mem _ (List.mem_cons_of_mem _ (List.mem_cons_of_mem _ (List.mem_cons_of_mem _ (List.mem_cons_of_mem _ (List.mem_cons_of_mem _ (List.mem_cons_of_mem _ (List.mem_cons_of_mem _ (List.mem_cons_of_mem _ (List.mem_cons_of_mem _ (List.mem_cons_of_mem _ (List.mem_cons_of_mem _ (List.mem_cons_of_mem _ (List.mem_cons_of_mem _ (List.mem_cons_of_mem _ (List.mem_cons_of_mem _ (List.mem_cons_of_mem _ (List.mem_cons_self _ _))))))))))))))))))))))))))))))))))))))))))))
  have ha45 := hall _ (List.mem_cons_of_mem _ (List.mem_cons_of_mem _ (List.mem_cons_of_mem _ (List.mem_cons_of_mem _ (List.mem_cons_of_mem _ (List.mem_cons_of_mem _ (List.mem_cons_of_mem _ (List.mem_cons_of_mem _ (List.mem_cons_of_mem _ (List.mem_cons_of_mem _ (List.mem_cons_of_mem _ (List.mem_cons_of_mem _ (List.mem_cons_of_mem _ (List.mem_cons_of_mem _ (List.mem_cons_of_mem _ (List.mem_cons_of_mem _ (List.mem_cons_of_mem _ (List.mem_cons_of_mem _ (List.mem_cons_of_mem _ (List.mem_cons_of_mem _ (List.mem_cons_of_mem _ (List.mem_cons_of_mem _ (List.mem_cons_of_mem _ (List.mem_cons_of_mem _ (List.mem_cons_of_mem _ (List.mem_cons_of_mem _ (List.mem_cons_of_mem _ (List.mem_cons_of_mem _ (List.mem_cons_of_mem _ (List.mem_cons_of_mem _ (List.mem_cons_of_mem _ (List.mem_cons_of_mem _ (List.mem_cons_of_mem _ (List.mem_cons_of_mem _ (List.mem_cons_of_mem _ (List.mem_cons_of_mem _ (List.mem_cons_of_mem _ (List.mem_cons_of_mem _ (List.mem_cons_of_mem _ (List.mem_cons_of_mem _ (List.mem_cons_of_mem _ (List.mem_cons_of_mem _ (List.mem_cons_of_mem _ (List.mem_cons_of_mem _ (List.mem_cons_self _ _)))))))))))))))))))))))))))))))))))))))))))))
  have ha46 := hall _ (List.mem_cons_of_mem _ (List.mem_cons_of_mem _ (List.mem_cons_of_mem _ (List.mem_cons_of_mem _ (List.mem_cons_of_mem _ (List.mem_cons_of_mem _ (List.mem_cons_of_mem _ (List.mem_cons_of_mem _ (List.mem_cons_of_mem _ (List.mem_cons_of_mem _ (List.mem_cons_of_mem _ (List.mem_cons_of_mem _ (List.mem_cons_of_mem _ (List.mem_cons_of_mem _ (List.mem_cons_of_mem _ (List.mem_cons_of_mem _ (List.mem_cons_of_mem _ (List.mem_cons_of_mem _ (List.mem_cons_of_mem _ (List.mem_cons_of_mem _ (List.mem_cons_of_mem _ (List.mem_cons_of_mem _ (List.mem_cons_of_mem _ (List.mem_cons_of_mem _ (List.mem_cons_of_mem _ (List.mem_cons_of_mem _ (List.mem_cons_of_mem _ (List.mem_cons_of_mem _ (List.mem_cons_of_mem _ (List.mem_cons_of_mem _ (List.mem_cons_of_mem _ (List.mem_cons_of_mem _ (List.mem_cons_of_mem _ (List.mem_cons_of_mem _ (List.mem_cons_of_mem _ (List.mem_cons_of_mem _ (List.mem_cons_of_mem _ (List.mem_cons_of_mem _ (List.mem_cons_of_mem _ (List.mem_cons_of_mem _ (List.mem_cons_of_mem _ (List.mem_cons_of_mem _ (List.mem_cons_of_mem _ (List.mem_cons_of_mem _ (List.mem_cons_of_mem _ (List.mem_cons_self _ _))))))))))))))))))))))))))))))))))))))))))))))
  have ha47 := hall _ (List.mem_cons_of_mem _ (List.mem_cons_of_mem _ (List.mem_cons_of_mem _ (List.mem_cons_of_mem _ (List.mem_cons_of_mem _ (List.mem_cons_of_mem _ (List.mem_cons_of_mem _ (List.mem_cons_of_mem _ (List.mem_cons_of_mem _ (List.mem_cons_of_mem _ (List.mem_cons_of_mem _ (List.mem_cons_of_mem _ (List.mem_cons_of_mem _ (List.mem_cons_of_mem _ (List.mem_cons_of_mem _ (List.mem_cons_of_mem _ (List.mem_cons_of_mem _ (List.mem_cons_of_mem _ (List.mem_cons_of_mem _ (List.mem_cons_of_mem _ (List.mem_cons_of_mem _ (List.mem_cons_of_mem _ (List.mem_cons_of_mem _ (List.mem_cons_of_mem _ (List.mem_cons_of_mem _ (List.mem_cons_of_mem _ (List.mem_cons_of_mem _ (List.mem_cons_of_mem _ (List.mem_cons_of_mem _ (List.mem_cons_of_mem _ (List.mem_cons_of_mem _ (List.mem_cons_of_mem _ (List.mem_cons_of_mem _ (List.mem_cons_of_mem _ (List.mem_cons_of_mem _ (List.mem_cons_of_mem _ (List.mem_cons_of_mem _ (List.mem_cons_of_mem _ (List.mem_cons_of_mem _ (List.mem_cons_of_mem _ (List.mem_cons_of_mem _ (List.mem_cons_of_mem _ (List.mem_cons_of_mem _ (List.mem_cons_of_mem _ (List.mem_cons_of_mem _ (List.mem_cons_of_mem _ (List.mem_cons_self _ _)))))))))))))))))))))))))))))))))))))))))))))))
  have ha48 := hall _ (List.mem_cons_of_mem _ (List.mem_cons_of_mem _ (List.mem_cons_of_mem _ (List.mem_cons_of_mem _ (List.mem_cons_of_mem _ (List.mem_cons_of_mem _ (List.mem_cons_of_mem _ (List.mem_cons_of_mem _ (List.mem_cons_of_mem _ (List.mem_cons_of_mem _ (List.mem_cons_of_mem _ (List.mem_cons_of_mem _ (List.mem_cons_of_mem _ (List.mem_cons_of_mem _ (List.mem_cons_of_mem _ (List.mem_cons_of_mem _ (List.mem_cons_of_mem _ (List.mem_cons_of_mem _ (List.mem_cons_of_mem _ (List.mem_cons_of_mem _ (List.mem_cons_of_mem _ (List.mem_cons_of_mem _ (List.mem_cons_of_mem _ (List.mem_cons_of_mem _ (List.mem_cons_of_mem _ (List.mem_cons_of_mem _ (List.mem_cons_of_mem _ (List.mem_cons_of_mem _ (List.mem_cons_of_mem _ (List.mem_cons_of_mem _ (List.mem_cons_of_mem _ (List.mem_cons_of_mem _ (List.mem_cons_of_mem _ (List.mem_cons_of_mem _ (List.mem_cons_of_mem _ (List.mem_cons_of_mem _ (List.mem_cons_of_mem _ (List.mem_cons_of_mem _ (List.mem_cons_of_mem _ (List.mem_cons_of_mem _ (List.mem_cons_of_mem _ (List.mem_cons_of_mem _ (List.mem_cons_of_mem _ (List.mem_cons_of_mem _ (List.mem_cons_of_mem _ (List.mem_cons_of_mem _ (List.mem_cons_of_mem _ (List.mem_cons_self _ _))))))))))))))))))))))))))))))))))))))))))))))))
  have ha49 := hall _ (List.mem_cons_of_mem _ (List.mem_cons_of_mem _ (List.mem_cons_of_mem _ (List.mem_cons_of_mem _ (List.mem_cons_of_mem _ (List.mem_cons_of_mem _ (List.mem_cons_of_mem _ (List.mem_cons_of_mem _ (List.mem_cons_of_mem _ (List.mem_cons_of_mem _ (List.mem_cons_of_mem _ (List.mem_cons_of_mem _ (List.mem_cons_of_mem _ (List.mem_cons_of_mem _ (List.mem_cons_of_mem _ (List.mem_cons_of_mem _ (List.mem_cons_of_mem _ (List.mem_cons_of_mem _ (List.mem_cons_of_mem _ (List.mem_cons_of_mem _ (List.mem_cons_of_mem _ (List.mem_cons_of_mem _ (List.mem_cons_of_mem _ (List.mem_cons_of_mem _ (List.mem_cons_of_mem _ (List.mem_cons_of_mem _ (List.mem_cons_of_mem _ (List.mem_cons_of_mem _ (List.mem_cons_of_mem _ (List.mem_cons_of_mem _ (List.mem_cons_of_mem _ (List.mem_cons_of_mem _ (List.mem_cons_of_mem _ (List.mem_cons_of_mem _ (List.mem_cons_of_mem _ (List.mem_cons_of_mem _ (List.mem_cons_of_mem _ (List.mem_cons_of_mem _ (List.mem_cons_of_mem _ (List.mem_cons_of_mem _ (List.mem_cons_of_mem _ (List.mem_cons_of_mem _ (List.mem_cons_of_mem _ (List.mem_cons_of_mem _ (List.mem_cons_of_mem _ (List.mem_cons_of_mem _ (List.mem_cons_of_mem _ (List.mem_cons_of_mem _ (List.mem_cons_self _ _)))))))))))))))))))))))))))))))))))))))))))))))))
  have ha50 := hall _ (List.mem_cons_of_mem _ (List.mem_cons_of_mem _ (List.mem_cons_of_mem _ (List.mem_cons_of_mem _ (List.mem_cons_of_mem _ (List.mem_cons_of_mem _ (List.mem_cons_of_mem _ (List.mem_cons_of_mem _ (List.mem_cons_of_mem _ (List.mem_cons_of_mem _ (List.mem_cons_of_mem _ (List.mem_cons_of_mem _ (List.mem_cons_of_mem _ (List.mem_cons_of_mem _ (List.mem_cons_of_mem _ (List.mem_cons_of_mem _ (List.mem_cons_of_mem _ (List.mem_cons_of_mem _ (List.mem_cons_of_mem _ (List.mem_cons_of_mem _ (List.mem_cons_of_mem _ (List.mem_cons_of_mem _ (List.mem_cons_of_mem _ (List.mem_cons_of_mem _ (List.mem_cons_of_mem _ (List.mem_cons_of_mem _ (List.mem_cons_of_mem _ (List.mem_cons_of_mem _ (List.mem_cons_of_mem _ (List.mem_cons_of_mem _ (List.mem_cons_of_mem _ (List.mem_cons_of_mem _ (List.mem_cons_of_mem _ (List.mem_cons_of_mem _ (List.mem_cons_of_mem _ (List.mem_cons_of_mem _ (List.mem_cons_of_mem _ (List.mem_cons_of_mem _ (List.mem_cons_of_mem _ (List.mem_cons_of_mem _ (List.mem_cons_of_mem _ (List.mem_cons_of_mem _ (List.mem_cons_of_mem _ (List.mem_cons_of_mem _ (List.mem_cons_of_mem _ (List.mem_cons_of_mem _ (List.mem_cons_of_mem _ (List.mem_cons_of_mem _ (List.mem_cons_of_mem _ (List.mem_cons_self _ _))))))))))))))))))))))))))))))))))))))))))))))))))
  have ha51 := hall _ (List.mem_cons_of_mem _ (List.mem_cons_of_mem _ (List.mem_cons_of_mem _ (List.mem_cons_of_mem _ (List.mem_cons_of_mem _ (List.mem_cons_of_mem _ (List.mem_cons_of_mem _ (List.mem_cons_of_mem _ (List.mem_cons_of_mem _ (List.mem_cons_of_mem _ (List.mem_cons_of_mem _ (List.mem_cons_of_mem _ (List.mem_cons_of_mem _ (List.mem_cons_of_mem _ (List.mem_cons_of_mem _ (List.mem_cons_of_mem _ (List.mem_cons_of_mem _ (List.mem_cons_of_mem _ (List.mem_cons_of_mem _ (List.mem_cons_of_mem _ (List.mem_cons_of_mem _ (List.mem_cons_of_mem _ (List.mem_cons_of_mem _ (List.mem_cons_of_mem _ (List.mem_cons_of_mem _ (List.mem_cons_of_mem _ (List.mem_cons_of_mem _ (List.mem_cons_of_mem _ (List.mem_cons_of_mem _ (List.mem_cons_of_mem _ (List.mem_cons_of_mem _ (List.mem_cons_of_mem _ (List.mem_cons_of_mem _ (List.mem_cons_of_mem _ (List.mem_cons_of_mem _ (List.mem_cons_of_mem _ (List.mem_cons_of_mem _ (List.mem_cons_of_mem _ (List.mem_cons_of_mem _ (List.mem_cons_of_mem _ (List.mem_cons_of_mem _ (List.mem_cons_of_mem _ (List.mem_cons_of_mem _ (List.mem_cons_of_mem _ (List.mem_cons_of_mem _ (List.mem_cons_of_mem _ (List.mem_cons_of_mem _ (List.mem_cons_of_mem _ (List.mem_cons_of_mem _ (List.mem_cons_of_mem _ (List.mem_cons_self _ _)))))))))))))))))))))))))))))))))))))))))))))))))))
  have ha52 := hall _ (List.mem_cons_of_mem _ (List.mem_cons_of_mem _ (List.mem_cons_of_mem _ (List.mem_cons_of_mem _ (List.mem_cons_of_mem _ (List.mem_cons_of_mem _ (List.mem_cons_of_mem _ (List.mem_cons_of_mem _ (List.mem_cons_of_mem _ (List.mem_cons_of_mem _ (List.mem_cons_of_mem _ (List.mem_cons_of_mem _ (List.mem_cons_of_mem _ (List.mem_cons_of_mem _ (List.mem_cons_of_mem _ (List.mem_cons_of_mem _ (List.mem_cons_of_mem _ (List.mem_cons_of_mem _ (List.mem_cons_of_mem _ (List.mem_cons_of_mem _ (List.mem_cons_of_mem _ (List.mem_cons_of_mem _ (List.mem_cons_of_mem _ (List.mem_cons_of_mem _ (List.mem_cons_of_mem _ (List.mem_cons_of_mem _ (List.mem_cons_of_mem _ (List.mem_cons_of_mem _ (List.mem_cons_of_mem _ (List.mem_cons_of_mem _ (List.mem_cons_of_mem _ (List.mem_cons_of_mem _ (List.mem_cons_of_mem _ (List.mem_cons_of_mem _ (List.mem_cons_of_mem _ (List.mem_cons_of_mem _ (List.mem_cons_of_mem _ (List.mem_cons_of_mem _ (List.mem_cons_of_mem _ (List.mem_cons_of_mem _ (List.mem_cons_of_mem _ (List.mem_cons_of_mem _ (List.mem_cons_of_mem _ (List.mem_cons_of_mem _ (List.mem_cons_of_mem _ (List.mem_cons_of_mem _ (List.mem_cons_of_mem _ (List.mem_cons_of_mem _ (List.mem_cons_of_mem _ (List.mem_cons_of_mem _ (List.mem_cons_of_mem _ (List.mem_cons_self _ _))))))))))))))))))))))))))))))))))))))))))))))))))))
  have ha53 := hall _ (List.mem_cons_of_mem _ (List.mem_cons_of_mem _ (List.mem_cons_of_mem _ (List.mem_cons_of_mem _ (List.mem_cons_of_mem _ (List.mem_cons_of_mem _ (List.mem_cons_of_mem _ (List.mem_cons_of_mem _ (List.mem_cons_of_mem _ (List.mem_cons_of_mem _ (List.mem_cons_of_mem _ (List.mem_cons_of_mem _ (List.mem_cons_of_mem _ (List.mem_cons_of_mem _ (List.mem_cons_of_mem _ (List.mem_cons_of_mem _ (List.mem_cons_of_mem _ (List.mem_cons_of_mem _ (List.mem_cons_of_mem _ (List.mem_cons_of_mem _ (List.mem_cons_of_mem _ (List.mem_cons_of_mem _ (List.mem_cons_of_mem _ (List.mem_cons_of_mem _ (List.mem_cons_of_mem _ (List.mem_cons_of_mem _ (List.mem_cons_of_mem _ (List.mem_cons_of_mem _ (List.mem_cons_of_mem _ (List.mem_cons_of_mem _ (List.mem_cons_of_mem _ (List.mem_cons_of_mem _ (List.mem_cons_of_mem _ (List.mem_cons_of_mem _ (List.mem_cons_of_mem _ (List.mem_cons_of_mem _ (List.mem_cons_of_mem _ (List.mem_cons_of_mem _ (List.mem_cons_of_mem _ (List.mem_cons_of_mem _ (List.mem_cons_of_mem _ (List.mem_cons_of_mem _ (List.mem_cons_of_mem _ (List.mem_cons_of_mem _ (List.mem_cons_of_mem _ (List.mem_cons_of_mem _ (List.mem_cons_of_mem _ (List.mem_cons_of_mem _ (List.mem_cons_of_mem _ (List.mem_cons_of_mem _ (List.mem_cons_of_mem _ (List.mem_cons_of_mem _ (List.mem_cons_self _ _)))))))))))))))))))))))))))))))))))))))))))))))))))))
  have ha54 := hall _ (List.mem_cons_of_mem _ (List.mem_cons_of_mem _ (List.mem_cons_of_mem _ (List.mem_cons_of_mem _ (List.mem_cons_of_mem _ (List.mem_cons_of_mem _ (List.mem_cons_of_mem _ (List.mem_cons_of_mem _ (List.mem_cons_of_mem _ (List.mem_cons_of_mem _ (List.mem_cons_of_mem _ (List.mem_cons_of_mem _ (List.mem_cons_of_mem _ (List.mem_cons_of_mem _ (List.mem_cons_of_mem _ (List.mem_cons_of_mem _ (List.mem_cons_of_mem _ (List.mem_cons_of_mem _ (List.mem_cons_of_mem _ (List.mem_cons_of_mem _ (List.mem_cons_of_mem _ (List.mem_cons_of_mem _ (List.mem_cons_of_mem _ (List.mem_cons_of_mem _ (List.mem_cons_of_mem _ (List.mem_cons_of_mem _ (List.mem_cons_of_mem _ (List.mem_cons_of_mem _ (List.mem_cons_of_mem _ (List.mem_cons_of_mem _ (List.mem_cons_of_mem _ (List.mem_cons_of_mem _ (List.mem_cons_of_mem _ (List.mem_cons_of_mem _ (List.mem_cons_of_mem _ (List.mem_cons_of_mem _ (List.mem_cons_of_mem _ (List.mem_cons_of_mem _ (List.mem_cons_of_mem _ (List.mem_cons_of_mem _ (List.mem_cons_of_mem _ (List.mem_cons_of_mem _ (List.mem_cons_of_mem _ (List.mem_cons_of_mem _ (List.mem_cons_of_mem _ (List.mem_cons_of_mem _ (List.mem_cons_of_mem _ (List.mem_cons_of_mem _ (List.mem_cons_of_mem _ (List.mem_cons_of_mem _ (List.mem_cons_of_mem _ (List.mem_cons_of_mem _ (List.mem_cons_of_mem _ (List.mem_cons_self _ _))))))))))))))))))))))))))))))))))))))))))))))))))))))
  have ha55 := hall _ (List.mem_cons_of_mem _ (List.mem_cons_of_mem _ (List.mem_cons_of_mem _ (List.mem_cons_of_mem _ (List.mem_cons_of_mem _ (List.mem_cons_of_mem _ (List.mem_cons_of_mem _ (List.mem_cons_of_mem _ (List.mem_cons_of_mem _ (List.mem_cons_of_mem _ (List.mem_cons_of_mem _ (List.mem_cons_of_mem _ (List.mem_cons_of_mem _ (List.mem_cons_of_mem _ (List.mem_cons_of_mem _ (List.mem_cons_of_mem _ (List.mem_cons_of_mem _ (List.mem_cons_of_mem _ (List.mem_cons_of_mem _ (List.mem_cons_of_mem _ (List.mem_cons_of_mem _ (List.mem_cons_of_mem _ (List.mem_cons_of_mem _ (List.mem_cons_of_mem _ (List.mem_cons_of_mem _ (List.mem_cons_of_mem _ (List.mem_cons_of_mem _ (List.mem_cons_of_mem _ (List.mem_cons_of_mem _ (List.mem_cons_of_mem _ (List.mem_cons_of_mem _ (List.mem_cons_of_mem _ (List.mem_cons_of_mem _ (List.mem_cons_of_mem _ (List.mem_cons_of_mem _ (List.mem_cons_of_mem _ (List.mem_cons_of_mem _ (List.mem_cons_of_mem _ (List.mem_cons_of_mem _ (List.mem_cons_of_mem _ (List.mem_cons_of_mem _ (List.mem_cons_of_mem _ (List.mem_cons_of_mem _ (List.mem_cons_of_mem _ (List.mem_cons_of_mem _ (List.mem_cons_of_mem _ (List.mem_cons_of_mem _ (List.mem_cons_of_mem _ (List.mem_cons_of_mem _ (List.mem_cons_of_mem _ (List.mem_cons_of_mem _ (List.mem_cons_of_mem _ (List.mem_cons_of_mem _ (List.mem_cons_of_mem _ (List.mem_cons_self _ _)))))))))))))))))))))))))))))))))))))))))))))))))))))))
  have ha56 := hall _ (List.mem_cons_of_mem _ (List.mem_cons_of_mem _ (List.mem_cons_of_mem _ (List.mem_cons_of_mem _ (List.mem_cons_of_mem _ (List.mem_cons_of_mem _ (List.mem_cons_of_mem _ (List.mem_cons_of_mem _ (List.mem_cons_of_mem _ (List.mem_cons_of_mem _ (List.mem_cons_of_mem _ (List.mem_cons_of_mem _ (List.mem_cons_of_mem _ (List.mem_cons_of_mem _ (List.mem_cons_of_mem _ (List.mem_cons_of_mem _ (List.mem_cons_of_mem _ (List.mem_cons_of_mem _ (List.mem_cons_of_mem _ (List.mem_cons_of_mem _ (List.mem_cons_of_mem _ (List.mem_cons_of_mem _ (List.mem_cons_of_mem _ (List.mem_cons_of_mem _ (List.mem_cons_of_mem _ (List.mem_cons_of_mem _ (List.mem_cons_of_mem _ (List.mem_cons_of_mem _ (List.mem_cons_of_mem _ (List.mem_cons_of_mem _ (List.mem_cons_of_mem _ (List.mem_cons_of_mem _ (List.mem_cons_of_mem _ (List.mem_cons_of_mem _ (List.mem_cons_of_mem _ (List.mem_cons_of_mem _ (List.mem_cons_of_mem _ (List.mem_cons_of_mem _ (List.mem_cons_of_mem _ (List.mem_cons_of_mem _ (List.mem_cons_of_mem _ (List.mem_cons_of_mem _ (List.mem_cons_of_mem _ (List.mem_cons_of_mem _ (List.mem_cons_of_mem _ (List.mem_cons_of_mem _ (List.mem_cons_of_mem _ (List.mem_cons_of_mem _ (List.mem_cons_of_mem _ (List.mem_cons_of_mem _ (List.mem_cons_of_mem _ (List.mem_cons_of_mem _ (List.mem_cons_of_mem _ (List.mem_cons_of_mem _ (List.mem_cons_of_mem _ (List.mem_cons_self _ _))))))))))))))))))))))))))))))))))))))))))))))))))))))))
  intro nm hnm
  simp only [ALL_CLINICAL_ZONES, List.mem_cons, List.not_mem_nil, or_false] at hnm
  rcases hnm with rfl|rfl|rfl|rfl|rfl|rfl|rfl|rfl|rfl|rfl|rfl|rfl|rfl|rfl|rfl|rfl|rfl|rfl|rfl|rfl|rfl|rfl|rfl|rfl|rfl|rfl|rfl|rfl|rfl|rfl|rfl|rfl|rfl|rfl|rfl|rfl|rfl|rfl|rfl|rfl|rfl|rfl|rfl|rfl|rfl|rfl|rfl|rfl|rfl|rfl|rfl|rfl|rfl|rfl|rfl|rfl|rfl|rfl|rfl|rfl|rfl
  exacts [strictSorted_sortFinset hffB,
    ha1,
    ha2,
    ha3,
    ha4,
    ha5,
    ha6,
    ha7,
    ha8,
    ha9,
    ha10,
    ha11,
    ha12,
    ha13,
    ha14,
    ha15,
    ha16,
    ha17,
    ha18,
    ha19,
    ha20,
    ha21,
    ha22,
    ha23,
    ha24,
    ha25,
    ha26,
    ha27,
    ha28,
    ha21,
    ha29,
    ha30,
    ha31,
    ha32,
    ha33,
    ha34,
    ha35,
    ha36,
    ha37,
    ha38,
    ha39,
    ha40,
    ha41,
    ha42,
    ha43,
    ha44,
    ha45,
    ha46,
    ha47,
    ha48,
    ha49,
    ha50,
    ha51,
    ha52,
    ha53,
    ha54,
    ha55,
    ha56,
    strictSorted_pySorted hearL,
    strictSorted_pySorted hearR,
    strictSorted_pySorted hneck]

set_option maxHeartbeats 1600000 in
theorem subParts_hall (verts : List Vec3) (masks : List (String × MaskVal))
    (hreg : ∀ k, StrictSorted verts.length (regionIdx verts.length masks k)) :
    ∀ l ∈ ffList (subParts verts masks), StrictSorted verts.length l := by
  obtain ⟨hF1, hF2, hF3, hF4, hF5, hF6, hF7, hF8, hF9, hF10⟩ :=
    foreheadBlock_strict (xCoords verts) (yCoords verts)
      ((subParts verts masks).midlineX) (hreg "forehead")
  obtain ⟨hE1, hE2, hE3, hE4, hE5, hE6⟩ :=
    eyeBlock_strict (xCoords verts) (yCoords verts) true
      (regionIdx verts.length masks "left_eyeball")
      (goodList_of_strictSorted (hreg "left_eye_region"))
  obtain ⟨hE7, hE8, hE9, hE10, hE11, hE12⟩ :=
    eyeBlock_strict (xCoords verts) (yCoords verts) false
      (regionIdx verts.length masks "right_eyeball")
      (goodList_of_strictSorted (hreg "right_eye_region"))
  obtain ⟨hN1, hN2, hN3, hN4, hN5, hN6, hN7, hN8⟩ :=
    noseBlock_strict (xCoords verts) (yCoords verts)
      ((subParts verts masks).midlineX)
      (medOf (yCoords verts) (regionIdx verts.length masks "nose"))
      (goodList_of_strictSorted (hreg "nose"))
  obtain ⟨hL1, hL2, hL3, hL4, hL5, hL6, hL7, hL8, hL9, hL10⟩ :=
    lipsBlock_strict (xCoords verts) (yCoords verts)
      (goodList_of_strictSorted (hreg "lips"))
  have hfrS : StrictSorted verts.length ((subParts verts masks).faceRem) :=
    faceRemainder_strict _ (hreg "face").2
  obtain ⟨hZ1, hZ2, hZ3, hZ4, hZ5, hZ6, hZ7, hZ8, hZ9, hZ10, hZ11, hZ12, hZ13,
    hZ14, hZ15, hZ16⟩ :=
    faceBlock_strict (xCoords verts) (yCoords verts)
      ((subParts verts masks).midlineX)
      (regionIdx verts.length masks "nose") (regionIdx verts.length masks "lips")
      (goodList_of_strictSorted hfrS)
  have htem :=
    templesFinal_strict (xCoords verts) (yCoords verts) ((subParts verts masks).F)
      (goodList_of_strictSorted (hreg "scalp")) hF9 hF10
  intro l hl
  simp only [ffList, List.mem_cons, List.not_mem_nil, or_false] at hl
  rcases hl with rfl|rfl|rfl|rfl|rfl|rfl|rfl|rfl|rfl|rfl|rfl|rfl|rfl|rfl|rfl|rfl|rfl|rfl|rfl|rfl|rfl|rfl|rfl|rfl|rfl|rfl|rfl|rfl|rfl|rfl|rfl|rfl|rfl|rfl|rfl|rfl|rfl|rfl|rfl|rfl|rfl|rfl|rfl|rfl|rfl|rfl|rfl|rfl|rfl|rfl|rfl|rfl|rfl|rfl|rfl|rfl|rfl|rfl|rfl|rfl|rfl|rfl
  exacts [hF1, hF2, hF3, hF4, hF5, hF6, hF7, hF8, hE1, hE2, hE7, hE8, hE3, hE4, hE9, hE10, hE5, hE11, hE6, hE12, hN1, hN2, hN3, hN4, hN5, hN6, hN7, hN8, hZ9, hZ10, hZ11, hZ12, hZ13, hZ14, hZ15, hZ16, hL1, hL3, hL4, hL5, hL2, hL6, hL7, hL8, hL9, hL10, hZ1, hZ2, hZ3, hZ4, hZ5, hZ6, hZ7, hZ8, htem.1, htem.2, hreg "face", hreg "forehead", hreg "nose", hreg "lips", hreg "left_eye_region", hreg "right_eye_region"]

theorem subdivide_strict (verts : List Vec3) (masks : List (String × MaskVal))
    (hreg : ∀ k, StrictSorted verts.length (regionIdx verts.length masks k)) :
    ∀ p ∈ subdivide verts masks, StrictSorted verts.length p.2 := by
  intro p hmem
  unfold subdivide at hmem
  rcases List.mem_map.mp hmem with ⟨nm2, hnm2, rfl⟩
  exact zoneFun_strict (subParts_hall verts masks hreg)
    (goodList_of_strictSorted (hreg "neck"))
    (goodList_of_strictSorted (hreg "left_ear"))
    (goodList_of_strictSorted (hreg "right_ear")) nm2 hnm2

/-- C1: for every vertex array and every coarse-region mapping (also an
empty one), both the Mask-Guided Subdivider and the Position-Only
Classifier return a zone map whose key set is exactly the 61 fixed
clinical zone names: the key list equals ALL_CLINICAL_ZONES, which has
length 61 and no duplicates. -/
theorem claim1 : ∀ (verts : List Vec3) (masks : List (String × MaskVal)),
    (subdivide verts masks).map Prod.fst = ALL_CLINICAL_ZONES ∧
    (posOnly verts).map Prod.fst = ALL_CLINICAL_ZONES ∧
    ALL_CLINICAL_ZONES.length = 61 ∧ ALL_CLINICAL_ZONES.Nodup := by
  intro verts masks
  refine ⟨?_, ?_, rfl, by decide⟩
  · unfold subdivide
    rw [List.map_map]
    have h : (Prod.fst ∘ fun nm => (nm, zoneFun (subParts verts masks) nm)) =
        (id : String → String) := rfl
    rw [h, List.map_id]
  · unfold posOnly
    rw [List.map_map]
    have h : (Prod.fst ∘ fun nm =>
        (nm, (List.range verts.length).filter (posCond (posParams verts) nm))) =
        (id : String → String) := rfl
    rw [h, List.map_id]

/-- C2, counterexample: the claim fails as stated.  On a 3-vertex mesh
with the coarse region neck supplied as the explicit index list [2, 2]
(valid indices, duplicated), the returned neck zone is [2, 2], which is
not strictly increasing. -/
theorem claim2_cex :
    zoneGet (subdivide [((0 : ℚ), 0, 0), (0, 0, 0), (0, 0, 0)]
        [("neck", MaskVal.ints [2, 2])]) "neck" = [2, 2] ∧
    ¬ List.Pairwise (· < ·) ([2, 2] : List ℕ) := by
  constructor
  · with_unfolding_all decide
  · decide

/-- C2, amended: when every coarse region normalizes to a strictly
increasing index list within range(N), every zone list of the
Mask-Guided Subdivider is strictly increasing (sorted ascending with no
duplicates) and every index in it is a valid vertex index. -/
theorem claim2_amended : ∀ (verts : List Vec3) (masks : List (String × MaskVal)),
    (∀ k, List.Pairwise (· < ·) (regionIdx verts.length masks k) ∧
      ∀ i ∈ regionIdx verts.length masks k, i < verts.length) →
    ∀ nm zone, (nm, zone) ∈ subdivide verts masks →
      List.Pairwise (· < ·) zone ∧ ∀ i ∈ zone, i < verts.length := by
  intro verts masks hreg nm zone hmem
  exact subdivide_strict verts masks hreg (nm, zone) hmem

/-- Witness for claim2_amended at a concrete input. -/
theorem claim2_amended_witness :
    List.Pairwise (· < ·) ([] : List ℕ) ∧ (∀ i ∈ ([] : List ℕ), i < 1) :=
  claim2_amended [((0 : ℚ), 0, 0)] []
    (fun _ => ⟨List.Pairwise.nil, fun i h => absurd h (List.not_mem_nil i)⟩)
    "neck" [] (by with_unfolding_all decide)

theorem oGt_mono {c c2 : ℚ} {o : Option ℚ} (hc : c2 ≤ c) (h : oGt o c = true) :
    oGt o c2 = true := by
  cases o with
  | none => simp [oGt] at h
  | some v =>
      simp only [oGt, decide_eq_true_eq] at h ⊢
      linarith

theorem oBtw_gt {lo hi c : ℚ} {o : Option ℚ} (hc : c ≤ lo) (h : oBtw lo o hi = true) :
    oGt o c = true := by
  cases o with
  | none => simp [oBtw] at h
  | some v =>
      simp only [oBtw, Bool.and_eq_true, decide_eq_true_eq] at h
      simp only [oGt, decide_eq_true_eq]
      linarith

theorem cGate_front {p : PosParams} {i : ℕ} (h : cGate p i = true) :
    p.front i = true := by
  simp only [cGate, Bool.and_eq_true] at h
  exact h.2


theorem posCond_full_face {p : PosParams} {i : ℕ} :
    ∀ nm ∈ ALL_CLINICAL_ZONES,
    nm ∉ (["neck", "ear_left", "ear_right"] : List String) →
    posCond p nm i = true → posCond p "full_face" i = true := by
  intro nm hnm hne h
  simp only [ALL_CLINICAL_ZONES, List.mem_cons, List.not_mem_nil, or_false] at hnm
  rcases hnm with rfl|rfl|rfl|rfl|rfl|rfl|rfl|rfl|rfl|rfl|rfl|rfl|rfl|rfl|rfl|rfl|rfl|rfl|rfl|rfl|rfl|rfl|rfl|rfl|rfl|rfl|rfl|rfl|rfl|rfl|rfl|rfl|rfl|rfl|rfl|rfl|rfl|rfl|rfl|rfl|rfl|rfl|rfl|rfl|rfl|rfl|rfl|rfl|rfl|rfl|rfl|rfl|rfl|rfl|rfl|rfl|rfl|rfl|rfl|rfl|rfl
  · exact h
  · have h2 : (cGate p i && oGt (p.yn i) 0.75) = true := h
    simp only [Bool.and_eq_true] at h2
    show (cGate p i && oGt (p.yn i) 0.10) = true
    simp only [Bool.and_eq_true]
    exact ⟨h2.1, oGt_mono (by norm_num) h2.2⟩
  · have h2 : (cGate p i && oGt (p.yn i) 0.75 && oGt (p.xn i) 0.15) = true := h
    simp only [Bool.and_eq_true] at h2
    show (cGate p i && oGt (p.yn i) 0.10) = true
    simp only [Bool.and_eq_true]
    exact ⟨h2.1.1, oGt_mono (by norm_num) h2.1.2⟩
  · have h2 : (cGate p i && oGt (p.yn i) 0.75 && !(oGt (p.xn i) 0.15) && oLt (p.xn i) (-0.15)) = true := h
    simp only [Bool.and_eq_true] at h2
    show (cGate p i && oGt (p.yn i) 0.10) = true
    simp only [Bool.and_eq_true]
    exact ⟨h2.1.1.1, oGt_mono (by norm_num) h2.1.1.2⟩
  · have h2 : (cGate p i && oGt (p.yn i) 0.75 && !(oGt (p.xn i) 0.15) && !(oLt (p.xn i) (-0.15))) = true := h
    simp only [Bool.and_eq_true] at h2
    show (cGate p i && oGt (p.yn i) 0.10) = true
    simp only [Bool.and_eq_true]
    exact ⟨h2.1.1.1, oGt_mono (by norm_num) h2.1.1.2⟩
  · have h2 : (cGate p i && oBtw 0.65 (p.yn i) 0.75 && oGt (p.xn i) 0.10) = true := h
    simp only [Bool.and_eq_true] at h2
    show (cGate p i && oGt (p.yn i) 0.10) = true
    simp only [Bool.and_eq_true]
    exact ⟨h2.1.1, oBtw_gt (by norm_num) h2.1.2⟩
  · have h2 : (cGate p i && oBtw 0.65 (p.yn i) 0.75 && oLt (p.xn i) (-0.10)) = true := h
    simp only [Bool.and_eq_true] at h2
    show (cGate p i && oGt (p.yn i) 0.10) = true
    simp only [Bool.and_eq_true]
    exact ⟨h2.1.1, oBtw_gt (by norm_num) h2.1.2⟩
  · have h2 : (cGate p i && oBtw 0.65 (p.yn i) 0.75 && oGt (p.xn i) 0.10 && oLt (p.xn i) 0.30) = true := h
    simp only [Bool.and_eq_true] at h2
    show (cGate p i && oGt (p.yn i) 0.10) = true
    simp only [Bool.and_eq_true]
    exact ⟨h2.1.1.1, oBtw_gt (by norm_num) h2.1.1.2⟩
  · have h2 : (cGate p i && oBtw 0.65 (p.yn i) 0.75 && oLt (p.xn i) (-0.10) && oGt (p.xn i) (-0.30)) = true := h
    simp only [Bool.and_eq_true] at h2
    show (cGate p i && oGt (p.yn i) 0.10) = true
    simp only [Bool.and_eq_true]
    exact ⟨h2.1.1.1, oBtw_gt (by norm_num) h2.1.1.2⟩
  · have h2 : (cGate p i && oBtw 0.55 (p.yn i) 0.68 && oBtw 0.15 (p.xn i) 0.55 && oGt (p.yn i) 0.62) = true := h
    simp only [Bool.and_eq_true] at h2
    show (cGate p i && oGt (p.yn i) 0.10) = true
    simp only [Bool.and_eq_true]
    exact ⟨h2.1.1.1, oBtw_gt (by norm_num) h2.1.1.2⟩
  · have h2 : (cGate p i && oBtw 0.55 (p.yn i) 0.68 && oBtw 0.15 (p.xn i) 0.55 && !(oGt (p.yn i) 0.62)) = true := h
    simp only [Bool.and_eq_true] at h2
    show (cGate p i && oGt (p.yn i) 0.10) = true
    simp only [Bool.and_eq_true]
    exact ⟨h2.1.1.1, oBtw_gt (by norm_num) h2.1.1.2⟩
  · have h2 : (cGate p i && oBtw 0.55 (p.yn i) 0.68 && oBtw (-0.55) (p.xn i) (-0.15) && oGt (p.yn i) 0.62) = true := h
    simp only [Bool.and_eq_true] at h2
    show (cGate p i && oGt (p.yn i) 0.10) = true
    simp only [Bool.and_eq_true]
    exact ⟨h2.1.1.1, oBtw_gt (by norm_num) h2.1.1.2⟩
  · have h2 : (cGate p i && oBtw 0.55 (p.yn i) 0.68 && oBtw (-0.55) (p.xn i) (-0.15) && !(oGt (p.yn i) 0.62)) = true := h
    simp only [Bool.and_eq_true] at h2
    show (cGate p i && oGt (p.yn i) 0.10) = true
    simp only [Bool.and_eq_true]
    exact ⟨h2.1.1.1, oBtw_gt (by norm_num) h2.1.1.2⟩
  · have h2 : (cGate p i && oBtw 0.55 (p.yn i) 0.68 && oBtw 0.15 (p.xn i) 0.55 && oLt (p.xn i) 0.25) = true := h
    simp only [Bool.and_eq_true] at h2
    show (cGate p i && oGt (p.yn i) 0.10) = true
    simp only [Bool.and_eq_true]
    exact ⟨h2.1.1.1, oBtw_gt (by norm_num) h2.1.1.2⟩
  · have h2 : (cGate p i && oBtw 0.55 (p.yn i) 0.68 && oBtw 0.15 (p.xn i) 0.55 && oGt (p.xn i) 0.45) = true := h
    simp only [Bool.and_eq_true] at h2
    show (cGate p i && oGt (p.yn i) 0.10) = true
    simp only [Bool.and_eq_true]
    exact ⟨h2.1.1.1, oBtw_gt (by norm_num) h2.1.1.2⟩
  · have h2 : (cGate p i && oBtw 0.55 (p.yn i) 0.68 && oBtw (-0.55) (p.xn i) (-0.15) && oGt (p.xn i) (-0.25)) = true := h
    simp only [Bool.and_eq_true] at h2
    show (cGate p i && oGt (p.yn i) 0.10) = true
    simp only [Bool.and_eq_true]
    exact ⟨h2.1.1.1, oBtw_gt (by norm_num) h2.1.1.2⟩
  · have h2 : (cGate p i && oBtw 0.55 (p.yn i) 0.68 && oBtw (-0.55) (p.xn i) (-0.15) && oLt (p.xn i) (-0.45)) = true := h
    simp only [Bool.and_eq_true] at h2
    show (cGate p i && oGt (p.yn i) 0.10) = true
    simp only [Bool.and_eq_true]
    exact ⟨h2.1.1.1, oBtw_gt (by norm_num) h2.1.1.2⟩
  · have h2 : (cGate p i && oBtw 0.48 (p.yn i) 0.58 && oBtw 0.10 (p.xn i) 0.50) = true := h
    simp only [Bool.and_eq_true] at h2
    show (cGate p i && oGt (p.yn i) 0.10) = true
    simp only [Bool.and_eq_true]
    exact ⟨h2.1.1, oBtw_gt (by norm_num) h2.1.2⟩
  · have h2 : (cGate p i && oBtw 0.48 (p.yn i) 0.58 && oBtw (-0.50) (p.xn i) (-0.10)) = true := h
    simp only [Bool.and_eq_true] at h2
    show (cGate p i && oGt (p.yn i) 0.10) = true
    simp only [Bool.and_eq_true]
    exact ⟨h2.1.1, oBtw_gt (by norm_num) h2.1.2⟩
  · have h2 : (cGate p i && oBtw 0.48 (p.yn i) 0.58 && oBtw 0.10 (p.xn i) 0.50 && oLt (p.xn i) 0.30) = true := h
    simp only [Bool.and_eq_true] at h2
    show (cGate p i && oGt (p.yn i) 0.10) = true
    simp only [Bool.and_eq_true]
    exact ⟨h2.1.1.1, oBtw_gt (by norm_num) h2.1.1.2⟩
  · have h2 : (cGate p i && oBtw 0.48 (p.yn i) 0.58 && oBtw (-0.50) (p.xn i) (-0.10) && oGt (p.xn i) (-0.30)) = true := h
    simp only [Bool.and_eq_true] at h2
    show (cGate p i && oGt (p.yn i) 0.10) = true
    simp only [Bool.and_eq_true]
    exact ⟨h2.1.1.1, oBtw_gt (by norm_num) h2.1.1.2⟩
  · have h2 : (cGate p i && oBtw 0.35 (p.yn i) 0.60 && oAbsLt (p.xn i) 0.15) = true := h
    simp only [Bool.and_eq_true] at h2
    show (cGate p i && oGt (p.yn i) 0.10) = true
    simp only [Bool.and_eq_true]
    exact ⟨h2.1.1, oBtw_gt (by norm_num) h2.1.2⟩
  · have h2 : (cGate p i && oBtw 0.35 (p.yn i) 0.60 && oAbsLt (p.xn i) 0.15 && oGt (p.yn i) 0.48) = true := h
    simp only [Bool.and_eq_true] at h2
    show (cGate p i && oGt (p.yn i) 0.10) = true
    simp only [Bool.and_eq_true]
    exact ⟨h2.1.1.1, oBtw_gt (by norm_num) h2.1.1.2⟩
  · have h2 : (cGate p i && oBtw 0.35 (p.yn i) 0.60 && oAbsLt (p.xn i) 0.15 && !(oGt (p.yn i) 0.48)) = true := h
    simp only [Bool.and_eq_true] at h2
    show (cGate p i && oGt (p.yn i) 0.10) = true
    simp only [Bool.and_eq_true]
    exact ⟨h2.1.1.1, oBtw_gt (by norm_num) h2.1.1.2⟩
  · have h2 : (cGate p i && oBtw 0.30 (p.yn i) 0.40 && oAbsLt (p.xn i) 0.15) = true := h
    simp only [Bool.and_eq_true] at h2
    show (cGate p i && oGt (p.yn i) 0.10) = true
    simp only [Bool.and_eq_true]
    exact ⟨h2.1.1, oBtw_gt (by norm_num) h2.1.2⟩
  · have h2 : (cGate p i && oBtw 0.30 (p.yn i) 0.40 && oAbsLt (p.xn i) 0.15 && oGt (p.xn i) 0) = true := h
    simp only [Bool.and_eq_true] at h2
    show (cGate p i && oGt (p.yn i) 0.10) = true
    simp only [Bool.and_eq_true]
    exact ⟨h2.1.1.1, oBtw_gt (by norm_num) h2.1.1.2⟩
  · have h2 : (cGate p i && oBtw 0.30 (p.yn i) 0.40 && oAbsLt (p.xn i) 0.15 && !(oGt (p.xn i) 0)) = true := h
    simp only [Bool.and_eq_true] at h2
    show (cGate p i && oGt (p.yn i) 0.10) = true
    simp only [Bool.and_eq_true]
    exact ⟨h2.1.1.1, oBtw_gt (by norm_num) h2.1.1.2⟩
  · have h2 : (cGate p i && oBtw 0.28 (p.yn i) 0.38 && oBtw 0.08 (p.xn i) 0.22) = true := h
    simp only [Bool.and_eq_true] at h2
    show (cGate p i && oGt (p.yn i) 0.10) = true
    simp only [Bool.and_eq_true]
    exact ⟨h2.1.1, oBtw_gt (by norm_num) h2.1.2⟩
  · have h2 : (cGate p i && oBtw 0.28 (p.yn i) 0.38 && oBtw (-0.22) (p.xn i) (-0.08)) = true := h
    simp only [Bool.and_eq_true] at h2
    show (cGate p i && oGt (p.yn i) 0.10) = true
    simp only [Bool.and_eq_true]
    exact ⟨h2.1.1, oBtw_gt (by norm_num) h2.1.2⟩
  · have h2 : (cGate p i && oBtw 0.35 (p.yn i) 0.60 && oAbsLt (p.xn i) 0.15) = true := h
    simp only [Bool.and_eq_true] at h2
    show (cGate p i && oGt (p.yn i) 0.10) = true
    simp only [Bool.and_eq_true]
    exact ⟨h2.1.1, oBtw_gt (by norm_num) h2.1.2⟩
  · have h2 : (cGate p i && oBtw 0.30 (p.yn i) 0.55 && oAbsGt (p.xn i) 0.25 && oGt (p.xn i) 0) = true := h
    simp only [Bool.and_eq_true] at h2
    show (cGate p i && oGt (p.yn i) 0.10) = true
    simp only [Bool.and_eq_true]
    exact ⟨h2.1.1.1, oBtw_gt (by norm_num) h2.1.1.2⟩
  · have h2 : (cGate p i && oBtw 0.30 (p.yn i) 0.55 && oAbsGt (p.xn i) 0.25 && !(oGt (p.xn i) 0)) = true := h
    simp only [Bool.and_eq_true] at h2
    show (cGate p i && oGt (p.yn i) 0.10) = true
    simp only [Bool.and_eq_true]
    exact ⟨h2.1.1.1, oBtw_gt (by norm_num) h2.1.1.2⟩
  · have h2 : (cGate p i && oBtw 0.30 (p.yn i) 0.55 && oAbsGt (p.xn i) 0.25 && oGt (p.xn i) 0 && oGt (p.yn i) 0.42) = true := h
    simp only [Bool.and_eq_true] at h2
    show (cGate p i && oGt (p.yn i) 0.10) = true
    simp only [Bool.and_eq_true]
    exact ⟨h2.1.1.1.1, oBtw_gt (by norm_num) h2.1.1.1.2⟩
  · have h2 : (cGate p i && oBtw 0.30 (p.yn i) 0.55 && oAbsGt (p.xn i) 0.25 && !(oGt (p.xn i) 0) && oGt (p.yn i) 0.42) = true := h
    simp only [Bool.and_eq_true] at h2
    show (cGate p i && oGt (p.yn i) 0.10) = true
    simp only [Bool.and_eq_true]
    exact ⟨h2.1.1.1.1, oBtw_gt (by norm_num) h2.1.1.1.2⟩
  · have h2 : (cGate p i && oBtw 0.30 (p.yn i) 0.55 && oAbsGt (p.xn i) 0.25 && oGt (p.xn i) 0 && !(oGt (p.yn i) 0.42)) = true := h
    simp only [Bool.and_eq_true] at h2
    show (cGate p i && oGt (p.yn i) 0.10) = true
    simp only [Bool.and_eq_true]
    exact ⟨h2.1.1.1.1, oBtw_gt (by norm_num) h2.1.1.1.2⟩
  · have h2 : (cGate p i && oBtw 0.30 (p.yn i) 0.55 && oAbsGt (p.xn i) 0.25 && !(oGt (p.xn i) 0) && !(oGt (p.yn i) 0.42)) = true := h
    simp only [Bool.and_eq_true] at h2
    show (cGate p i && oGt (p.yn i) 0.10) = true
    simp only [Bool.and_eq_true]
    exact ⟨h2.1.1.1.1, oBtw_gt (by norm_num) h2.1.1.1.2⟩
  · have h2 : (cGate p i && oBtw 0.28 (p.yn i) 0.48 && oAbsGt (p.xn i) 0.15 && oAbsLt (p.xn i) 0.28 && oGt (p.xn i) 0) = true := h
    simp only [Bool.and_eq_true] at h2
    show (cGate p i && oGt (p.yn i) 0.10) = true
    simp only [Bool.and_eq_true]
    exact ⟨h2.1.1.1.1, oBtw_gt (by norm_num) h2.1.1.1.2⟩
  · have h2 : (cGate p i && oBtw 0.28 (p.yn i) 0.48 && oAbsGt (p.xn i) 0.15 && oAbsLt (p.xn i) 0.28 && !(oGt (p.xn i) 0)) = true := h
    simp only [Bool.and_eq_true] at h2
    show (cGate p i && oGt (p.yn i) 0.10) = true
    simp only [Bool.and_eq_true]
    exact ⟨h2.1.1.1.1, oBtw_gt (by norm_num) h2.1.1.1.2⟩
  · have h2 : (cGate p i && oBtw 0.22 (p.yn i) 0.32 && oAbsLt (p.xn i) 0.25 && oGt (p.yn i) 0.27) = true := h
    simp only [Bool.and_eq_true] at h2
    show (cGate p i && oGt (p.yn i) 0.10) = true
    simp only [Bool.and_eq_true]
    exact ⟨h2.1.1.1, oBtw_gt (by norm_num) h2.1.1.2⟩
  · have h2 : (cGate p i && oBtw 0.22 (p.yn i) 0.32 && oAbsLt (p.xn i) 0.25 && oGt (p.yn i) 0.27 && oGt (p.xn i) 0.06) = true := h
    simp only [Bool.and_eq_true] at h2
    show (cGate p i && oGt (p.yn i) 0.10) = true
    simp only [Bool.and_eq_true]
    exact ⟨h2.1.1.1.1, oBtw_gt (by norm_num) h2.1.1.1.2⟩
  · have h2 : (cGate p i && oBtw 0.22 (p.yn i) 0.32 && oAbsLt (p.xn i) 0.25 && oGt (p.yn i) 0.27 && !(oGt (p.xn i) 0.06) && oLt (p.xn i) (-0.06)) = true := h
    simp only [Bool.and_eq_true] at h2
    show (cGate p i && oGt (p.yn i) 0.10) = true
    simp only [Bool.and_eq_true]
    exact ⟨h2.1.1.1.1.1, oBtw_gt (by norm_num) h2.1.1.1.1.2⟩
  · have h2 : (cGate p i && oBtw 0.22 (p.yn i) 0.32 && oAbsLt (p.xn i) 0.25 && oGt (p.yn i) 0.27 && !(oGt (p.xn i) 0.06) && !(oLt (p.xn i) (-0.06))) = true := h
    simp only [Bool.and_eq_true] at h2
    show (cGate p i && oGt (p.yn i) 0.10) = true
    simp only [Bool.and_eq_true]
    exact ⟨h2.1.1.1.1.1, oBtw_gt (by norm_num) h2.1.1.1.1.2⟩
  · have h2 : (cGate p i && oBtw 0.22 (p.yn i) 0.32 && oAbsLt (p.xn i) 0.25 && !(oGt (p.yn i) 0.27)) = true := h
    simp only [Bool.and_eq_true] at h2
    show (cGate p i && oGt (p.yn i) 0.10) = true
    simp only [Bool.and_eq_true]
    exact ⟨h2.1.1.1, oBtw_gt (by norm_num) h2.1.1.2⟩
  · have h2 : (cGate p i && oBtw 0.22 (p.yn i) 0.32 && oAbsLt (p.xn i) 0.25 && !(oGt (p.yn i) 0.27) && oGt (p.xn i) 0.06) = true := h
    simp only [Bool.and_eq_true] at h2
    show (cGate p i && oGt (p.yn i) 0.10) = true
    simp only [Bool.and_eq_true]
    exact ⟨h2.1.1.1.1, oBtw_gt (by norm_num) h2.1.1.1.2⟩
  · have h2 : (cGate p i && oBtw 0.22 (p.yn i) 0.32 && oAbsLt (p.xn i) 0.25 && !(oGt (p.yn i) 0.27) && !(oGt (p.xn i) 0.06) && oLt (p.xn i) (-0.06)) = true := h
    simp only [Bool.and_eq_true] at h2
    show (cGate p i && oGt (p.yn i) 0.10) = true
    simp only [Bool.and_eq_true]
    exact ⟨h2.1.1.1.1.1, oBtw_gt (by norm_num) h2.1.1.1.1.2⟩
  · have h2 : (cGate p i && oBtw 0.22 (p.yn i) 0.32 && oAbsLt (p.xn i) 0.25 && !(oGt (p.yn i) 0.27) && !(oGt (p.xn i) 0.06) && !(oLt (p.xn i) (-0.06))) = true := h
    simp only [Bool.and_eq_true] at h2
    show (cGate p i && oGt (p.yn i) 0.10) = true
    simp only [Bool.and_eq_true]
    exact ⟨h2.1.1.1.1.1, oBtw_gt (by norm_num) h2.1.1.1.1.2⟩
  · have h2 : (cGate p i && oBtw 0.22 (p.yn i) 0.32 && oAbsLt (p.xn i) 0.25 && oNear (p.yn i) 0.27 0.03 && oAbsGt (p.xn i) 0.18 && oGt (p.xn i) 0) = true := h
    simp only [Bool.and_eq_true] at h2
    show (cGate p i && oGt (p.yn i) 0.10) = true
    simp only [Bool.and_eq_true]
    exact ⟨h2.1.1.1.1.1, oBtw_gt (by norm_num) h2.1.1.1.1.2⟩
  · have h2 : (cGate p i && oBtw 0.22 (p.yn i) 0.32 && oAbsLt (p.xn i) 0.25 && oNear (p.yn i) 0.27 0.03 && oAbsGt (p.xn i) 0.18 && !(oGt (p.xn i) 0)) = true := h
    simp only [Bool.and_eq_true] at h2
    show (cGate p i && oGt (p.yn i) 0.10) = true
    simp only [Bool.and_eq_true]
    exact ⟨h2.1.1.1.1.1, oBtw_gt (by norm_num) h2.1.1.1.1.2⟩
  · have h2 : (cGate p i && oBtw 0.12 (p.yn i) 0.24 && oAbsLt (p.xn i) 0.30) = true := h
    simp only [Bool.and_eq_true] at h2
    show (cGate p i && oGt (p.yn i) 0.10) = true
    simp only [Bool.and_eq_true]
    exact ⟨h2.1.1, oBtw_gt (by norm_num) h2.1.2⟩
  · have h2 : (cGate p i && oBtw 0.12 (p.yn i) 0.24 && oAbsLt (p.xn i) 0.30 && oAbsLt (p.xn i) 0.10) = true := h
    simp only [Bool.and_eq_true] at h2
    show (cGate p i && oGt (p.yn i) 0.10) = true
    simp only [Bool.and_eq_true]
    exact ⟨h2.1.1.1, oBtw_gt (by norm_num) h2.1.1.2⟩
  · have h2 : (cGate p i && oBtw 0.12 (p.yn i) 0.24 && oAbsLt (p.xn i) 0.30 && !(oAbsLt (p.xn i) 0.10) && oGt (p.xn i) 0) = true := h
    simp only [Bool.and_eq_true] at h2
    show (cGate p i && oGt (p.yn i) 0.10) = true
    simp only [Bool.and_eq_true]
    exact ⟨h2.1.1.1.1, oBtw_gt (by norm_num) h2.1.1.1.2⟩
  · have h2 : (cGate p i && oBtw 0.12 (p.yn i) 0.24 && oAbsLt (p.xn i) 0.30 && !(oAbsLt (p.xn i) 0.10) && !(oGt (p.xn i) 0)) = true := h
    simp only [Bool.and_eq_true] at h2
    show (cGate p i && oGt (p.yn i) 0.10) = true
    simp only [Bool.and_eq_true]
    exact ⟨h2.1.1.1.1, oBtw_gt (by norm_num) h2.1.1.1.2⟩
  · have h2 : (cGate p i && oBtw 0.10 (p.yn i) 0.30 && oAbsGt (p.xn i) 0.25 && oGt (p.xn i) 0) = true := h
    simp only [Bool.and_eq_true] at h2
    show (cGate p i && oGt (p.yn i) 0.10) = true
    simp only [Bool.and_eq_true]
    exact ⟨h2.1.1.1, oBtw_gt (by norm_num) h2.1.1.2⟩
  · have h2 : (cGate p i && oBtw 0.10 (p.yn i) 0.30 && oAbsGt (p.xn i) 0.25 && !(oGt (p.xn i) 0)) = true := h
    simp only [Bool.and_eq_true] at h2
    show (cGate p i && oGt (p.yn i) 0.10) = true
    simp only [Bool.and_eq_true]
    exact ⟨h2.1.1.1, oBtw_gt (by norm_num) h2.1.1.2⟩
  · have h2 : (cGate p i && oBtw 0.10 (p.yn i) 0.30 && oAbsGt (p.xn i) 0.25 && oGt (p.xn i) 0 && oLt (p.yn i) 0.18) = true := h
    simp only [Bool.and_eq_true] at h2
    show (cGate p i && oGt (p.yn i) 0.10) = true
    simp only [Bool.and_eq_true]
    exact ⟨h2.1.1.1.1, oBtw_gt (by norm_num) h2.1.1.1.2⟩
  · have h2 : (cGate p i && oBtw 0.10 (p.yn i) 0.30 && oAbsGt (p.xn i) 0.25 && !(oGt (p.xn i) 0) && oLt (p.yn i) 0.18) = true := h
    simp only [Bool.and_eq_true] at h2
    show (cGate p i && oGt (p.yn i) 0.10) = true
    simp only [Bool.and_eq_true]
    exact ⟨h2.1.1.1.1, oBtw_gt (by norm_num) h2.1.1.1.2⟩
  · have h2 : (cGate p i && oBtw 0.60 (p.yn i) 0.78 && oAbsGt (p.xn i) 0.50 && oGt (p.xn i) 0) = true := h
    simp only [Bool.and_eq_true] at h2
    show (cGate p i && oGt (p.yn i) 0.10) = true
    simp only [Bool.and_eq_true]
    exact ⟨h2.1.1.1, oBtw_gt (by norm_num) h2.1.1.2⟩
  · have h2 : (cGate p i && oBtw 0.60 (p.yn i) 0.78 && oAbsGt (p.xn i) 0.50 && !(oGt (p.xn i) 0)) = true := h
    simp only [Bool.and_eq_true] at h2
    show (cGate p i && oGt (p.yn i) 0.10) = true
    simp only [Bool.and_eq_true]
    exact ⟨h2.1.1.1, oBtw_gt (by norm_num) h2.1.1.2⟩
  · exact absurd (by decide) hne
  · exact absurd (by decide) hne
  · exact absurd (by decide) hne

theorem posCond_front {p : PosParams} {i : ℕ} :
    ∀ nm ∈ ALL_CLINICAL_ZONES, nm ≠ "neck" →
    posCond p nm i = true → p.front i = true := by
  intro nm hnm hne h
  simp only [ALL_CLINICAL_ZONES, List.mem_cons, List.not_mem_nil, or_false] at hnm
  rcases hnm with rfl|rfl|rfl|rfl|rfl|rfl|rfl|rfl|rfl|rfl|rfl|rfl|rfl|rfl|rfl|rfl|rfl|rfl|rfl|rfl|rfl|rfl|rfl|rfl|rfl|rfl|rfl|rfl|rfl|rfl|rfl|rfl|rfl|rfl|rfl|rfl|rfl|rfl|rfl|rfl|rfl|rfl|rfl|rfl|rfl|rfl|rfl|rfl|rfl|rfl|rfl|rfl|rfl|rfl|rfl|rfl|rfl|rfl|rfl|rfl|rfl
  · have h2 : (cGate p i && oGt (p.yn i) 0.10) = true := h
    simp only [Bool.and_eq_true] at h2
    exact cGate_front h2.1
  · have h2 : (cGate p i && oGt (p.yn i) 0.75) = true := h
    simp only [Bool.and_eq_true] at h2
    exact cGate_front h2.1
  · have h2 : (cGate p i && oGt (p.yn i) 0.75 && oGt (p.xn i) 0.15) = true := h
    simp only [Bool.and_eq_true] at h2
    exact cGate_front h2.1.1
  · have h2 : (cGate p i && oGt (p.yn i) 0.75 && !(oGt (p.xn i) 0.15) && oLt (p.xn i) (-0.15)) = true := h
    simp only [Bool.and_eq_true] at h2
    exact cGate_front h2.1.1.1
  · have h2 : (cGate p i && oGt (p.yn i) 0.75 && !(oGt (p.xn i) 0.15) && !(oLt (p.xn i) (-0.15))) = true := h
    simp only [Bool.and_eq_true] at h2
    exact cGate_front h2.1.1.1
  · have h2 : (cGate p i && oBtw 0.65 (p.yn i) 0.75 && oGt (p.xn i) 0.10) = true := h
    simp only [Bool.and_eq_true] at h2
    exact cGate_front h2.1.1
  · have h2 : (cGate p i && oBtw 0.65 (p.yn i) 0.75 && oLt (p.xn i) (-0.10)) = true := h
    simp only [Bool.and_eq_true] at h2
    exact cGate_front h2.1.1
  · have h2 : (cGate p i && oBtw 0.65 (p.yn i) 0.75 && oGt (p.xn i) 0.10 && oLt (p.xn i) 0.30) = true := h
    simp only [Bool.and_eq_true] at h2
    exact cGate_front h2.1.1.1
  · have h2 : (cGate p i && oBtw 0.65 (p.yn i) 0.75 && oLt (p.xn i) (-0.10) && oGt (p.xn i) (-0.30)) = true := h
    simp only [Bool.and_eq_true] at h2
    exact cGate_front h2.1.1.1
  · have h2 : (cGate p i && oBtw 0.55 (p.yn i) 0.68 && oBtw 0.15 (p.xn i) 0.55 && oGt (p.yn i) 0.62) = true := h
    simp only [Bool.and_eq_true] at h2
    exact cGate_front h2.1.1.1
  · have h2 : (cGate p i && oBtw 0.55 (p.yn i) 0.68 && oBtw 0.15 (p.xn i) 0.55 && !(oGt (p.yn i) 0.62)) = true := h
    simp only [Bool.and_eq_true] at h2
    exact cGate_front h2.1.1.1
  · have h2 : (cGate p i && oBtw 0.55 (p.yn i) 0.68 && oBtw (-0.55) (p.xn i) (-0.15) && oGt (p.yn i) 0.62) = true := h
    simp only [Bool.and_eq_true] at h2
    exact cGate_front h2.1.1.1
  · have h2 : (cGate p i && oBtw 0.55 (p.yn i) 0.68 && oBtw (-0.55) (p.xn i) (-0.15) && !(oGt (p.yn i) 0.62)) = true := h
    simp only [Bool.and_eq_true] at h2
    exact cGate_front h2.1.1.1
  · have h2 : (cGate p i && oBtw 0.55 (p.yn i) 0.68 && oBtw 0.15 (p.xn i) 0.55 && oLt (p.xn i) 0.25) = true := h
    simp only [Bool.and_eq_true] at h2
    exact cGate_front h2.1.1.1
  · have h2 : (cGate p i && oBtw 0.55 (p.yn i) 0.68 && oBtw 0.15 (p.xn i) 0.55 && oGt (p.xn i) 0.45) = true := h
    simp only [Bool.and_eq_true] at h2
    exact cGate_front h2.1.1.1
  · have h2 : (cGate p i && oBtw 0.55 (p.yn i) 0.68 && oBtw (-0.55) (p.xn i) (-0.15) && oGt (p.xn i) (-0.25)) = true := h
    simp only [Bool.and_eq_true] at h2
    exact cGate_front h2.1.1.1
  · have h2 : (cGate p i && oBtw 0.55 (p.yn i) 0.68 && oBtw (-0.55) (p.xn i) (-0.15) && oLt (p.xn i) (-0.45)) = true := h
    simp only [Bool.and_eq_true] at h2
    exact cGate_front h2.1.1.1
  · have h2 : (cGate p i && oBtw 0.48 (p.yn i) 0.58 && oBtw 0.10 (p.xn i) 0.50) = true := h
    simp only [Bool.and_eq_true] at h2
    exact cGate_front h2.1.1
  · have h2 : (cGate p i && oBtw 0.48 (p.yn i) 0.58 && oBtw (-0.50) (p.xn i) (-0.10)) = true := h
    simp only [Bool.and_eq_true] at h2
    exact cGate_front h2.1.1
  · have h2 : (cGate p i && oBtw 0.48 (p.yn i) 0.58 && oBtw 0.10 (p.xn i) 0.50 && oLt (p.xn i) 0.30) = true := h
    simp only [Bool.and_eq_true] at h2
    exact cGate_front h2.1.1.1
  · have h2 : (cGate p i && oBtw 0.48 (p.yn i) 0.58 && oBtw (-0.50) (p.xn i) (-0.10) && oGt (p.xn i) (-0.30)) = true := h
    simp only [Bool.and_eq_true] at h2
    exact cGate_front h2.1.1.1
  · have h2 : (cGate p i && oBtw 0.35 (p.yn i) 0.60 && oAbsLt (p.xn i) 0.15) = true := h
    simp only [Bool.and_eq_true] at h2
    exact cGate_front h2.1.1
  · have h2 : (cGate p i && oBtw 0.35 (p.yn i) 0.60 && oAbsLt (p.xn i) 0.15 && oGt (p.yn i) 0.48) = true := h
    simp only [Bool.and_eq_true] at h2
    exact cGate_front h2.1.1.1
  · have h2 : (cGate p i && oBtw 0.35 (p.yn i) 0.60 && oAbsLt (p.xn i) 0.15 && !(oGt (p.yn i) 0.48)) = true := h
    simp only [Bool.and_eq_true] at h2
    exact cGate_front h2.1.1.1
  · have h2 : (cGate p i && oBtw 0.30 (p.yn i) 0.40 && oAbsLt (p.xn i) 0.15) = true := h
    simp only [Bool.and_eq_true] at h2
    exact cGate_front h2.1.1
  · have h2 : (cGate p i && oBtw 0.30 (p.yn i) 0.40 && oAbsLt (p.xn i) 0.15 && oGt (p.xn i) 0) = true := h
    simp only [Bool.and_eq_true] at h2
    exact cGate_front h2.1.1.1
  · have h2 : (cGate p i && oBtw 0.30 (p.yn i) 0.40 && oAbsLt (p.xn i) 0.15 && !(oGt (p.xn i) 0)) = true := h
    simp only [Bool.and_eq_true] at h2
    exact cGate_front h2.1.1.1
  · have h2 : (cGate p i && oBtw 0.28 (p.yn i) 0.38 && oBtw 0.08 (p.xn i) 0.22) = true := h
    simp only [Bool.and_eq_true] at h2
    exact cGate_front h2.1.1
  · have h2 : (cGate p i && oBtw 0.28 (p.yn i) 0.38 && oBtw (-0.22) (p.xn i) (-0.08)) = true := h
    simp only [Bool.and_eq_true] at h2
    exact cGate_front h2.1.1
  · have h2 : (cGate p i && oBtw 0.35 (p.yn i) 0.60 && oAbsLt (p.xn i) 0.15) = true := h
    simp only [Bool.and_eq_true] at h2
    exact cGate_front h2.1.1
  · have h2 : (cGate p i && oBtw 0.30 (p.yn i) 0.55 && oAbsGt (p.xn i) 0.25 && oGt (p.xn i) 0) = true := h
    simp only [Bool.and_eq_true] at h2
    exact cGate_front h2.1.1.1
  · have h2 : (cGate p i && oBtw 0.30 (p.yn i) 0.55 && oAbsGt (p.xn i) 0.25 && !(oGt (p.xn i) 0)) = true := h
    simp only [Bool.and_eq_true] at h2
    exact cGate_front h2.1.1.1
  · have h2 : (cGate p i && oBtw 0.30 (p.yn i) 0.55 && oAbsGt (p.xn i) 0.25 && oGt (p.xn i) 0 && oGt (p.yn i) 0.42) = true := h
    simp only [Bool.and_eq_true] at h2
    exact cGate_front h2.1.1.1.1
  · have h2 : (cGate p i && oBtw 0.30 (p.yn i) 0.55 && oAbsGt (p.xn i) 0.25 && !(oGt (p.xn i) 0) && oGt (p.yn i) 0.42) = true := h
    simp only [Bool.and_eq_true] at h2
    exact cGate_front h2.1.1.1.1
  · have h2 : (cGate p i && oBtw 0.30 (p.yn i) 0.55 && oAbsGt (p.xn i) 0.25 && oGt (p.xn i) 0 && !(oGt (p.yn i) 0.42)) = true := h
    simp only [Bool.and_eq_true] at h2
    exact cGate_front h2.1.1.1.1
  · have h2 : (cGate p i && oBtw 0.30 (p.yn i) 0.55 && oAbsGt (p.xn i) 0.25 && !(oGt (p.xn i) 0) && !(oGt (p.yn i) 0.42)) = true := h
    simp only [Bool.and_eq_true] at h2
    exact cGate_front h2.1.1.1.1
  · have h2 : (cGate p i && oBtw 0.28 (p.yn i) 0.48 && oAbsGt (p.xn i) 0.15 && oAbsLt (p.xn i) 0.28 && oGt (p.xn i) 0) = true := h
    simp only [Bool.and_eq_true] at h2
    exact cGate_front h2.1.1.1.1
  · have h2 : (cGate p i && oBtw 0.28 (p.yn i) 0.48 && oAbsGt (p.xn i) 0.15 && oAbsLt (p.xn i) 0.28 && !(oGt (p.xn i) 0)) = true := h
    simp only [Bool.and_eq_true] at h2
    exact cGate_front h2.1.1.1.1
  · have h2 : (cGate p i && oBtw 0.22 (p.yn i) 0.32 && oAbsLt (p.xn i) 0.25 && oGt (p.yn i) 0.27) = true := h
    simp only [Bool.and_eq_true] at h2
    exact cGate_front h2.1.1.1
  · have h2 : (cGate p i && oBtw 0.22 (p.yn i) 0.32 && oAbsLt (p.xn i) 0.25 && oGt (p.yn i) 0.27 && oGt (p.xn i) 0.06) = true := h
    simp only [Bool.and_eq_true] at h2
    exact cGate_front h2.1.1.1.1
  · have h2 : (cGate p i && oBtw 0.22 (p.yn i) 0.32 && oAbsLt (p.xn i) 0.25 && oGt (p.yn i) 0.27 && !(oGt (p.xn i) 0.06) && oLt (p.xn i) (-0.06)) = true := h
    simp only [Bool.and_eq_true] at h2
    exact cGate_front h2.1.1.1.1.1
  · have h2 : (cGate p i && oBtw 0.22 (p.yn i) 0.32 && oAbsLt (p.xn i) 0.25 && oGt (p.yn i) 0.27 && !(oGt (p.xn i) 0.06) && !(oLt (p.xn i) (-0.06))) = true := h
    simp only [Bool.and_eq_true] at h2
    exact cGate_front h2.1.1.1.1.1
  · have h2 : (cGate p i && oBtw 0.22 (p.yn i) 0.32 && oAbsLt (p.xn i) 0.25 && !(oGt (p.yn i) 0.27)) = true := h
    simp only [Bool.and_eq_true] at h2
    exact cGate_front h2.1.1.1
  · have h2 : (cGate p i && oBtw 0.22 (p.yn i) 0.32 && oAbsLt (p.xn i) 0.25 && !(oGt (p.yn i) 0.27) && oGt (p.xn i) 0.06) = true := h
    simp only [Bool.and_eq_true] at h2
    exact cGate_front h2.1.1.1.1
  · have h2 : (cGate p i && oBtw 0.22 (p.yn i) 0.32 && oAbsLt (p.xn i) 0.25 && !(oGt (p.yn i) 0.27) && !(oGt (p.xn i) 0.06) && oLt (p.xn i) (-0.06)) = true := h
    simp only [Bool.and_eq_true] at h2
    exact cGate_front h2.1.1.1.1.1
  · have h2 : (cGate p i && oBtw 0.22 (p.yn i) 0.32 && oAbsLt (p.xn i) 0.25 && !(oGt (p.yn i) 0.27) && !(oGt (p.xn i) 0.06) && !(oLt (p.xn i) (-0.06))) = true := h
    simp only [Bool.and_eq_true] at h2
    exact cGate_front h2.1.1.1.1.1
  · have h2 : (cGate p i && oBtw 0.22 (p.yn i) 0.32 && oAbsLt (p.xn i) 0.25 && oNear (p.yn i) 0.27 0.03 && oAbsGt (p.xn i) 0.18 && oGt (p.xn i) 0) = true := h
    simp only [Bool.and_eq_true] at h2
    exact cGate_front h2.1.1.1.1.1
  · have h2 : (cGate p i && oBtw 0.22 (p.yn i) 0.32 && oAbsLt (p.xn i) 0.25 && oNear (p.yn i) 0.27 0.03 && oAbsGt (p.xn i) 0.18 && !(oGt (p.xn i) 0)) = true := h
    simp only [Bool.and_eq_true] at h2
    exact cGate_front h2.1.1.1.1.1
  · have h2 : (cGate p i && oBtw 0.12 (p.yn i) 0.24 && oAbsLt (p.xn i) 0.30) = true := h
    simp only [Bool.and_eq_true] at h2
    exact cGate_front h2.1.1
  · have h2 : (cGate p i && oBtw 0.12 (p.yn i) 0.24 && oAbsLt (p.xn i) 0.30 && oAbsLt (p.xn i) 0.10) = true := h
    simp only [Bool.and_eq_true] at h2
    exact cGate_front h2.1.1.1
  · have h2 : (cGate p i && oBtw 0.12 (p.yn i) 0.24 && oAbsLt (p.xn i) 0.30 && !(oAbsLt (p.xn i) 0.10) && oGt (p.xn i) 0) = true := h
    simp only [Bool.and_eq_true] at h2
    exact cGate_front h2.1.1.1.1
  · have h2 : (cGate p i && oBtw 0.12 (p.yn i) 0.24 && oAbsLt (p.xn i) 0.30 && !(oAbsLt (p.xn i) 0.10) && !(oGt (p.xn i) 0)) = true := h
    simp only [Bool.and_eq_true] at h2
    exact cGate_front h2.1.1.1.1
  · have h2 : (cGate p i && oBtw 0.10 (p.yn i) 0.30 && oAbsGt (p.xn i) 0.25 && oGt (p.xn i) 0) = true := h
    simp only [Bool.and_eq_true] at h2
    exact cGate_front h2.1.1.1
  · have h2 : (cGate p i && oBtw 0.10 (p.yn i) 0.30 && oAbsGt (p.xn i) 0.25 && !(oGt (p.xn i) 0)) = true := h
    simp only [Bool.and_eq_true] at h2
    exact cGate_front h2.1.1.1
  · have h2 : (cGate p i && oBtw 0.10 (p.yn i) 0.30 && oAbsGt (p.xn i) 0.25 && oGt (p.xn i) 0 && oLt (p.yn i) 0.18) = true := h
    simp only [Bool.and_eq_true] at h2
    exact cGate_front h2.1.1.1.1
  · have h2 : (cGate p i && oBtw 0.10 (p.yn i) 0.30 && oAbsGt (p.xn i) 0.25 && !(oGt (p.xn i) 0) && oLt (p.yn i) 0.18) = true := h
    simp only [Bool.and_eq_true] at h2
    exact cGate_front h2.1.1.1.1
  · have h2 : (cGate p i && oBtw 0.60 (p.yn i) 0.78 && oAbsGt (p.xn i) 0.50 && oGt (p.xn i) 0) = true := h
    simp only [Bool.and_eq_true] at h2
    exact cGate_front h2.1.1.1
  · have h2 : (cGate p i && oBtw 0.60 (p.yn i) 0.78 && oAbsGt (p.xn i) 0.50 && !(oGt (p.xn i) 0)) = true := h
    simp only [Bool.and_eq_true] at h2
    exact cGate_front h2.1.1.1
  · have h2 : (cGate p i && oBtw 0.40 (p.yn i) 0.70 && oAbsGt (p.xn i) 0.80 && oGt (p.xn i) 0) = true := h
    simp only [Bool.and_eq_true] at h2
    exact cGate_front h2.1.1.1
  · have h2 : (cGate p i && oBtw 0.40 (p.yn i) 0.70 && oAbsGt (p.xn i) 0.80 && !(oGt (p.xn i) 0)) = true := h
    simp only [Bool.and_eq_true] at h2
    exact cGate_front h2.1.1.1
  · exact absurd rfl hne

theorem zoneFun_mem_ff (P : SubParts) :
    ∀ nm ∈ ALL_CLINICAL_ZONES,
    nm ∉ (["neck", "ear_left", "ear_right"] : List String) →
    ∀ i, i ∈ zoneFun P nm → i ∈ zoneFun P "full_face" := by
  have hm1 : P.F.forehead ∈ ffList P := (List.mem_cons_self _ _)
  have hm2 : P.F.fl ∈ ffList P := (List.mem_cons_of_mem _ (List.mem_cons_self _ _))
  have hm3 : P.F.fr ∈ ffList P := (List.mem_cons_of_mem _ (List.mem_cons_of_mem _ (List.mem_cons_self _ _)))
  have hm4 : P.F.fc ∈ ffList P := (List.mem_cons_of_mem _ (List.mem_cons_of_mem _ (List.mem_cons_of_mem _ (List.mem_cons_self _ _))))
  have hm5 : P.F.browL ∈ ffList P := (List.mem_cons_of_mem _ (List.mem_cons_of_mem _ (List.mem_cons_of_mem _ (List.mem_cons_of_mem _ (List.mem_cons_self _ _)))))
  have hm6 : P.F.browR ∈ ffList P := (List.mem_cons_of_mem _ (List.mem_cons_of_mem _ (List.mem_cons_of_mem _ (List.mem_cons_of_mem _ (List.mem_cons_of_mem _ (List.mem_cons_self _ _))))))
  have hm7 : P.F.browInL ∈ ffList P := (List.mem_cons_of_mem _ (List.mem_cons_of_mem _ (List.mem_cons_of_mem _ (List.mem_cons_of_mem _ (List.mem_cons_of_mem _ (List.mem_cons_of_mem _ (List.mem_cons_self _ _)))))))
  have hm8 : P.F.browInR ∈ ffList P := (List.mem_cons_of_mem _ (List.mem_cons_of_mem _ (List.mem_cons_of_mem _ (List.mem_cons_of_mem _ (List.mem_cons_of_mem _ (List.mem_cons_of_mem _ (List.mem_cons_of_mem _ (List.mem_cons_self _ _))))))))
  have hm9 : P.EL.upperZ ∈ ffList P := (List.mem_cons_of_mem _ (List.mem_cons_of_mem _ (List.mem_cons_of_mem _ (List.mem_cons_of_mem _ (List.mem_cons_of_mem _ (List.mem_cons_of_mem _ (List.mem_cons_of_mem _ (List.mem_cons_of_mem _ (List.mem_cons_self _ _)))))))))
  have hm10 : P.EL.lowerZ ∈ ffList P := (List.mem_cons_of_mem _ (List.mem_cons_of_mem _ (List.mem_cons_of_mem _ (List.mem_cons_of_mem _ (List.mem_cons_of_mem _ (List.mem_cons_of_mem _ (List.mem_cons_of_mem _ (List.mem_cons_of_mem _ (List.mem_cons_of_mem _ (List.mem_cons_self _ _))))))))))
  have hm11 : P.ER.upperZ ∈ ffList P := (List.mem_cons_of_mem _ (List.mem_cons_of_mem _ (List.mem_cons_of_mem _ (List.mem_cons_of_mem _ (List.mem_cons_of_mem _ (List.mem_cons_of_mem _ (List.mem_cons_of_mem _ (List.mem_cons_of_mem _ (List.mem_cons_of_mem _ (List.mem_cons_of_mem _ (List.mem_cons_self _ _)))))))))))
  have hm12 : P.ER.lowerZ ∈ ffList P := (List.mem_cons_of_mem _ (List.mem_cons_of_mem _ (List.mem_cons_of_mem _ (List.mem_cons_of_mem _ (List.mem_cons_of_mem _ (List.mem_cons_of_mem _ (List.mem_cons_of_mem _ (List.mem_cons_of_mem _ (List.mem_cons_of_mem _ (List.mem_cons_of_mem _ (List.mem_cons_of_mem _ (List.mem_cons_self _ _))))))))))))
  have hm13 : P.EL.cornerIn ∈ ffList P := (List.mem_cons_of_mem _ (List.mem_cons_of_mem _ (List.mem_cons_of_mem _ (List.mem_cons_of_mem _ (List.mem_cons_of_mem _ (List.mem_cons_of_mem _ (List.mem_cons_of_mem _ (List.mem_cons_of_mem _ (List.mem_cons_of_mem _ (List.mem_cons_of_mem _ (List.mem_cons_of_mem _ (List.mem_cons_of_mem _ (List.mem_cons_self _ _)))))))))))))
  have hm14 : P.EL.cornerOut ∈ ffList P := (List.mem_cons_of_mem _ (List.mem_cons_of_mem _ (List.mem_cons_of_mem _ (List.mem_cons_of_mem _ (List.mem_cons_of_mem _ (List.mem_cons_of_mem _ (List.mem_cons_of_mem _ (List.mem_cons_of_mem _ (List.mem_cons_of_mem _ (List.mem_cons_of_mem _ (List.mem_cons_of_mem _ (List.mem_cons_of_mem _ (List.mem_cons_of_mem _ (List.mem_cons_self _ _))))))))))))))
  have hm15 : P.ER.cornerIn ∈ ffList P := (List.mem_cons_of_mem _ (List.mem_cons_of_mem _ (List.mem_cons_of_mem _ (List.mem_cons_of_mem _ (List.mem_cons_of_mem _ (List.mem_cons_of_mem _ (List.mem_cons_of_mem _ (List.mem_cons_of_mem _ (List.mem_cons_of_mem _ (List.mem_cons_of_mem _ (List.mem_cons_of_mem _ (List.mem_cons_of_mem _ (List.mem_cons_of_mem _ (List.mem_cons_of_mem _ (List.mem_cons_self _ _)))))))))))))))
  have hm16 : P.ER.cornerOut ∈ ffList P := (List.mem_cons_of_mem _ (List.mem_cons_of_mem _ (List.mem_cons_of_mem _ (List.mem_cons_of_mem _ (List.mem_cons_of_mem _ (List.mem_cons_of_mem _ (List.mem_cons_of_mem _ (List.mem_cons_of_mem _ (List.mem_cons_of_mem _ (List.mem_cons_of_mem _ (List.mem_cons_of_mem _ (List.mem_cons_of_mem _ (List.mem_cons_of_mem _ (List.mem_cons_of_mem _ (List.mem_cons_of_mem _ (List.mem_cons_self _ _))))))))))))))))
  have hm17 : P.EL.underEye ∈ ffList P := (List.mem_cons_of_mem _ (List.mem_cons_of_mem _ (List.mem_cons_of_mem _ (List.mem_cons_of_mem _ (List.mem_cons_of_mem _ (List.mem_cons_of_mem _ (List.mem_cons_of_mem _ (List.mem_cons_of_mem _ (List.mem_cons_of_mem _ (List.mem_cons_of_mem _ (List.mem_cons_of_mem _ (List.mem_cons_of_mem _ (List.mem_cons_of_mem _ (List.mem_cons_of_mem _ (List.mem_cons_of_mem _ (List.mem_cons_of_mem _ (List.mem_cons_self _ _)))))))))))))))))
  have hm18 : P.ER.underEye ∈ ffList P := (List.mem_cons_of_mem _ (List.mem_cons_of_mem _ (List.mem_cons_of_mem _ (List.mem_cons_of_mem _ (List.mem_cons_of_mem _ (List.mem_cons_of_mem _ (List.mem_cons_of_mem _ (List.mem_cons_of_mem _ (List.mem_cons_of_mem _ (List.mem_cons_of_mem _ (List.mem_cons_of_mem _ (List.mem_cons_of_mem _ (List.mem_cons_of_mem _ (List.mem_cons_of_mem _ (List.mem_cons_of_mem _ (List.mem_cons_of_mem _ (List.mem_cons_of_mem _ (List.mem_cons_self _ _))))))))))))))))))
  have hm19 : P.EL.tearTrough ∈ ffList P := (List.mem_cons_of_mem _ (List.mem_cons_of_mem _ (List.mem_cons_of_mem _ (List.mem_cons_of_mem _ (List.mem_cons_of_mem _ (List.mem_cons_of_mem _ (List.mem_cons_of_mem _ (List.mem_cons_of_mem _ (List.mem_cons_of_mem _ (List.mem_cons_of_mem _ (List.mem_cons_of_mem _ (List.mem_cons_of_mem _ (List.mem_cons_of_mem _ (List.mem_cons_of_mem _ (List.mem_cons_of_mem _ (List.mem_cons_of_mem _ (List.mem_cons_of_mem _ (List.mem_cons_of_mem _ (List.mem_cons_self _ _)))))))))))))))))))
  have hm20 : P.ER.tearTrough ∈ ffList P := (List.mem_cons_of_mem _ (List.mem_cons_of_mem _ (List.mem_cons_of_mem _ (List.mem_cons_of_mem _ (List.mem_cons_of_mem _ (List.mem_cons_of_mem _ (List.mem_cons_of_mem _ (List.mem_cons_of_mem _ (List.mem_cons_of_mem _ (List.mem_cons_of_mem _ (List.mem_cons_of_mem _ (List.mem_cons_of_mem _ (List.mem_cons_of_mem _ (List.mem_cons_of_mem _ (List.mem_cons_of_mem _ (List.mem_cons_of_mem _ (List.mem_cons_of_mem _ (List.mem_cons_of_mem _ (List.mem_cons_of_mem _ (List.mem_cons_self _ _))))))))))))))))))))
  have hm21 : P.NZ.bridge ∈ ffList P := (List.mem_cons_of_mem _ (List.mem_cons_of_mem _ (List.mem_cons_of_mem _ (List.mem_cons_of_mem _ (List.mem_cons_of_mem _ (List.mem_cons_of_mem _ (List.mem_cons_of_mem _ (List.mem_cons_of_mem _ (List.mem_cons_of_mem _ (List.mem_cons_of_mem _ (List.mem_cons_of_mem _ (List.mem_cons_of_mem _ (List.mem_cons_of_mem _ (List.mem_cons_of_mem _ (List.mem_cons_of_mem _ (List.mem_cons_of_mem _ (List.mem_cons_of_mem _ (List.mem_cons_of_mem _ (List.mem_cons_of_mem _ (List.mem_cons_of_mem _ (List.mem_cons_self _ _)))))))))))))))))))))
  have hm22 : P.NZ.bridgeU ∈ ffList P := (List.mem_cons_of_mem _ (List.mem_cons_of_mem _ (List.mem_cons_of_mem _ (List.mem_cons_of_mem _ (List.mem_cons_of_mem _ (List.mem_cons_of_mem _ (List.mem_cons_of_mem _ (List.mem_cons_of_mem _ (List.mem_cons_of_mem _ (List.mem_cons_of_mem _ (List.mem_cons_of_mem _ (List.mem_cons_of_mem _ (List.mem_cons_of_mem _ (List.mem_cons_of_mem _ (List.mem_cons_of_mem _ (List.mem_cons_of_mem _ (List.mem_cons_of_mem _ (List.mem_cons_of_mem _ (List.mem_cons_of_mem _ (List.mem_cons_of_mem _ (List.mem_cons_of_mem _ (List.mem_cons_self _ _))))))))))))))))))))))
  have hm23 : P.NZ.bridgeL ∈ ffList P := (List.mem_cons_of_mem _ (List.mem_cons_of_mem _ (List.mem_cons_of_mem _ (List.mem_cons_of_mem _ (List.mem_cons_of_mem _ (List.mem_cons_of_mem _ (List.mem_cons_of_mem _ (List.mem_cons_of_mem _ (List.mem_cons_of_mem _ (List.mem_cons_of_mem _ (List.mem_cons_of_mem _ (List.mem_cons_of_mem _ (List.mem_cons_of_mem _ (List.mem_cons_of_mem _ (List.mem_cons_of_mem _ (List.mem_cons_of_mem _ (List.mem_cons_of_mem _ (List.mem_cons_of_mem _ (List.mem_cons_of_mem _ (List.mem_cons_of_mem _ (List.mem_cons_of_mem _ (List.mem_cons_of_mem _ (List.mem_cons_self _ _)))))))))))))))))))))))
  have hm24 : P.NZ.tip ∈ ffList P := (List.mem_cons_of_mem _ (List.mem_cons_of_mem _ (List.mem_cons_of_mem _ (List.mem_cons_of_mem _ (List.mem_cons_of_mem _ (List.mem_cons_of_mem _ (List.mem_cons_of_mem _ (List.mem_cons_of_mem _ (List.mem_cons_of_mem _ (List.mem_cons_of_mem _ (List.mem_cons_of_mem _ (List.mem_cons_of_mem _ (List.mem_cons_of_mem _ (List.mem_cons_of_mem _ (List.mem_cons_of_mem _ (List.mem_cons_of_mem _ (List.mem_cons_of_mem _ (List.mem_cons_of_mem _ (List.mem_cons_of_mem _ (List.mem_cons_of_mem _ (List.mem_cons_of_mem _ (List.mem_cons_of_mem _ (List.mem_cons_of_mem _ (List.mem_cons_self _ _))))))))))))))))))))))))
  have hm25 : P.NZ.tipL ∈ ffList P := (List.mem_cons_of_mem _ (List.mem_cons_of_mem _ (List.mem_cons_of_mem _ (List.mem_cons_of_mem _ (List.mem_cons_of_mem _ (List.mem_cons_of_mem _ (List.mem_cons_of_mem _ (List.mem_cons_of_mem _ (List.mem_cons_of_mem _ (List.mem_cons_of_mem _ (List.mem_cons_of_mem _ (List.mem_cons_of_mem _ (List.mem_cons_of_mem _ (List.mem_cons_of_mem _ (List.mem_cons_of_mem _ (List.mem_cons_of_mem _ (List.mem_cons_of_mem _ (List.mem_cons_of_mem _ (List.mem_cons_of_mem _ (List.mem_cons_of_mem _ (List.mem_cons_of_mem _ (List.mem_cons_of_mem _ (List.mem_cons_of_mem _ (List.mem_cons_of_mem _ (List.mem_cons_self _ _)))))))))))))))))))))))))
  have hm26 : P.NZ.tipR ∈ ffList P := (List.mem_cons_of_mem _ (List.mem_cons_of_mem _ (List.mem_cons_of_mem _ (List.mem_cons_of_mem _ (List.mem_cons_of_mem _ (List.mem_cons_of_mem _ (List.mem_cons_of_mem _ (List.mem_cons_of_mem _ (List.mem_cons_of_mem _ (List.mem_cons_of_mem _ (List.mem_cons_of_mem _ (List.mem_cons_of_mem _ (List.mem_cons_of_mem _ (List.mem_cons_of_mem _ (List.mem_cons_of_mem _ (List.mem_cons_of_mem _ (List.mem_cons_of_mem _ (List.mem_cons_of_mem _ (List.mem_cons_of_mem _ (List.mem_cons_of_mem _ (List.mem_cons_of_mem _ (List.mem_cons_of_mem _ (List.mem_cons_of_mem _ (List.mem_cons_of_mem _ (List.mem_cons_of_mem _ (List.mem_cons_self _ _))))))))))))))))))))))))))
  have hm27 : P.NZ.nostrilL ∈ ffList P := (List.mem_cons_of_mem _ (List.mem_cons_of_mem _ (List.mem_cons_of_mem _ (List.mem_cons_of_mem _ (List.mem_cons_of_mem _ (List.mem_cons_of_mem _ (List.mem_cons_of_mem _ (List.mem_cons_of_mem _ (List.mem_cons_of_mem _ (List.mem_cons_of_mem _ (List.mem_cons_of_mem _ (List.mem_cons_of_mem _ (List.mem_cons_of_mem _ (List.mem_cons_of_mem _ (List.mem_cons_of_mem _ (List.mem_cons_of_mem _ (List.mem_cons_of_mem _ (List.mem_cons_of_mem _ (List.mem_cons_of_mem _ (List.mem_cons_of_mem _ (List.mem_cons_of_mem _ (List.mem_cons_of_mem _ (List.mem_cons_of_mem _ (List.mem_cons_of_mem _ (List.mem_cons_of_mem _ (List.mem_cons_of_mem _ (List.mem_cons_self _ _)))))))))))))))))))))))))))
  have hm28 : P.NZ.nostrilR ∈ ffList P := (List.mem_cons_of_mem _ (List.mem_cons_of_mem _ (List.mem_cons_of_mem _ (List.mem_cons_of_mem _ (List.mem_cons_of_mem _ (List.mem_cons_of_mem _ (List.mem_cons_of_mem _ (List.mem_cons_of_mem _ (List.mem_cons_of_mem _ (List.mem_cons_of_mem _ (List.mem_cons_of_mem _ (List.mem_cons_of_mem _ (List.mem_cons_of_mem _ (List.mem_cons_of_mem _ (List.mem_cons_of_mem _ (List.mem_cons_of_mem _ (List.mem_cons_of_mem _ (List.mem_cons_of_mem _ (List.mem_cons_of_mem _ (List.mem_cons_of_mem _ (List.mem_cons_of_mem _ (List.mem_cons_of_mem _ (List.mem_cons_of_mem _ (List.mem_cons_of_mem _ (List.mem_cons_of_mem _ (List.mem_cons_of_mem _ (List.mem_cons_of_mem _ (List.mem_cons_self _ _))))))))))))))))))))))))))))
  have hm29 : P.FZ.cheekL ∈ ffList P := (List.mem_cons_of_mem _ (List.mem_cons_of_mem _ (List.mem_cons_of_mem _ (List.mem_cons_of_mem _ (List.mem_cons_of_mem _ (List.mem_cons_of_mem _ (List.mem_cons_of_mem _ (List.mem_cons_of_mem _ (List.mem_cons_of_mem _ (List.mem_cons_of_mem _ (List.mem_cons_of_mem _ (List.mem_cons_of_mem _ (List.mem_cons_of_mem _ (List.mem_cons_of_mem _ (List.mem_cons_of_mem _ (List.mem_cons_of_mem _ (List.mem_cons_of_mem _ (List.mem_cons_of_mem _ (List.mem_cons_of_mem _ (List.mem_cons_of_mem _ (List.mem_cons_of_mem _ (List.mem_cons_of_mem _ (List.mem_cons_of_mem _ (List.mem_cons_of_mem _ (List.mem_cons_of_mem _ (List.mem_cons_of_mem _ (List.mem_cons_of_mem _ (List.mem_cons_of_mem _ (List.mem_cons_self _ _)))))))))))))))))))))))))))))
  have hm30 : P.FZ.cheekR ∈ ffList P := (List.mem_cons_of_mem _ (List.mem_cons_of_mem _ (List.mem_cons_of_mem _ (List.mem_cons_of_mem _ (List.mem_cons_of_mem _ (List.mem_cons_of_mem _ (List.mem_cons_of_mem _ (List.mem_cons_of_mem _ (List.mem_cons_of_mem _ (List.mem_cons_of_mem _ (List.mem_cons_of_mem _ (List.mem_cons_of_mem _ (List.mem_cons_of_mem _ (List.mem_cons_of_mem _ (List.mem_cons_of_mem _ (List.mem_cons_of_mem _ (List.mem_cons_of_mem _ (List.mem_cons_of_mem _ (List.mem_cons_of_mem _ (List.mem_cons_of_mem _ (List.mem_cons_of_mem _ (List.mem_cons_of_mem _ (List.mem_cons_of_mem _ (List.mem_cons_of_mem _ (List.mem_cons_of_mem _ (List.mem_cons_of_mem _ (List.mem_cons_of_mem _ (List.mem_cons_of_mem _ (List.mem_cons_of_mem _ (List.mem_cons_self _ _))))))))))))))))))))))))))))))
  have hm31 : P.FZ.cheekboneL ∈ ffList P := (List.mem_cons_of_mem _ (List.mem_cons_of_mem _ (List.mem_cons_of_mem _ (List.mem_cons_of_mem _ (List.mem_cons_of_mem _ (List.mem_cons_of_mem _ (List.mem_cons_of_mem _ (List.mem_cons_of_mem _ (List.mem_cons_of_mem _ (List.mem_cons_of_mem _ (List.mem_cons_of_mem _ (List.mem_cons_of_mem _ (List.mem_cons_of_mem _ (List.mem_cons_of_mem _ (List.mem_cons_of_mem _ (List.mem_cons_of_mem _ (List.mem_cons_of_mem _ (List.mem_cons_of_mem _ (List.mem_cons_of_mem _ (List.mem_cons_of_mem _ (List.mem_cons_of_mem _ (List.mem_cons_of_mem _ (List.mem_cons_of_mem _ (List.mem_cons_of_mem _ (List.mem_cons_of_mem _ (List.mem_cons_of_mem _ (List.mem_cons_of_mem _ (List.mem_cons_of_mem _ (List.mem_cons_of_mem _ (List.mem_cons_of_mem _ (List.mem_cons_self _ _)))))))))))))))))))))))))))))))
  have hm32 : P.FZ.cheekboneR ∈ ffList P := (List.mem_cons_of_mem _ (List.mem_cons_of_mem _ (List.mem_cons_of_mem _ (List.mem_cons_of_mem _ (List.mem_cons_of_mem _ (List.mem_cons_of_mem _ (List.mem_cons_of_mem _ (List.mem_cons_of_mem _ (List.mem_cons_of_mem _ (List.mem_cons_of_mem _ (List.mem_cons_of_mem _ (List.mem_cons_of_mem _ (List.mem_cons_of_mem _ (List.mem_cons_of_mem _ (List.mem_cons_of_mem _ (List.mem_cons_of_mem _ (List.mem_cons_of_mem _ (List.mem_cons_of_mem _ (List.mem_cons_of_mem _ (List.mem_cons_of_mem _ (List.mem_cons_of_mem _ (List.mem_cons_of_mem _ (List.mem_cons_of_mem _ (List.mem_cons_of_mem _ (List.mem_cons_of_mem _ (List.mem_cons_of_mem _ (List.mem_cons_of_mem _ (List.mem_cons_of_mem _ (List.mem_cons_of_mem _ (List.mem_cons_of_mem _ (List.mem_cons_of_mem _ (List.mem_cons_self _ _))))))))))))))))))))))))))))))))
  have hm33 : P.FZ.hollowL ∈ ffList P := (List.mem_cons_of_mem _ (List.mem_cons_of_mem _ (List.mem_cons_of_mem _ (List.mem_cons_of_mem _ (List.mem_cons_of_mem _ (List.mem_cons_of_mem _ (List.mem_cons_of_mem _ (List.mem_cons_of_mem _ (List.mem_cons_of_mem _ (List.mem_cons_of_mem _ (List.mem_cons_of_mem _ (List.mem_cons_of_mem _ (List.mem_cons_of_mem _ (List.mem_cons_of_mem _ (List.mem_cons_of_mem _ (List.mem_cons_of_mem _ (List.mem_cons_of_mem _ (List.mem_cons_of_mem _ (List.mem_cons_of_mem _ (List.mem_cons_of_mem _ (List.mem_cons_of_mem _ (List.mem_cons_of_mem _ (List.mem_cons_of_mem _ (List.mem_cons_of_mem _ (List.mem_cons_of_mem _ (List.mem_cons_of_mem _ (List.mem_cons_of_mem _ (List.mem_cons_of_mem _ (List.mem_cons_of_mem _ (List.mem_cons_of_mem _ (List.mem_cons_of_mem _ (List.mem_cons_of_mem _ (List.mem_cons_self _ _)))))))))))))))))))))))))))))))))
  have hm34 : P.FZ.hollowR ∈ ffList P := (List.mem_cons_of_mem _ (List.mem_cons_of_mem _ (List.mem_cons_of_mem _ (List.mem_cons_of_mem _ (List.mem_cons_of_mem _ (List.mem_cons_of_mem _ (List.mem_cons_of_mem _ (List.mem_cons_of_mem _ (List.mem_cons_of_mem _ (List.mem_cons_of_mem _ (List.mem_cons_of_mem _ (List.mem_cons_of_mem _ (List.mem_cons_of_mem _ (List.mem_cons_of_mem _ (List.mem_cons_of_mem _ (List.mem_cons_of_mem _ (List.mem_cons_of_mem _ (List.mem_cons_of_mem _ (List.mem_cons_of_mem _ (List.mem_cons_of_mem _ (List.mem_cons_of_mem _ (List.mem_cons_of_mem _ (List.mem_cons_of_mem _ (List.mem_cons_of_mem _ (List.mem_cons_of_mem _ (List.mem_cons_of_mem _ (List.mem_cons_of_mem _ (List.mem_cons_of_mem _ (List.mem_cons_of_mem _ (List.mem_cons_of_mem _ (List.mem_cons_of_mem _ (List.mem_cons_of_mem _ (List.mem_cons_of_mem _ (List.mem_cons_self _ _))))))))))))))))))))))))))))))))))
  have hm35 : P.FZ.nasoL ∈ ffList P := (List.mem_cons_of_mem _ (List.mem_cons_of_mem _ (List.mem_cons_of_mem _ (List.mem_cons_of_mem _ (List.mem_cons_of_mem _ (List.mem_cons_of_mem _ (List.mem_cons_of_mem _ (List.mem_cons_of_mem _ (List.mem_cons_of_mem _ (List.mem_cons_of_mem _ (List.mem_cons_of_mem _ (List.mem_cons_of_mem _ (List.mem_cons_of_mem _ (List.mem_cons_of_mem _ (List.mem_cons_of_mem _ (List.mem_cons_of_mem _ (List.mem_cons_of_mem _ (List.mem_cons_of_mem _ (List.mem_cons_of_mem _ (List.mem_cons_of_mem _ (List.mem_cons_of_mem _ (List.mem_cons_of_mem _ (List.mem_cons_of_mem _ (List.mem_cons_of_mem _ (List.mem_cons_of_mem _ (List.mem_cons_of_mem _ (List.mem_cons_of_mem _ (List.mem_cons_of_mem _ (List.mem_cons_of_mem _ (List.mem_cons_of_mem _ (List.mem_cons_of_mem _ (List.mem_cons_of_mem _ (List.mem_cons_of_mem _ (List.mem_cons_of_mem _ (List.mem_cons_self _ _)))))))))))))))))))))))))))))))))))
  have hm36 : P.FZ.nasoR ∈ ffList P := (List.mem_cons_of_mem _ (List.mem_cons_of_mem _ (List.mem_cons_of_mem _ (List.mem_cons_of_mem _ (List.mem_cons_of_mem _ (List.mem_cons_of_mem _ (List.mem_cons_of_mem _ (List.mem_cons_of_mem _ (List.mem_cons_of_mem _ (List.mem_cons_of_mem _ (List.mem_cons_of_mem _ (List.mem_cons_of_mem _ (List.mem_cons_of_mem _ (List.mem_cons_of_mem _ (List.mem_cons_of_mem _ (List.mem_cons_of_mem _ (List.mem_cons_of_mem _ (List.mem_cons_of_mem _ (List.mem_cons_of_mem _ (List.mem_cons_of_mem _ (List.mem_cons_of_mem _ (List.mem_cons_of_mem _ (List.mem_cons_of_mem _ (List.mem_cons_of_mem _ (List.mem_cons_of_mem _ (List.mem_cons_of_mem _ (List.mem_cons_of_mem _ (List.mem_cons_of_mem _ (List.mem_cons_of_mem _ (List.mem_cons_of_mem _ (List.mem_cons_of_mem _ (List.mem_cons_of_mem _ (List.mem_cons_of_mem _ (List.mem_cons_of_mem _ (List.mem_cons_of_mem _ (List.mem_cons_self _ _))))))))))))))))))))))))))))))))))))
  have hm37 : P.LZ.lipU ∈ ffList P := (List.mem_cons_of_mem _ (List.mem_cons_of_mem _ (List.mem_cons_of_mem _ (List.mem_cons_of_mem _ (List.mem_cons_of_mem _ (List.mem_cons_of_mem _ (List.mem_cons_of_mem _ (List.mem_cons_of_mem _ (List.mem_cons_of_mem _ (List.mem_cons_of_mem _ (List.mem_cons_of_mem _ (List.mem_cons_of_mem _ (List.mem_cons_of_mem _ (List.mem_cons_of_mem _ (List.mem_cons_of_mem _ (List.mem_cons_of_mem _ (List.mem_cons_of_mem _ (List.mem_cons_of_mem _ (List.mem_cons_of_mem _ (List.mem_cons_of_mem _ (List.mem_cons_of_mem _ (List.mem_cons_of_mem _ (List.mem_cons_of_mem _ (List.mem_cons_of_mem _ (List.mem_cons_of_mem _ (List.mem_cons_of_mem _ (List.mem_cons_of_mem _ (List.mem_cons_of_mem _ (List.mem_cons_of_mem _ (List.mem_cons_of_mem _ (List.mem_cons_of_mem _ (List.mem_cons_of_mem _ (List.mem_cons_of_mem _ (List.mem_cons_of_mem _ (List.mem_cons_of_mem _ (List.mem_cons_of_mem _ (List.mem_cons_self _ _)))))))))))))))))))))))))))))))))))))
  have hm38 : P.LZ.upLeft ∈ ffList P := (List.mem_cons_of_mem _ (List.mem_cons_of_mem _ (List.mem_cons_of_mem _ (List.mem_cons_of_mem _ (List.mem_cons_of_mem _ (List.mem_cons_of_mem _ (List.mem_cons_of_mem _ (List.mem_cons_of_mem _ (List.mem_cons_of_mem _ (List.mem_cons_of_mem _ (List.mem_cons_of_mem _ (List.mem_cons_of_mem _ (List.mem_cons_of_mem _ (List.mem_cons_of_mem _ (List.mem_cons_of_mem _ (List.mem_cons_of_mem _ (List.mem_cons_of_mem _ (List.mem_cons_of_mem _ (List.mem_cons_of_mem _ (List.mem_cons_of_mem _ (List.mem_cons_of_mem _ (List.mem_cons_of_mem _ (List.mem_cons_of_mem _ (List.mem_cons_of_mem _ (List.mem_cons_of_mem _ (List.mem_cons_of_mem _ (List.mem_cons_of_mem _ (List.mem_cons_of_mem _ (List.mem_cons_of_mem _ (List.mem_cons_of_mem _ (List.mem_cons_of_mem _ (List.mem_cons_of_mem _ (List.mem_cons_of_mem _ (List.mem_cons_of_mem _ (List.mem_cons_of_mem _ (List.mem_cons_of_mem _ (List.mem_cons_of_mem _ (List.mem_cons_self _ _))))))))))))))))))))))))))))))))))))))
  have hm39 : P.LZ.upRight ∈ ffList P := (List.mem_cons_of_mem _ (List.mem_cons_of_mem _ (List.mem_cons_of_mem _ (List.mem_cons_of_mem _ (List.mem_cons_of_mem _ (List.mem_cons_of_mem _ (List.mem_cons_of_mem _ (List.mem_cons_of_mem _ (List.mem_cons_of_mem _ (List.mem_cons_of_mem _ (List.mem_cons_of_mem _ (List.mem_cons_of_mem _ (List.mem_cons_of_mem _ (List.mem_cons_of_mem _ (List.mem_cons_of_mem _ (List.mem_cons_of_mem _ (List.mem_cons_of_mem _ (List.mem_cons_of_mem _ (List.mem_cons_of_mem _ (List.mem_cons_of_mem _ (List.mem_cons_of_mem _ (List.mem_cons_of_mem _ (List.mem_cons_of_mem _ (List.mem_cons_of_mem _ (List.mem_cons_of_mem _ (List.mem_cons_of_mem _ (List.mem_cons_of_mem _ (List.mem_cons_of_mem _ (List.mem_cons_of_mem _ (List.mem_cons_of_mem _ (List.mem_cons_of_mem _ (List.mem_cons_of_mem _ (List.mem_cons_of_mem _ (List.mem_cons_of_mem _ (List.mem_cons_of_mem _ (List.mem_cons_of_mem _ (List.mem_cons_of_mem _ (List.mem_cons_of_mem _ (List.mem_cons_self _ _)))))))))))))))))))))))))))))))))))))))
  have hm40 : P.LZ.upCenter ∈ ffList P := (List.mem_cons_of_mem _ (List.mem_cons_of_mem _ (List.mem_cons_of_mem _ (List.mem_cons_of_mem _ (List.mem_cons_of_mem _ (List.mem_cons_of_mem _ (List.mem_cons_of_mem _ (List.mem_cons_of_mem _ (List.mem_cons_of_mem _ (List.mem_cons_of_mem _ (List.mem_cons_of_mem _ (List.mem_cons_of_mem _ (List.mem_cons_of_mem _ (List.mem_cons_of_mem _ (List.mem_cons_of_mem _ (List.mem_cons_of_mem _ (List.mem_cons_of_mem _ (List.mem_cons_of_mem _ (List.mem_cons_of_mem _ (List.mem_cons_of_mem _ (List.mem_cons_of_mem _ (List.mem_cons_of_mem _ (List.mem_cons_of_mem _ (List.mem_cons_of_mem _ (List.mem_cons_of_mem _ (List.mem_cons_of_mem _ (List.mem_cons_of_mem _ (List.mem_cons_of_mem _ (List.mem_cons_of_mem _ (List.mem_cons_of_mem _ (List.mem_cons_of_mem _ (List.mem_cons_of_mem _ (List.mem_cons_of_mem _ (List.mem_cons_of_mem _ (List.mem_cons_of_mem _ (List.mem_cons_of_mem _ (List.mem_cons_of_mem _ (List.mem_cons_of_mem _ (List.mem_cons_of_mem _ (List.mem_cons_self _ _))))))))))))))))))))))))))))))))))))))))
  have hm41 : P.LZ.lipLo ∈ ffList P := (List.mem_cons_of_mem _ (List.mem_cons_of_mem _ (List.mem_cons_of_mem _ (List.mem_cons_of_mem _ (List.mem_cons_of_mem _ (List.mem_cons_of_mem _ (List.mem_cons_of_mem _ (List.mem_cons_of_mem _ (List.mem_cons_of_mem _ (List.mem_cons_of_mem _ (List.mem_cons_of_mem _ (List.mem_cons_of_mem _ (List.mem_cons_of_mem _ (List.mem_cons_of_mem _ (List.mem_cons_of_mem _ (List.mem_cons_of_mem _ (List.mem_cons_of_mem _ (List.mem_cons_of_mem _ (List.mem_cons_of_mem _ (List.mem_cons_of_mem _ (List.mem_cons_of_mem _ (List.mem_cons_of_mem _ (List.mem_cons_of_mem _ (List.mem_cons_of_mem _ (List.mem_cons_of_mem _ (List.mem_cons_of_mem _ (List.mem_cons_of_mem _ (List.mem_cons_of_mem _ (List.mem_cons_of_mem _ (List.mem_cons_of_mem _ (List.mem_cons_of_mem _ (List.mem_cons_of_mem _ (List.mem_cons_of_mem _ (List.mem_cons_of_mem _ (List.mem_cons_of_mem _ (List.mem_cons_of_mem _ (List.mem_cons_of_mem _ (List.mem_cons_of_mem _ (List.mem_cons_of_mem _ (List.mem_cons_of_mem _ (List.mem_cons_self _ _)))))))))))))))))))))))))))))))))))))))))
  have hm42 : P.LZ.loLeft ∈ ffList P := (List.mem_cons_of_mem _ (List.mem_cons_of_mem _ (List.mem_cons_of_mem _ (List.mem_cons_of_mem _ (List.mem_cons_of_mem _ (List.mem_cons_of_mem _ (List.mem_cons_of_mem _ (List.mem_cons_of_mem _ (List.mem_cons_of_mem _ (List.mem_cons_of_mem _ (List.mem_cons_of_mem _ (List.mem_cons_of_mem _ (List.mem_cons_of_mem _ (List.mem_cons_of_mem _ (List.mem_cons_of_mem _ (List.mem_cons_of_mem _ (List.mem_cons_of_mem _ (List.mem_cons_of_mem _ (List.mem_cons_of_mem _ (List.mem_cons_of_mem _ (List.mem_cons_of_mem _ (List.mem_cons_of_mem _ (List.mem_cons_of_mem _ (List.mem_cons_of_mem _ (List.mem_cons_of_mem _ (List.mem_cons_of_mem _ (List.mem_cons_of_mem _ (List.mem_cons_of_mem _ (List.mem_cons_of_mem _ (List.mem_cons_of_mem _ (List.mem_cons_of_mem _ (List.mem_cons_of_mem _ (List.mem_cons_of_mem _ (List.mem_cons_of_mem _ (List.mem_cons_of_mem _ (List.mem_cons_of_mem _ (List.mem_cons_of_mem _ (List.mem_cons_of_mem _ (List.mem_cons_of_mem _ (List.mem_cons_of_mem _ (List.mem_cons_of_mem _ (List.mem_cons_self _ _))))))))))))))))))))))))))))))))))))))))))
  have hm43 : P.LZ.loRight ∈ ffList P := (List.mem_cons_of_mem _ (List.mem_cons_of_mem _ (List.mem_cons_of_mem _ (List.mem_cons_of_mem _ (List.mem_cons_of_mem _ (List.mem_cons_of_mem _ (List.mem_cons_of_mem _ (List.mem_cons_of_mem _ (List.mem_cons_of_mem _ (List.mem_cons_of_mem _ (List.mem_cons_of_mem _ (List.mem_cons_of_mem _ (List.mem_cons_of_mem _ (List.mem_cons_of_mem _ (List.mem_cons_of_mem _ (List.mem_cons_of_mem _ (List.mem_cons_of_mem _ (List.mem_cons_of_mem _ (List.mem_cons_of_mem _ (List.mem_cons_of_mem _ (List.mem_cons_of_mem _ (List.mem_cons_of_mem _ (List.mem_cons_of_mem _ (List.mem_cons_of_mem _ (List.mem_cons_of_mem _ (List.mem_cons_of_mem _ (List.mem_cons_of_mem _ (List.mem_cons_of_mem _ (List.mem_cons_of_mem _ (List.mem_cons_of_mem _ (List.mem_cons_of_mem _ (List.mem_cons_of_mem _ (List.mem_cons_of_mem _ (List.mem_cons_of_mem _ (List.mem_cons_of_mem _ (List.mem_cons_of_mem _ (List.mem_cons_of_mem _ (List.mem_cons_of_mem _ (List.mem_cons_of_mem _ (List.mem_cons_of_mem _ (List.mem_cons_of_mem _ (List.mem_cons_of_mem _ (List.mem_cons_self _ _)))))))))))))))))))))))))))))))))))))))))))
  have hm44 : P.LZ.loCenter ∈ ffList P := (List.mem_cons_of_mem _ (List.mem_cons_of_mem _ (List.mem_cons_of_mem _ (List.mem_cons_of_mem _ (List.mem_cons_of_mem _ (List.mem_cons_of_mem _ (List.mem_cons_of_mem _ (List.mem_cons_of_mem _ (List.mem_cons_of_mem _ (List.mem_cons_of_mem _ (List.mem_cons_of_mem _ (List.mem_cons_of_mem _ (List.mem_cons_of_mem _ (List.mem_cons_of_mem _ (List.mem_cons_of_mem _ (List.mem_cons_of_mem _ (List.mem_cons_of_mem _ (List.mem_cons_of_mem _ (List.mem_cons_of_mem _ (List.mem_cons_of_mem _ (List.mem_cons_of_mem _ (List.mem_cons_of_mem _ (List.mem_cons_of_mem _ (List.mem_cons_of_mem _ (List.mem_cons_of_mem _ (List.mem_cons_of_mem _ (List.mem_cons_of_mem _ (List.mem_cons_of_mem _ (List.mem_cons_of_mem _ (List.mem_cons_of_mem _ (List.mem_cons_of_mem _ (List.mem_cons_of_mem _ (List.mem_cons_of_mem _ (List.mem_cons_of_mem _ (List.mem_cons_of_mem _ (List.mem_cons_of_mem _ (List.mem_cons_of_mem _ (List.mem_cons_of_mem _ (List.mem_cons_of_mem _ (List.mem_cons_of_mem _ (List.mem_cons_of_mem _ (List.mem_cons_of_mem _ (List.mem_cons_of_mem _ (List.mem_cons_self _ _))))))))))))))))))))))))))))))))))))))))))))
  have hm45 : P.LZ.cornerL ∈ ffList P := (List.mem_cons_of_mem _ (List.mem_cons_of_mem _ (List.mem_cons_of_mem _ (List.mem_cons_of_mem _ (List.mem_cons_of_mem _ (List.mem_cons_of_mem _ (List.mem_cons_of_mem _ (List.mem_cons_of_mem _ (List.mem_cons_of_mem _ (List.mem_cons_of_mem _ (List.mem_cons_of_mem _ (List.mem_cons_of_mem _ (List.mem_cons_of_mem _ (List.mem_cons_of_mem _ (List.mem_cons_of_mem _ (List.mem_cons_of_mem _ (List.mem_cons_of_mem _ (List.mem_cons_of_mem _ (List.mem_cons_of_mem _ (List.mem_cons_of_mem _ (List.mem_cons_of_mem _ (List.mem_cons_of_mem _ (List.mem_cons_of_mem _ (List.mem_cons_of_mem _ (List.mem_cons_of_mem _ (List.mem_cons_of_mem _ (List.mem_cons_of_mem _ (List.mem_cons_of_mem _ (List.mem_cons_of_mem _ (List.mem_cons_of_mem _ (List.mem_cons_of_mem _ (List.mem_cons_of_mem _ (List.mem_cons_of_mem _ (List.mem_cons_of_mem _ (List.mem_cons_of_mem _ (List.mem_cons_of_mem _ (List.mem_cons_of_mem _ (List.mem_cons_of_mem _ (List.mem_cons_of_mem _ (List.mem_cons_of_mem _ (List.mem_cons_of_mem _ (List.mem_cons_of_mem _ (List.mem_cons_of_mem _ (List.mem_cons_of_mem _ (List.mem_cons_self _ _)))))))))))))))))))))))))))))))))))))))))))))
  have hm46 : P.LZ.cornerR ∈ ffList P := (List.mem_cons_of_mem _ (List.mem_cons_of_mem _ (List.mem_cons_of_mem _ (List.mem_cons_of_mem _ (List.mem_cons_of_mem _ (List.mem_cons_of_mem _ (List.mem_cons_of_mem _ (List.mem_cons_of_mem _ (List.mem_cons_of_mem _ (List.mem_cons_of_mem _ (List.mem_cons_of_mem _ (List.mem_cons_of_mem _ (List.mem_cons_of_mem _ (List.mem_cons_of_mem _ (List.mem_cons_of_mem _ (List.mem_cons_of_mem _ (List.mem_cons_of_mem _ (List.mem_cons_of_mem _ (List.mem_cons_of_mem _ (List.mem_cons_of_mem _ (List.mem_cons_of_mem _ (List.mem_cons_of_mem _ (List.mem_cons_of_mem _ (List.mem_cons_of_mem _ (List.mem_cons_of_mem _ (List.mem_cons_of_mem _ (List.mem_cons_of_mem _ (List.mem_cons_of_mem _ (List.mem_cons_of_mem _ (List.mem_cons_of_mem _ (List.mem_cons_of_mem _ (List.mem_cons_of_mem _ (List.mem_cons_of_mem _ (List.mem_cons_of_mem _ (List.mem_cons_of_mem _ (List.mem_cons_of_mem _ (List.mem_cons_of_mem _ (List.mem_cons_of_mem _ (List.mem_cons_of_mem _ (List.mem_cons_of_mem _ (List.mem_cons_of_mem _ (List.mem_cons_of_mem _ (List.mem_cons_of_mem _ (List.mem_cons_of_mem _ (List.mem_cons_of_mem _ (List.mem_cons_self _ _))))))))))))))))))))))))))))))))))))))))))))))
  have hm47 : P.FZ.chin ∈ ffList P := (List.mem_cons_of_mem _ (List.mem_cons_of_mem _ (List.mem_cons_of_mem _ (List.mem_cons_of_mem _ (List.mem_cons_of_mem _ (List.mem_cons_of_mem _ (List.mem_cons_of_mem _ (List.mem_cons_of_mem _ (List.mem_cons_of_mem _ (List.mem_cons_of_mem _ (List.mem_cons_of_mem _ (List.mem_cons_of_mem _ (List.mem_cons_of_mem _ (List.mem_cons_of_mem _ (List.mem_cons_of_mem _ (List.mem_cons_of_mem _ (List.mem_cons_of_mem _ (List.mem_cons_of_mem _ (List.mem_cons_of_mem _ (List.mem_cons_of_mem _ (List.mem_cons_of_mem _ (List.mem_cons_of_mem _ (List.mem_cons_of_mem _ (List.mem_cons_of_mem _ (List.mem_cons_of_mem _ (List.mem_cons_of_mem _ (List.mem_cons_of_mem _ (List.mem_cons_of_mem _ (List.mem_cons_of_mem _ (List.mem_cons_of_mem _ (List.mem_cons_of_mem _ (List.mem_cons_of_mem _ (List.mem_cons_of_mem _ (List.mem_cons_of_mem _ (List.mem_cons_of_mem _ (List.mem_cons_of_mem _ (List.mem_cons_of_mem _ (List.mem_cons_of_mem _ (List.mem_cons_of_mem _ (List.mem_cons_of_mem _ (List.mem_cons_of_mem _ (List.mem_cons_of_mem _ (List.mem_cons_of_mem _ (List.mem_cons_of_mem _ (List.mem_cons_of_mem _ (List.mem_cons_of_mem _ (List.mem_cons_self _ _)))))))))))))))))))))))))))))))))))))))))))))))
  have hm48 : P.FZ.chinC ∈ ffList P := (List.mem_cons_of_mem _ (List.mem_cons_of_mem _ (List.mem_cons_of_mem _ (List.mem_cons_of_mem _ (List.mem_cons_of_mem _ (List.mem_cons_of_mem _ (List.mem_cons_of_mem _ (List.mem_cons_of_mem _ (List.mem_cons_of_mem _ (List.mem_cons_of_mem _ (List.mem_cons_of_mem _ (List.mem_cons_of_mem _ (List.mem_cons_of_mem _ (List.mem_cons_of_mem _ (List.mem_cons_of_mem _ (List.mem_cons_of_mem _ (List.mem_cons_of_mem _ (List.mem_cons_of_mem _ (List.mem_cons_of_mem _ (List.mem_cons_of_mem _ (List.mem_cons_of_mem _ (List.mem_cons_of_mem _ (List.mem_cons_of_mem _ (List.mem_cons_of_mem _ (List.mem_cons_of_mem _ (List.mem_cons_of_mem _ (List.mem_cons_of_mem _ (List.mem_cons_of_mem _ (List.mem_cons_of_mem _ (List.mem_cons_of_mem _ (List.mem_cons_of_mem _ (List.mem_cons_of_mem _ (List.mem_cons_of_mem _ (List.mem_cons_of_mem _ (List.mem_cons_of_mem _ (List.mem_cons_of_mem _ (List.mem_cons_of_mem _ (List.mem_cons_of_mem _ (List.mem_cons_of_mem _ (List.mem_cons_of_mem _ (List.mem_cons_of_mem _ (List.mem_cons_of_mem _ (List.mem_cons_of_mem _ (List.mem_cons_of_mem _ (List.mem_cons_of_mem _ (List.mem_cons_of_mem _ (List.mem_cons_of_mem _ (List.mem_cons_self _ _))))))))))))))))))))))))))))))))))))))))))))))))
  have hm49 : P.FZ.chinL ∈ ffList P := (List.mem_cons_of_mem _ (List.mem_cons_of_mem _ (List.mem_cons_of_mem _ (List.mem_cons_of_mem _ (List.mem_cons_of_mem _ (List.mem_cons_of_mem _ (List.mem_cons_of_mem _ (List.mem_cons_of_mem _ (List.mem_cons_of_mem _ (List.mem_cons_of_mem _ (List.mem_cons_of_mem _ (List.mem_cons_of_mem _ (List.mem_cons_of_mem _ (List.mem_cons_of_mem _ (List.mem_cons_of_mem _ (List.mem_cons_of_mem _ (List.mem_cons_of_mem _ (List.mem_cons_of_mem _ (List.mem_cons_of_mem _ (List.mem_cons_of_mem _ (List.mem_cons_of_mem _ (List.mem_cons_of_mem _ (List.mem_cons_of_mem _ (List.mem_cons_of_mem _ (List.mem_cons_of_mem _ (List.mem_cons_of_mem _ (List.mem_cons_of_mem _ (List.mem_cons_of_mem _ (List.mem_cons_of_mem _ (List.mem_cons_of_mem _ (List.mem_cons_of_mem _ (List.mem_cons_of_mem _ (List.mem_cons_of_mem _ (List.mem_cons_of_mem _ (List.mem_cons_of_mem _ (List.mem_cons_of_mem _ (List.mem_cons_of_mem _ (List.mem_cons_of_mem _ (List.mem_cons_of_mem _ (List.mem_cons_of_mem _ (List.mem_cons_of_mem _ (List.mem_cons_of_mem _ (List.mem_cons_of_mem _ (List.mem_cons_of_mem _ (List.mem_cons_of_mem _ (List.mem_cons_of_mem _ (List.mem_cons_of_mem _ (List.mem_cons_of_mem _ (List.mem_cons_self _ _)))))))))))))))))))))))))))))))))))))))))))))))))
  have hm50 : P.FZ.chinR ∈ ffList P := (List.mem_cons_of_mem _ (List.mem_cons_of_mem _ (List.mem_cons_of_mem _ (List.mem_cons_of_mem _ (List.mem_cons_of_mem _ (List.mem_cons_of_mem _ (List.mem_cons_of_mem _ (List.mem_cons_of_mem _ (List.mem_cons_of_mem _ (List.mem_cons_of_mem _ (List.mem_cons_of_mem _ (List.mem_cons_of_mem _ (List.mem_cons_of_mem _ (List.mem_cons_of_mem _ (List.mem_cons_of_mem _ (List.mem_cons_of_mem _ (List.mem_cons_of_mem _ (List.mem_cons_of_mem _ (List.mem_cons_of_mem _ (List.mem_cons_of_mem _ (List.mem_cons_of_mem _ (List.mem_cons_of_mem _ (List.mem_cons_of_mem _ (List.mem_cons_of_mem _ (List.mem_cons_of_mem _ (List.mem_cons_of_mem _ (List.mem_cons_of_mem _ (List.mem_cons_of_mem _ (List.mem_cons_of_mem _ (List.mem_cons_of_mem _ (List.mem_cons_of_mem _ (List.mem_cons_of_mem _ (List.mem_cons_of_mem _ (List.mem_cons_of_mem _ (List.mem_cons_of_mem _ (List.mem_cons_of_mem _ (List.mem_cons_of_mem _ (List.mem_cons_of_mem _ (List.mem_cons_of_mem _ (List.mem_cons_of_mem _ (List.mem_cons_of_mem _ (List.mem_cons_of_mem _ (List.mem_cons_of_mem _ (List.mem_cons_of_mem _ (List.mem_cons_of_mem _ (List.mem_cons_of_mem _ (List.mem_cons_of_mem _ (List.mem_cons_of_mem _ (List.mem_cons_of_mem _ (List.mem_cons_self _ _))))))))))))))))))))))))))))))))))))))))))))))))))
  have hm51 : P.FZ.jawL ∈ ffList P := (List.mem_cons_of_mem _ (List.mem_cons_of_mem _ (List.mem_cons_of_mem _ (List.mem_cons_of_mem _ (List.mem_cons_of_mem _ (List.mem_cons_of_mem _ (List.mem_cons_of_mem _ (List.mem_cons_of_mem _ (List.mem_cons_of_mem _ (List.mem_cons_of_mem _ (List.mem_cons_of_mem _ (List.mem_cons_of_mem _ (List.mem_cons_of_mem _ (List.mem_cons_of_mem _ (List.mem_cons_of_mem _ (List.mem_cons_of_mem _ (List.mem_cons_of_mem _ (List.mem_cons_of_mem _ (List.mem_cons_of_mem _ (List.mem_cons_of_mem _ (List.mem_cons_of_mem _ (List.mem_cons_of_mem _ (List.mem_cons_of_mem _ (List.mem_cons_of_mem _ (List.mem_cons_of_mem _ (List.mem_cons_of_mem _ (List.mem_cons_of_mem _ (List.mem_cons_of_mem _ (List.mem_cons_of_mem _ (List.mem_cons_of_mem _ (List.mem_cons_of_mem _ (List.mem_cons_of_mem _ (List.mem_cons_of_mem _ (List.mem_cons_of_mem _ (List.mem_cons_of_mem _ (List.mem_cons_of_mem _ (List.mem_cons_of_mem _ (List.mem_cons_of_mem _ (List.mem_cons_of_mem _ (List.mem_cons_of_mem _ (List.mem_cons_of_mem _ (List.mem_cons_of_mem _ (List.mem_cons_of_mem _ (List.mem_cons_of_mem _ (List.mem_cons_of_mem _ (List.mem_cons_of_mem _ (List.mem_cons_of_mem _ (List.mem_cons_of_mem _ (List.mem_cons_of_mem _ (List.mem_cons_of_mem _ (List.mem_cons_self _ _)))))))))))))))))))))))))))))))))))))))))))))))))))
  have hm52 : P.FZ.jawR ∈ ffList P := (List.mem_cons_of_mem _ (List.mem_cons_of_mem _ (List.mem_cons_of_mem _ (List.mem_cons_of_mem _ (List.mem_cons_of_mem _ (List.mem_cons_of_mem _ (List.mem_cons_of_mem _ (List.mem_cons_of_mem _ (List.mem_cons_of_mem _ (List.mem_cons_of_mem _ (List.mem_cons_of_mem _ (List.mem_cons_of_mem _ (List.mem_cons_of_mem _ (List.mem_cons_of_mem _ (List.mem_cons_of_mem _ (List.mem_cons_of_mem _ (List.mem_cons_of_mem _ (List.mem_cons_of_mem _ (List.mem_cons_of_mem _ (List.mem_cons_of_mem _ (List.mem_cons_of_mem _ (List.mem_cons_of_mem _ (List.mem_cons_of_mem _ (List.mem_cons_of_mem _ (List.mem_cons_of_mem _ (List.mem_cons_of_mem _ (List.mem_cons_of_mem _ (List.mem_cons_of_mem _ (List.mem_cons_of_mem _ (List.mem_cons_of_mem _ (List.mem_cons_of_mem _ (List.mem_cons_of_mem _ (List.mem_cons_of_mem _ (List.mem_cons_of_mem _ (List.mem_cons_of_mem _ (List.mem_cons_of_mem _ (List.mem_cons_of_mem _ (List.mem_cons_of_mem _ (List.mem_cons_of_mem _ (List.mem_cons_of_mem _ (List.mem_cons_of_mem _ (List.mem_cons_of_mem _ (List.mem_cons_of_mem _ (List.mem_cons_of_mem _ (List.mem_cons_of_mem _ (List.mem_cons_of_mem _ (List.mem_cons_of_mem _ (List.mem_cons_of_mem _ (List.mem_cons_of_mem _ (List.mem_cons_of_mem _ (List.mem_cons_of_mem _ (List.mem_cons_self _ _))))))))))))))))))))))))))))))))))))))))))))))))))))
  have hm53 : P.FZ.jawlineL ∈ ffList P := (List.mem_cons_of_mem _ (List.mem_cons_of_mem _ (List.mem_cons_of_mem _ (List.mem_cons_of_mem _ (List.mem_cons_of_mem _ (List.mem_cons_of_mem _ (List.mem_cons_of_mem _ (List.mem_cons_of_mem _ (List.mem_cons_of_mem _ (List.mem_cons_of_mem _ (List.mem_cons_of_mem _ (List.mem_cons_of_mem _ (List.mem_cons_of_mem _ (List.mem_cons_of_mem _ (List.mem_cons_of_mem _ (List.mem_cons_of_mem _ (List.mem_cons_of_mem _ (List.mem_cons_of_mem _ (List.mem_cons_of_mem _ (List.mem_cons_of_mem _ (List.mem_cons_of_mem _ (List.mem_cons_of_mem _ (List.mem_cons_of_mem _ (List.mem_cons_of_mem _ (List.mem_cons_of_mem _ (List.mem_cons_of_mem _ (List.mem_cons_of_mem _ (List.mem_cons_of_mem _ (List.mem_cons_of_mem _ (List.mem_cons_of_mem _ (List.mem_cons_of_mem _ (List.mem_cons_of_mem _ (List.mem_cons_of_mem _ (List.mem_cons_of_mem _ (List.mem_cons_of_mem _ (List.mem_cons_of_mem _ (List.mem_cons_of_mem _ (List.mem_cons_of_mem _ (List.mem_cons_of_mem _ (List.mem_cons_of_mem _ (List.mem_cons_of_mem _ (List.mem_cons_of_mem _ (List.mem_cons_of_mem _ (List.mem_cons_of_mem _ (List.mem_cons_of_mem _ (List.mem_cons_of_mem _ (List.mem_cons_of_mem _ (List.mem_cons_of_mem _ (List.mem_cons_of_mem _ (List.mem_cons_of_mem _ (List.mem_cons_of_mem _ (List.mem_cons_of_mem _ (List.mem_cons_self _ _)))))))))))))))))))))))))))))))))))))))))))))))))))))
  have hm54 : P.FZ.jawlineR ∈ ffList P := (List.mem_cons_of_mem _ (List.mem_cons_of_mem _ (List.mem_cons_of_mem _ (List.mem_cons_of_mem _ (List.mem_cons_of_mem _ (List.mem_cons_of_mem _ (List.mem_cons_of_mem _ (List.mem_cons_of_mem _ (List.mem_cons_of_mem _ (List.mem_cons_of_mem _ (List.mem_cons_of_mem _ (List.mem_cons_of_mem _ (List.mem_cons_of_mem _ (List.mem_cons_of_mem _ (List.mem_cons_of_mem _ (List.mem_cons_of_mem _ (List.mem_cons_of_mem _ (List.mem_cons_of_mem _ (List.mem_cons_of_mem _ (List.mem_cons_of_mem _ (List.mem_cons_of_mem _ (List.mem_cons_of_mem _ (List.mem_cons_of_mem _ (List.mem_cons_of_mem _ (List.mem_cons_of_mem _ (List.mem_cons_of_mem _ (List.mem_cons_of_mem _ (List.mem_cons_of_mem _ (List.mem_cons_of_mem _ (List.mem_cons_of_mem _ (List.mem_cons_of_mem _ (List.mem_cons_of_mem _ (List.mem_cons_of_mem _ (List.mem_cons_of_mem _ (List.mem_cons_of_mem _ (List.mem_cons_of_mem _ (List.mem_cons_of_mem _ (List.mem_cons_of_mem _ (List.mem_cons_of_mem _ (List.mem_cons_of_mem _ (List.mem_cons_of_mem _ (List.mem_cons_of_mem _ (List.mem_cons_of_mem _ (List.mem_cons_of_mem _ (List.mem_cons_of_mem _ (List.mem_cons_of_mem _ (List.mem_cons_of_mem _ (List.mem_cons_of_mem _ (List.mem_cons_of_mem _ (List.mem_cons_of_mem _ (List.mem_cons_of_mem _ (List.mem_cons_of_mem _ (List.mem_cons_of_mem _ (List.mem_cons_self _ _))))))))))))))))))))))))))))))))))))))))))))))))))))))
  have hm55 : P.templeLZ ∈ ffList P := (List.mem_cons_of_mem _ (List.mem_cons_of_mem _ (List.mem_cons_of_mem _ (List.mem_cons_of_mem _ (List.mem_cons_of_mem _ (List.mem_cons_of_mem _ (List.mem_cons_of_mem _ (List.mem_cons_of_mem _ (List.mem_cons_of_mem _ (List.mem_cons_of_mem _ (List.mem_cons_of_mem _ (List.mem_cons_of_mem _ (List.mem_cons_of_mem _ (List.mem_cons_of_mem _ (List.mem_cons_of_mem _ (List.mem_cons_of_mem _ (List.mem_cons_of_mem _ (List.mem_cons_of_mem _ (List.mem_cons_of_mem _ (List.mem_cons_of_mem _ (List.mem_cons_of_mem _ (List.mem_cons_of_mem _ (List.mem_cons_of_mem _ (List.mem_cons_of_mem _ (List.mem_cons_of_mem _ (List.mem_cons_of_mem _ (List.mem_cons_of_mem _ (List.mem_cons_of_mem _ (List.mem_cons_of_mem _ (List.mem_cons_of_mem _ (List.mem_cons_of_mem _ (List.mem_cons_of_mem _ (List.mem_cons_of_mem _ (List.mem_cons_of_mem _ (List.mem_cons_of_mem _ (List.mem_cons_of_mem _ (List.mem_cons_of_mem _ (List.mem_cons_of_mem _ (List.mem_cons_of_mem _ (List.mem_cons_of_mem _ (List.mem_cons_of_mem _ (List.mem_cons_of_mem _ (List.mem_cons_of_mem _ (List.mem_cons_of_mem _ (List.mem_cons_of_mem _ (List.mem_cons_of_mem _ (List.mem_cons_of_mem _ (List.mem_cons_of_mem _ (List.mem_cons_of_mem _ (List.mem_cons_of_mem _ (List.mem_cons_of_mem _ (List.mem_cons_of_mem _ (List.mem_cons_of_mem _ (List.mem_cons_of_mem _ (List.mem_cons_self _ _)))))))))))))))))))))))))))))))))))))))))))))))))))))))
  have hm56 : P.templeRZ ∈ ffList P := (List.mem_cons_of_mem _ (List.mem_cons_of_mem _ (List.mem_cons_of_mem _ (List.mem_cons_of_mem _ (List.mem_cons_of_mem _ (List.mem_cons_of_mem _ (List.mem_cons_of_mem _ (List.mem_cons_of_mem _ (List.mem_cons_of_mem _ (List.mem_cons_of_mem _ (List.mem_cons_of_mem _ (List.mem_cons_of_mem _ (List.mem_cons_of_mem _ (List.mem_cons_of_mem _ (List.mem_cons_of_mem _ (List.mem_cons_of_mem _ (List.mem_cons_of_mem _ (List.mem_cons_of_mem _ (List.mem_cons_of_mem _ (List.mem_cons_of_mem _ (List.mem_cons_of_mem _ (List.mem_cons_of_mem _ (List.mem_cons_of_mem _ (List.mem_cons_of_mem _ (List.mem_cons_of_mem _ (List.mem_cons_of_mem _ (List.mem_cons_of_mem _ (List.mem_cons_of_mem _ (List.mem_cons_of_mem _ (List.mem_cons_of_mem _ (List.mem_cons_of_mem _ (List.mem_cons_of_mem _ (List.mem_cons_of_mem _ (List.mem_cons_of_mem _ (List.mem_cons_of_mem _ (List.mem_cons_of_mem _ (List.mem_cons_of_mem _ (List.mem_cons_of_mem _ (List.mem_cons_of_mem _ (List.mem_cons_of_mem _ (List.mem_cons_of_mem _ (List.mem_cons_of_mem _ (List.mem_cons_of_mem _ (List.mem_cons_of_mem _ (List.mem_cons_of_mem _ (List.mem_cons_of_mem _ (List.mem_cons_of_mem _ (List.mem_cons_of_mem _ (List.mem_cons_of_mem _ (List.mem_cons_of_mem _ (List.mem_cons_of_mem _ (List.mem_cons_of_mem _ (List.mem_cons_of_mem _ (List.mem_cons_of_mem _ (List.mem_cons_of_mem _ (List.mem_cons_self _ _))))))))))))))))))))))))))))))))))))))))))))))))))))))))
  intro nm hnm hne i hi
  simp only [ALL_CLINICAL_ZONES, List.mem_cons, List.not_mem_nil, or_false] at hnm
  rcases hnm with rfl|rfl|rfl|rfl|rfl|rfl|rfl|rfl|rfl|rfl|rfl|rfl|rfl|rfl|rfl|rfl|rfl|rfl|rfl|rfl|rfl|rfl|rfl|rfl|rfl|rfl|rfl|rfl|rfl|rfl|rfl|rfl|rfl|rfl|rfl|rfl|rfl|rfl|rfl|rfl|rfl|rfl|rfl|rfl|rfl|rfl|rfl|rfl|rfl|rfl|rfl|rfl|rfl|rfl|rfl|rfl|rfl|rfl|rfl|rfl|rfl
  · exact hi
  · exact mem_sortFinset.mpr (mem_unionFinsets.mpr ⟨_, hm1, hi⟩)
  · exact mem_sortFinset.mpr (mem_unionFinsets.mpr ⟨_, hm2, hi⟩)
  · exact mem_sortFinset.mpr (mem_unionFinsets.mpr ⟨_, hm3, hi⟩)
  · exact mem_sortFinset.mpr (mem_unionFinsets.mpr ⟨_, hm4, hi⟩)
  · exact mem_sortFinset.mpr (mem_unionFinsets.mpr ⟨_, hm5, hi⟩)
  · exact mem_sortFinset.mpr (mem_unionFinsets.mpr ⟨_, hm6, hi⟩)
  · exact mem_sortFinset.mpr (mem_unionFinsets.mpr ⟨_, hm7, hi⟩)
  · exact mem_sortFinset.mpr (mem_unionFinsets.mpr ⟨_, hm8, hi⟩)
  · exact mem_sortFinset.mpr (mem_unionFinsets.mpr ⟨_, hm9, hi⟩)
  · exact mem_sortFinset.mpr (mem_unionFinsets.mpr ⟨_, hm10, hi⟩)
  · exact mem_sortFinset.mpr (mem_unionFinsets.mpr ⟨_, hm11, hi⟩)
  · exact mem_sortFinset.mpr (mem_unionFinsets.mpr ⟨_, hm12, hi⟩)
  · exact mem_sortFinset.mpr (mem_unionFinsets.mpr ⟨_, hm13, hi⟩)
  · exact mem_sortFinset.mpr (mem_unionFinsets.mpr ⟨_, hm14, hi⟩)
  · exact mem_sortFinset.mpr (mem_unionFinsets.mpr ⟨_, hm15, hi⟩)
  · exact mem_sortFinset.mpr (mem_unionFinsets.mpr ⟨_, hm16, hi⟩)
  · exact mem_sortFinset.mpr (mem_unionFinsets.mpr ⟨_, hm17, hi⟩)
  · exact mem_sortFinset.mpr (mem_unionFinsets.mpr ⟨_, hm18, hi⟩)
  · exact mem_sortFinset.mpr (mem_unionFinsets.mpr ⟨_, hm19, hi⟩)
  · exact mem_sortFinset.mpr (mem_unionFinsets.mpr ⟨_, hm20, hi⟩)
  · exact mem_sortFinset.mpr (mem_unionFinsets.mpr ⟨_, hm21, hi⟩)
  · exact mem_sortFinset.mpr (mem_unionFinsets.mpr ⟨_, hm22, hi⟩)
  · exact mem_sortFinset.mpr (mem_unionFinsets.mpr ⟨_, hm23, hi⟩)
  · exact mem_sortFinset.mpr (mem_unionFinsets.mpr ⟨_, hm24, hi⟩)
  · exact mem_sortFinset.mpr (mem_unionFinsets.mpr ⟨_, hm25, hi⟩)
  · exact mem_sortFinset.mpr (mem_unionFinsets.mpr ⟨_, hm26, hi⟩)
  · exact mem_sortFinset.mpr (mem_unionFinsets.mpr ⟨_, hm27, hi⟩)
  · exact mem_sortFinset.mpr (mem_unionFinsets.mpr ⟨_, hm28, hi⟩)
  · exact mem_sortFinset.mpr (mem_unionFinsets.mpr ⟨_, hm21, hi⟩)
  · exact mem_sortFinset.mpr (mem_unionFinsets.mpr ⟨_, hm29, hi⟩)
  · exact mem_sortFinset.mpr (mem_unionFinsets.mpr ⟨_, hm30, hi⟩)
  · exact mem_sortFinset.mpr (mem_unionFinsets.mpr ⟨_, hm31, hi⟩)
  · exact mem_sortFinset.mpr (mem_unionFinsets.mpr ⟨_, hm32, hi⟩)
  · exact mem_sortFinset.mpr (mem_unionFinsets.mpr ⟨_, hm33, hi⟩)
  · exact mem_sortFinset.mpr (mem_unionFinsets.mpr ⟨_, hm34, hi⟩)
  · exact mem_sortFinset.mpr (mem_unionFinsets.mpr ⟨_, hm35, hi⟩)
  · exact mem_sortFinset.mpr (mem_unionFinsets.mpr ⟨_, hm36, hi⟩)
  · exact mem_sortFinset.mpr (mem_unionFinsets.mpr ⟨_, hm37, hi⟩)
  · exact mem_sortFinset.mpr (mem_unionFinsets.mpr ⟨_, hm38, hi⟩)
  · exact mem_sortFinset.mpr (mem_unionFinsets.mpr ⟨_, hm39, hi⟩)
  · exact mem_sortFinset.mpr (mem_unionFinsets.mpr ⟨_, hm40, hi⟩)
  · exact mem_sortFinset.mpr (mem_unionFinsets.mpr ⟨_, hm41, hi⟩)
  · exact mem_sortFinset.mpr (mem_unionFinsets.mpr ⟨_, hm42, hi⟩)
  · exact mem_sortFinset.mpr (mem_unionFinsets.mpr ⟨_, hm43, hi⟩)
  · exact mem_sortFinset.mpr (mem_unionFinsets.mpr ⟨_, hm44, hi⟩)
  · exact mem_sortFinset.mpr (mem_unionFinsets.mpr ⟨_, hm45, hi⟩)
  · exact mem_sortFinset.mpr (mem_unionFinsets.mpr ⟨_, hm46, hi⟩)
  · exact mem_sortFinset.mpr (mem_unionFinsets.mpr ⟨_, hm47, hi⟩)
  · exact mem_sortFinset.mpr (mem_unionFinsets.mpr ⟨_, hm48, hi⟩)
  · exact mem_sortFinset.mpr (mem_unionFinsets.mpr ⟨_, hm49, hi⟩)
  · exact mem_sortFinset.mpr (mem_unionFinsets.mpr ⟨_, hm50, hi⟩)
  · exact mem_sortFinset.mpr (mem_unionFinsets.mpr ⟨_, hm51, hi⟩)
  · exact mem_sortFinset.mpr (mem_unionFinsets.mpr ⟨_, hm52, hi⟩)
  · exact mem_sortFinset.mpr (mem_unionFinsets.mpr ⟨_, hm53, hi⟩)
  · exact mem_sortFinset.mpr (mem_unionFinsets.mpr ⟨_, hm54, hi⟩)
  · exact mem_sortFinset.mpr (mem_unionFinsets.mpr ⟨_, hm55, hi⟩)
  · exact mem_sortFinset.mpr (mem_unionFinsets.mpr ⟨_, hm56, hi⟩)
  · exact absurd (by decide) hne
  · exact absurd (by decide) hne
  · exact absurd (by decide) hne

/-- C3: in both components, full_face is a superset of every other zone
except neck, ear_left and ear_right: every index of any such zone is
also in the full_face zone. -/
theorem claim3 : ∀ (verts : List Vec3) (masks : List (String × MaskVal)) (nm : String),
    nm ∉ (["neck", "ear_left", "ear_right"] : List String) →
    (∀ i ∈ zoneGet (subdivide verts masks) nm,
      i ∈ zoneGet (subdivide verts masks) "full_face") ∧
    (∀ i ∈ zoneGet (posOnly verts) nm, i ∈ zoneGet (posOnly verts) "full_face") := by
  intro verts masks nm hne
  constructor
  · intro i hi
    by_cases hmem : nm ∈ ALL_CLINICAL_ZONES
    · rw [zoneGet_subdivide verts masks hmem] at hi
      rw [zoneGet_subdivide verts masks (by decide)]
      exact zoneFun_mem_ff _ nm hmem hne i hi
    · have hz : zoneGet (subdivide verts masks) nm = [] :=
        zoneGet_keyed_not _ ALL_CLINICAL_ZONES nm hmem
      rw [hz] at hi
      exact absurd hi (List.not_mem_nil i)
  · intro i hi
    by_cases hmem : nm ∈ ALL_CLINICAL_ZONES
    · rw [zoneGet_posOnly verts hmem] at hi
      rw [zoneGet_posOnly verts (by decide)]
      rw [List.mem_filter] at hi ⊢
      exact ⟨hi.1, posCond_full_face nm hmem hne hi.2⟩
    · have hz : zoneGet (posOnly verts) nm = [] :=
        zoneGet_keyed_not _ ALL_CLINICAL_ZONES nm hmem
      rw [hz] at hi
      exact absurd hi (List.not_mem_nil i)

/-- Witness for claim3 at a concrete input: a two-vertex mesh whose
vertex 1 lands in forehead for both components, hence in full_face. -/
theorem claim3_witness :
    1 ∈ zoneGet (subdivide [((0 : ℚ), 0, 0), (0, 1, 1)]
      [("forehead", MaskVal.ints [1])]) "full_face" ∧
    1 ∈ zoneGet (posOnly [((0 : ℚ), 0, 0), (0, 1, 1)]) "full_face" :=
  ⟨(claim3 [((0 : ℚ), 0, 0), (0, 1, 1)] [("forehead", MaskVal.ints [1])] "forehead"
      (by decide)).1 1 (by with_unfolding_all decide),
   (claim3 [((0 : ℚ), 0, 0), (0, 1, 1)] [("forehead", MaskVal.ints [1])] "forehead"
      (by decide)).2 1 (by with_unfolding_all decide)⟩

/-- C9: in the Position-Only Classifier, membership in any zone other
than neck forces the front-facing gate z > z_mid, so a vertex at or
below the z midpoint appears in no zone except possibly neck; and neck
membership needs only yn < 0.10, independent of z. -/
theorem claim9 : ∀ (verts : List Vec3) (nm : String) (i : ℕ),
    (nm ∈ ALL_CLINICAL_ZONES → nm ≠ "neck" → i ∈ zoneGet (posOnly verts) nm →
      zMid verts < coordAt (zCoords verts) i) ∧
    (i < verts.length → oLt ((posParams verts).yn i) 0.10 = true →
      i ∈ zoneGet (posOnly verts) "neck") := by
  intro verts nm i
  constructor
  · intro hmem hne hi
    rw [zoneGet_posOnly verts hmem] at hi
    rw [List.mem_filter] at hi
    have hf : decide (zMid verts < coordAt (zCoords verts) i) = true :=
      posCond_front nm hmem hne hi.2
    exact of_decide_eq_true hf
  · intro hn hyn
    rw [zoneGet_posOnly verts (by decide)]
    rw [List.mem_filter]
    exact ⟨List.mem_range.mpr hn, hyn⟩

/-- Witness for claim9: on a two-vertex mesh, vertex 1 is in forehead so
it must be front-facing; vertex 0 is back-facing yet lands in neck. -/
theorem claim9_witness :
    zMid [((0 : ℚ), 0, 0), (0, 1, 1)] <
      coordAt (zCoords [((0 : ℚ), 0, 0), (0, 1, 1)]) 1 ∧
    0 ∈ zoneGet (posOnly [((0 : ℚ), 0, 0), (0, 1, 1)]) "neck" :=
  ⟨(claim9 [((0 : ℚ), 0, 0), (0, 1, 1)] "forehead" 1).1 (by decide) (by decide)
      (by with_unfolding_all decide),
   (claim9 [((0 : ℚ), 0, 0), (0, 1, 1)] "forehead" 0).2 (by decide)
      (by with_unfolding_all decide)⟩

theorem foldl_min_le_init (t : List ℚ) (acc : ℚ) : t.foldl min acc ≤ acc := by
  induction t generalizing acc with
  | nil => exact le_refl acc
  | cons b t ih =>
      calc (b :: t).foldl min acc = t.foldl min (min acc b) := rfl
        _ ≤ min acc b := ih (min acc b)
        _ ≤ acc := min_le_left acc b

theorem foldl_min_le_mem (t : List ℚ) (acc : ℚ) :
    ∀ a ∈ t, t.foldl min acc ≤ a := by
  induction t generalizing acc with
  | nil => intro a ha; exact absurd ha (List.not_mem_nil a)
  | cons b t ih =>
      intro a ha
      rcases List.mem_cons.mp ha with rfl | ha2
      · calc (a :: t).foldl min acc = t.foldl min (min acc a) := rfl
          _ ≤ min acc a := foldl_min_le_init t (min acc a)
          _ ≤ a := min_le_right acc a
      · exact ih (min acc b) a ha2

theorem init_le_foldl_max (t : List ℚ) (acc : ℚ) : acc ≤ t.foldl max acc := by
  induction t generalizing acc with
  | nil => exact le_refl acc
  | cons b t ih =>
      calc acc ≤ max acc b := le_max_left acc b
        _ ≤ t.foldl max (max acc b) := ih (max acc b)
        _ = (b :: t).foldl max acc := rfl

theorem mem_le_foldl_max (t : List ℚ) (acc : ℚ) :
    ∀ a ∈ t, a ≤ t.foldl max acc := by
  induction t generalizing acc with
  | nil => intro a ha; exact absurd ha (List.not_mem_nil a)
  | cons b t ih =>
      intro a ha
      rcases List.mem_cons.mp ha with rfl | ha2
      · calc a ≤ max acc a := le_max_right acc a
          _ ≤ t.foldl max (max acc a) := init_le_foldl_max t (max acc a)
          _ = (a :: t).foldl max acc := rfl
      · exact ih (max acc b) a ha2

theorem listMin_le_mem {l : List ℚ} {a : ℚ} (h : a ∈ l) : listMin l ≤ a := by
  cases l with
  | nil => exact absurd h (List.not_mem_nil a)
  | cons b t =>
      rcases List.mem_cons.mp h with rfl | h2
      · exact foldl_min_le_init t a
      · exact foldl_min_le_mem t b a h2

theorem mem_le_listMax {l : List ℚ} {a : ℚ} (h : a ∈ l) : a ≤ listMax l := by
  cases l with
  | nil => exact absurd h (List.not_mem_nil a)
  | cons b t =>
      rcases List.mem_cons.mp h with rfl | h2
      · exact init_le_foldl_max t a
      · exact mem_le_foldl_max t b a h2

/-- C7: the Subdivider side (_compute_vertex_stats) computes yn with a
fallback divisor, so a degenerate y range gives yn = 0 for every real
vertex; the Position-Only Classifier does not: on the single-vertex mesh
its yn divisor is the zero y range, the division faults (numpy NaN,
modelled as none), and every zone, including neck, comes out empty. -/
theorem claim7 :
    (∀ (verts : List Vec3) (i : ℕ), i < verts.length →
      listMax (yCoords verts) - listMin (yCoords verts) = 0 →
      vertexStatsYn verts i = 0) ∧
    (posParams [((0 : ℚ), 0, 0)]).yn 0 = none ∧
    (∀ p ∈ posOnly [((0 : ℚ), 0, 0)], p.2 = []) := by
  refine ⟨?_, by with_unfolding_all decide, by with_unfolding_all decide⟩
  intro verts i hi h
  have hmem : coordAt (yCoords verts) i ∈ yCoords verts := by
    unfold coordAt
    rw [List.getD_eq_getElem?_getD]
    have hlen : i < (yCoords verts).length := by
      unfold yCoords
      rw [List.length_map]
      exact hi
    rw [List.getElem?_eq_getElem hlen]
    exact List.getElem_mem _
  have h1 : listMin (yCoords verts) ≤ coordAt (yCoords verts) i := listMin_le_mem hmem
  have h2 : coordAt (yCoords verts) i ≤ listMax (yCoords verts) := mem_le_listMax hmem
  have heq : coordAt (yCoords verts) i = listMin (yCoords verts) := by linarith
  show (coordAt (yCoords verts) i - listMin (yCoords verts)) /
      (if 0 < listMax (yCoords verts) - listMin (yCoords verts) then
        listMax (yCoords verts) - listMin (yCoords verts) else 1) = 0
  rw [heq]
  simp

/-- Witness for claim7 at a concrete degenerate input. -/
theorem claim7_witness : vertexStatsYn [((0 : ℚ), 3, 0), (0, 3, 0)] 1 = 0 :=
  claim7.1 [((0 : ℚ), 3, 0), (0, 3, 0)] 1 (by decide) (by with_unfolding_all decide)

/-- C8: the Mask-Guided Subdivider is deterministic and free of
iteration-order dependence: two runs on the same vertex array and on
coarse-region mappings that agree as dictionaries (equal lookup for
every key) return identical zone maps. -/
theorem claim8 : ∀ (verts : List Vec3) (m1 m2 : List (String × MaskVal)),
    (∀ k, lookupMask m1 k = lookupMask m2 k) →
    subdivide verts m1 = subdivide verts m2 := by
  intro verts m1 m2 hlk
  have hr : ∀ k, regionIdx verts.length m1 k = regionIdx verts.length m2 k := by
    intro k
    unfold regionIdx
    rw [hlk k]
  unfold subdivide subParts
  simp only [hr]

/-- Witness for claim8 at a concrete input. -/
theorem claim8_witness :
    subdivide [((0 : ℚ), 0, 0)] [("neck", MaskVal.ints [0])] =
      subdivide [((0 : ℚ), 0, 0)] [("neck", MaskVal.ints [0])] :=
  claim8 [((0 : ℚ), 0, 0)] [("neck", MaskVal.ints [0])] [("neck", MaskVal.ints [0])]
    (fun _ => rfl)

theorem getD_irrel {l : List ℚ} {k : ℕ} (hk : k < l.length) (d : ℚ) :
    l.getD k d = l.getD k 0 := by
  rw [List.getD_eq_getElem?_getD, List.getD_eq_getElem?_getD,
    List.getElem?_eq_getElem hk]
  rfl

theorem sorted_getD_le {s : List ℚ} (hs : List.Sorted (· ≤ ·) s) {a b : ℕ}
    (hab : a ≤ b) (hb : b < s.length) : s.getD a 0 ≤ s.getD b 0 := by
  rcases eq_or_lt_of_le hab with rfl | hlt
  · exact le_refl _
  · have ha : a < s.length := lt_of_le_of_lt hab hb
    rw [List.getD_eq_getElem?_getD, List.getElem?_eq_getElem ha,
        List.getD_eq_getElem?_getD, List.getElem?_eq_getElem hb]
    exact List.pairwise_iff_get.mp hs ⟨a, ha⟩ ⟨b, hb⟩ hlt

theorem percentileSorted_ge_head {s : List ℚ} (hs : List.Sorted (· ≤ ·) s)
    (hne : s ≠ []) : s.getD 0 0 ≤ percentileSorted s 50 := by
  have hn1 : 1 ≤ s.length := by
    cases s with
    | nil => exact absurd rfl hne
    | cons a t => simp
  have hcast : (1 : ℚ) ≤ (s.length : ℚ) := by exact_mod_cast hn1
  unfold percentileSorted
  simp only []
  set q : ℚ := ((s.length : ℚ) - 1) * 50 / 100 with hq
  have hq0 : 0 ≤ q := by rw [hq]; nlinarith
  have hqub : q ≤ (s.length : ℚ) - 1 := by rw [hq]; nlinarith
  have hfl0 : 0 ≤ Int.floor q := Int.floor_nonneg.mpr hq0
  have hfl_ub : Int.floor q ≤ (s.length : ℤ) - 1 := by
    have h2 : q ≤ (((s.length : ℤ) - 1 : ℤ) : ℚ) := by push_cast; linarith
    have h3 := Int.floor_le_floor h2
    rwa [Int.floor_intCast] at h3
  have hi_lt : (Int.floor q).toNat < s.length := by omega
  have hfrac : 0 ≤ q - (Int.floor q : ℤ) := by
    have := Int.floor_le q
    linarith
  have hlo_le_hi : s.getD (Int.floor q).toNat 0 ≤
      s.getD ((Int.floor q).toNat + 1) (s.getD (Int.floor q).toNat 0) := by
    by_cases hb : (Int.floor q).toNat + 1 < s.length
    · rw [getD_irrel hb]
      exact sorted_getD_le hs (Nat.le_succ _) hb
    · have hd : s.getD ((Int.floor q).toNat + 1) (s.getD (Int.floor q).toNat 0) =
          s.getD (Int.floor q).toNat 0 := List.getD_eq_default _ _ (by omega)
      rw [hd]
  have hhead : s.getD 0 0 ≤ s.getD (Int.floor q).toNat 0 :=
    sorted_getD_le hs (Nat.zero_le _) hi_lt
  nlinarith [mul_nonneg hfrac (sub_nonneg.mpr hlo_le_hi)]

theorem exists_le_percentile50 {vals : List ℚ} (hne : vals ≠ []) :
    ∃ v ∈ vals, v ≤ percentile vals 50 := by
  have hperm := List.perm_insertionSort (· ≤ ·) vals
  have hsne : vals.insertionSort (· ≤ ·) ≠ [] := by
    intro hcon
    rw [hcon] at hperm
    exact hne hperm.symm.eq_nil
  obtain ⟨a, t, hat⟩ := List.exists_cons_of_ne_nil hsne
  refine ⟨(vals.insertionSort (· ≤ ·)).getD 0 0, ?_, ?_⟩
  · have hm : (vals.insertionSort (· ≤ ·)).getD 0 0 ∈ vals.insertionSort (· ≤ ·) := by
      rw [hat]
      simp
    exact hperm.mem_iff.mp hm
  · unfold percentile
    rw [if_neg hne]
    exact percentileSorted_ge_head (List.sorted_insertionSort _ _) hsne

theorem exists_mem_le_medOf {c : List ℚ} {idx : List ℕ} (h : idx ≠ []) :
    ∃ a ∈ idx, coordAt c a ≤ medOf c idx := by
  have hvals : idx.map (coordAt c) ≠ [] := by
    simp only [ne_eq, List.map_eq_nil_iff]
    exact h
  obtain ⟨v, hv, hle⟩ := exists_le_percentile50 hvals
  obtain ⟨a, ha, rfl⟩ := List.mem_map.mp hv
  exact ⟨a, ha, hle⟩

theorem eyeBlock_upper_lower (x y : List ℚ) (isLeft : Bool)
    (eyeIdx eyeballIdx : List ℕ) : ∀ i : ℕ,
    (i ∈ (eyeBlock x y isLeft eyeIdx eyeballIdx).upperZ ∨
     i ∈ (eyeBlock x y isLeft eyeIdx eyeballIdx).lowerZ) ↔
    i ∈ eyeSkinResolved eyeIdx eyeballIdx := by
  intro i
  unfold eyeBlock
  split
  · rename_i h
    simp [h, eyeSkinResolved]
  · constructor
    · rintro (hu | hl)
      · exact List.mem_of_mem_filter (mem_pySorted.mp hu)
      · exact List.mem_of_mem_filter (mem_pySorted.mp hl)
    · intro hs
      by_cases hp : medOf y eyeIdx < coordAt y i
      · exact Or.inl (mem_pySorted.mpr
          (List.mem_filter.mpr ⟨hs, decide_eq_true hp⟩))
      · refine Or.inr (mem_pySorted.mpr (List.mem_filter.mpr ⟨hs, ?_⟩))
        simp [hp]

theorem eyeBlock_subsets (x y : List ℚ) (isLeft : Bool)
    (eyeIdx eyeballIdx : List ℕ) : ∀ i : ℕ,
    (i ∈ (eyeBlock x y isLeft eyeIdx eyeballIdx).upperZ →
      i ∈ eyeSkinResolved eyeIdx eyeballIdx) ∧
    (i ∈ (eyeBlock x y isLeft eyeIdx eyeballIdx).lowerZ →
      i ∈ eyeSkinResolved eyeIdx eyeballIdx) ∧
    (i ∈ (eyeBlock x y isLeft eyeIdx eyeballIdx).cornerIn →
      i ∈ eyeSkinResolved eyeIdx eyeballIdx) ∧
    (i ∈ (eyeBlock x y isLeft eyeIdx eyeballIdx).cornerOut →
      i ∈ eyeSkinResolved eyeIdx eyeballIdx) ∧
    (i ∈ (eyeBlock x y isLeft eyeIdx eyeballIdx).underEye →
      i ∈ eyeSkinResolved eyeIdx eyeballIdx) ∧
    (i ∈ (eyeBlock x y isLeft eyeIdx eyeballIdx).tearTrough →
      i ∈ eyeSkinResolved eyeIdx eyeballIdx) := by
  intro i
  unfold eyeBlock
  split
  · rename_i h
    simp [h, eyeSkinResolved]
  · refine ⟨?_, ?_, ?_, ?_, ?_, ?_⟩
    · intro hu
      exact List.mem_of_mem_filter (mem_pySorted.mp hu)
    · intro hl
      exact List.mem_of_mem_filter (mem_pySorted.mp hl)
    · intro hc
      simp only [] at hc
      split at hc
      · exact absurd hc (List.not_mem_nil i)
      · split at hc
        · exact List.mem_of_mem_filter
            (List.mem_of_mem_filter (mem_pySorted.mp hc))
        · exact List.mem_of_mem_filter
            (List.mem_of_mem_filter (mem_pySorted.mp hc))
    · intro hc
      simp only [] at hc
      split at hc
      · exact absurd hc (List.not_mem_nil i)
      · split at hc
        · exact List.mem_of_mem_filter
            (List.mem_of_mem_filter (mem_pySorted.mp hc))
        · exact List.mem_of_mem_filter
            (List.mem_of_mem_filter (mem_pySorted.mp hc))
    · intro hu
      exact List.mem_of_mem_filter (mem_pySorted.mp hu)
    · intro ht
      simp only [] at ht
      split at ht
      · exact absurd ht (List.not_mem_nil i)
      · split at ht
        · exact List.mem_of_mem_filter
            (List.mem_of_mem_filter (mem_pySorted.mp ht))
        · exact List.mem_of_mem_filter
            (List.mem_of_mem_filter (mem_pySorted.mp ht))

theorem eyeBlock_fallback (x y : List ℚ) (isLeft : Bool)
    (eyeIdx eyeballIdx : List ℕ)
    (h : eyeIdx.filter (fun i => !(eyeballIdx.contains i)) = []) :
    eyeBlock x y isLeft eyeIdx eyeballIdx = eyeBlock x y isLeft eyeIdx [] := by
  have hres : eyeSkinResolved eyeIdx eyeballIdx = eyeSkinResolved eyeIdx [] := by
    unfold eyeSkinResolved
    simp only []
    rw [h]
    have h2 : eyeIdx.filter (fun i => !((List.nil : List ℕ).contains i)) = eyeIdx := by
      simp
    rw [h2, ite_self]
    simp
  simp only [eyeBlock, hres]

theorem eyeBlock_lower_ne_nil (x y : List ℚ) (isLeft : Bool)
    {eyeIdx : List ℕ} (eyeballIdx : List ℕ) (hne : eyeIdx ≠ [])
    (hres : eyeSkinResolved eyeIdx eyeballIdx = eyeIdx) :
    (eyeBlock x y isLeft eyeIdx eyeballIdx).lowerZ ≠ [] := by
  intro hcon
  obtain ⟨a, ha, hle⟩ := exists_mem_le_medOf (c := y) hne
  have hmem : a ∈ eyeSkinResolved eyeIdx eyeballIdx := by
    rw [hres]
    exact ha
  have hmem2 : a ∈ pySorted ((eyeSkinResolved eyeIdx eyeballIdx).filter
      (fun i => !decide (medOf y eyeIdx < coordAt y i))) := by
    rw [mem_pySorted, List.mem_filter]
    refine ⟨hmem, ?_⟩
    simp [not_lt.mpr hle]
  have hcon2 : pySorted ((eyeSkinResolved eyeIdx eyeballIdx).filter
      (fun i => !decide (medOf y eyeIdx < coordAt y i))) = [] := by
    have hunfold : (eyeBlock x y isLeft eyeIdx eyeballIdx).lowerZ =
        pySorted ((eyeSkinResolved eyeIdx eyeballIdx).filter
          (fun i => !decide (medOf y eyeIdx < coordAt y i))) := by
      unfold eyeBlock
      rw [if_neg hne]
    rw [← hunfold]
    exact hcon
  rw [hcon2] at hmem2
  exact List.not_mem_nil a hmem2

theorem regionIdx_cons (nVerts : ℕ) (k : String) (val : MaskVal)
    (m : List (String × MaskVal)) (key : String) :
    regionIdx nVerts ((k, val) :: m) key =
      if k = key then maskToIndices nVerts val else regionIdx nVerts m key := by
  unfold regionIdx lookupMask
  by_cases hk : k = key
  · rw [if_pos hk]
    rw [List.find?_cons_of_pos]
    · rfl
    · exact beq_iff_eq.mpr hk
  · rw [if_neg hk]
    rw [List.find?_cons_of_neg]
    simp [hk]

/-- C5: in the Mask-Guided Subdivider, for each side, the upper and
lower eye zones partition exactly the resolved eye-skin set of source
lines 593-595 (the post-removal set when it is non-empty, the original
eye region exactly when eyeball removal empties it), and every
eye-skin-derived zone of that side is drawn from that resolved set. -/
theorem claim5 : ∀ (verts : List Vec3) (masks : List (String × MaskVal)),
    ((∀ i : ℕ,
      (i ∈ zoneGet (subdivide verts masks) "eye_left_upper" ∨
       i ∈ zoneGet (subdivide verts masks) "eye_left_lower") ↔
      i ∈ eyeSkinResolved (regionIdx verts.length masks "left_eye_region")
          (regionIdx verts.length masks "left_eyeball")) ∧
     (∀ nm ∈ (["eye_left_upper", "eye_left_lower", "eye_left_corner_inner",
         "eye_left_corner_outer", "under_eye_left", "tear_trough_left"] : List String),
       ∀ i ∈ zoneGet (subdivide verts masks) nm,
         i ∈ eyeSkinResolved (regionIdx verts.length masks "left_eye_region")
             (regionIdx verts.length masks "left_eyeball"))) ∧
    ((∀ i : ℕ,
      (i ∈ zoneGet (subdivide verts masks) "eye_right_upper" ∨
       i ∈ zoneGet (subdivide verts masks) "eye_right_lower") ↔
      i ∈ eyeSkinResolved (regionIdx verts.length masks "right_eye_region")
          (regionIdx verts.length masks "right_eyeball")) ∧
     (∀ nm ∈ (["eye_right_upper", "eye_right_lower", "eye_right_corner_inner",
         "eye_right_corner_outer", "under_eye_right", "tear_trough_right"] : List String),
       ∀ i ∈ zoneGet (subdivide verts masks) nm,
         i ∈ eyeSkinResolved (regionIdx verts.length masks "right_eye_region")
             (regionIdx verts.length masks "right_eyeball"))) := by
  intro verts masks
  constructor
  · constructor
    · intro i
      rw [zoneGet_subdivide verts masks (by decide),
        zoneGet_subdivide verts masks (by decide)]
      exact eyeBlock_upper_lower (xCoords verts) (yCoords verts) true
        (regionIdx verts.length masks "left_eye_region")
        (regionIdx verts.length masks "left_eyeball") i
    · intro nm hnm i hi
      simp only [List.mem_cons, List.not_mem_nil, or_false] at hnm
      have hsub := eyeBlock_subsets (xCoords verts) (yCoords verts) true
        (regionIdx verts.length masks "left_eye_region")
        (regionIdx verts.length masks "left_eyeball") i
      rcases hnm with rfl | rfl | rfl | rfl | rfl | rfl
      · rw [zoneGet_subdivide verts masks (by decide)] at hi
        exact hsub.1 hi
      · rw [zoneGet_subdivide verts masks (by decide)] at hi
        exact hsub.2.1 hi
      · rw [zoneGet_subdivide verts masks (by decide)] at hi
        exact hsub.2.2.1 hi
      · rw [zoneGet_subdivide verts masks (by decide)] at hi
        exact hsub.2.2.2.1 hi
      · rw [zoneGet_subdivide verts masks (by decide)] at hi
        exact hsub.2.2.2.2.1 hi
      · rw [zoneGet_subdivide verts masks (by decide)] at hi
        exact hsub.2.2.2.2.2 hi
  · constructor
    · intro i
      rw [zoneGet_subdivide verts masks (by decide),
        zoneGet_subdivide verts masks (by decide)]
      exact eyeBlock_upper_lower (xCoords verts) (yCoords verts) false
        (regionIdx verts.length masks "right_eye_region")
        (regionIdx verts.length masks "right_eyeball") i
    · intro nm hnm i hi
      simp only [List.mem_cons, List.not_mem_nil, or_false] at hnm
      have hsub := eyeBlock_subsets (xCoords verts) (yCoords verts) false
        (regionIdx verts.length masks "right_eye_region")
        (regionIdx verts.length masks "right_eyeball") i
      rcases hnm with rfl | rfl | rfl | rfl | rfl | rfl
      · rw [zoneGet_subdivide verts masks (by decide)] at hi
        exact hsub.1 hi
      · rw [zoneGet_subdivide verts masks (by decide)] at hi
        exact hsub.2.1 hi
      · rw [zoneGet_subdivide verts masks (by decide)] at hi
        exact hsub.2.2.1 hi
      · rw [zoneGet_subdivide verts masks (by decide)] at hi
        exact hsub.2.2.2.1 hi
      · rw [zoneGet_subdivide verts masks (by decide)] at hi
        exact hsub.2.2.2.2.1 hi
      · rw [zoneGet_subdivide verts masks (by decide)] at hi
        exact hsub.2.2.2.2.2 hi

/-- Witness for claim5 at a concrete input with a fully-overlapping
eyeball mask: the resolved set is the original eye region. -/
theorem claim5_witness :
    (0 ∈ zoneGet (subdivide [((0 : ℚ), 0, 0), (0, 1, 0), (0, 2, 0)]
        [("left_eye_region", MaskVal.ints [0, 2]),
         ("left_eyeball", MaskVal.ints [0, 2])]) "eye_left_upper" ∨
     0 ∈ zoneGet (subdivide [((0 : ℚ), 0, 0), (0, 1, 0), (0, 2, 0)]
        [("left_eye_region", MaskVal.ints [0, 2]),
         ("left_eyeball", MaskVal.ints [0, 2])]) "eye_left_lower") ∧
    0 ∈ eyeSkinResolved
        (regionIdx 3 [("left_eye_region", MaskVal.ints [0, 2]),
          ("left_eyeball", MaskVal.ints [0, 2])] "left_eye_region")
        (regionIdx 3 [("left_eye_region", MaskVal.ints [0, 2]),
          ("left_eyeball", MaskVal.ints [0, 2])] "left_eyeball") :=
  ⟨((claim5 [((0 : ℚ), 0, 0), (0, 1, 0), (0, 2, 0)]
      [("left_eye_region", MaskVal.ints [0, 2]),
       ("left_eyeball", MaskVal.ints [0, 2])]).1.1 0).mpr
      (by with_unfolding_all decide),
   (claim5 [((0 : ℚ), 0, 0), (0, 1, 0), (0, 2, 0)]
      [("left_eye_region", MaskVal.ints [0, 2]),
       ("left_eyeball", MaskVal.ints [0, 2])]).1.2 "eye_left_lower" (by decide)
      0 (by with_unfolding_all decide)⟩

/-- C4, counterexample: on a 3-vertex mesh with left_eye_region = [0, 2]
and a left_eyeball mask that fully covers it, the eye-skin-derived
zones are NOT all empty: the fallback to the original eye region is
taken and eye_left_lower = [0]. -/
theorem claim4_cex :
    regionIdx 3 [("left_eye_region", MaskVal.ints [0, 2]),
      ("left_eyeball", MaskVal.ints [0, 2])] "left_eye_region" = [0, 2] ∧
    (∀ i ∈ regionIdx 3 [("left_eye_region", MaskVal.ints [0, 2]),
        ("left_eyeball", MaskVal.ints [0, 2])] "left_eye_region",
      i ∈ regionIdx 3 [("left_eye_region", MaskVal.ints [0, 2]),
        ("left_eyeball", MaskVal.ints [0, 2])] "left_eyeball") ∧
    zoneGet (subdivide [((0 : ℚ), 0, 0), (0, 1, 0), (0, 2, 0)]
      [("left_eye_region", MaskVal.ints [0, 2]),
       ("left_eyeball", MaskVal.ints [0, 2])]) "eye_left_lower" = [0] ∧
    zoneGet (subdivide [((0 : ℚ), 0, 0), (0, 1, 0), (0, 2, 0)]
      [("left_eye_region", MaskVal.ints [0, 2]),
       ("left_eyeball", MaskVal.ints [0, 2])]) "eye_left_lower" ≠ [] := by
  refine ⟨by with_unfolding_all decide, by with_unfolding_all decide,
    by with_unfolding_all decide, by with_unfolding_all decide⟩

/-- C4, amended: when the left eye region is non-empty and the
recognized left eyeball mask covers all of it, the Subdivider falls
back to the original eye region (source lines 593-595): the six
eye-skin-derived zones of that side equal those of a run with an empty
left_eyeball mask, and eye_left_lower is non-empty rather than empty. -/
theorem claim4_amended : ∀ (verts : List Vec3) (masks : List (String × MaskVal)),
    regionIdx verts.length masks "left_eye_region" ≠ [] →
    (∀ i ∈ regionIdx verts.length masks "left_eye_region",
      i ∈ regionIdx verts.length masks "left_eyeball") →
    (∀ nm ∈ (["eye_left_upper", "eye_left_lower", "eye_left_corner_inner",
        "eye_left_corner_outer", "under_eye_left", "tear_trough_left"] : List String),
      zoneGet (subdivide verts masks) nm =
        zoneGet (subdivide verts (("left_eyeball", MaskVal.ints []) :: masks)) nm) ∧
    zoneGet (subdivide verts masks) "eye_left_lower" ≠ [] := by
  intro verts masks hne hsub
  have hskin : (regionIdx verts.length masks "left_eye_region").filter
      (fun i => !((regionIdx verts.length masks "left_eyeball").contains i)) = [] := by
    rw [List.filter_eq_nil_iff]
    intro a ha
    simpa using hsub a ha
  have hres : eyeSkinResolved (regionIdx verts.length masks "left_eye_region")
      (regionIdx verts.length masks "left_eyeball") =
      regionIdx verts.length masks "left_eye_region" := by
    unfold eyeSkinResolved
    simp only []
    rw [hskin]
    simp
  constructor
  · have he2 : regionIdx verts.length
        (("left_eyeball", MaskVal.ints []) :: masks) "left_eye_region" =
        regionIdx verts.length masks "left_eye_region" := by
      rw [regionIdx_cons, if_neg (by decide)]
    have hb2 : regionIdx verts.length
        (("left_eyeball", MaskVal.ints []) :: masks) "left_eyeball" =
        ([] : List ℕ) := by
      rw [regionIdx_cons, if_pos rfl]
      rfl
    have hEB : eyeBlock (xCoords verts) (yCoords verts) true
        (regionIdx verts.length masks "left_eye_region")
        (regionIdx verts.length masks "left_eyeball") =
        eyeBlock (xCoords verts) (yCoords verts) true
        (regionIdx verts.length (("left_eyeball", MaskVal.ints []) :: masks)
          "left_eye_region")
        (regionIdx verts.length (("left_eyeball", MaskVal.ints []) :: masks)
          "left_eyeball") := by
      rw [he2, hb2]
      exact eyeBlock_fallback (xCoords verts) (yCoords verts) true
        (regionIdx verts.length masks "left_eye_region")
        (regionIdx verts.length masks "left_eyeball") hskin
    intro nm hnm
    simp only [List.mem_cons, List.not_mem_nil, or_false] at hnm
    rcases hnm with rfl | rfl | rfl | rfl | rfl | rfl
    · rw [zoneGet_subdivide verts masks (by decide),
        zoneGet_subdivide verts (("left_eyeball", MaskVal.ints []) :: masks) (by decide)]
      exact congrArg EyeZones.upperZ hEB
    · rw [zoneGet_subdivide verts masks (by decide),
        zoneGet_subdivide verts (("left_eyeball", MaskVal.ints []) :: masks) (by decide)]
      exact congrArg EyeZones.lowerZ hEB
    · rw [zoneGet_subdivide verts masks (by decide),
        zoneGet_subdivide verts (("left_eyeball", MaskVal.ints []) :: masks) (by decide)]
      exact congrArg EyeZones.cornerIn hEB
    · rw [zoneGet_subdivide verts masks (by decide),
        zoneGet_subdivide verts (("left_eyeball", MaskVal.ints []) :: masks) (by decide)]
      exact congrArg EyeZones.cornerOut hEB
    · rw [zoneGet_subdivide verts masks (by decide),
        zoneGet_subdivide verts (("left_eyeball", MaskVal.ints []) :: masks) (by decide)]
      exact congrArg EyeZones.underEye hEB
    · rw [zoneGet_subdivide verts masks (by decide),
        zoneGet_subdivide verts (("left_eyeball", MaskVal.ints []) :: masks) (by decide)]
      exact congrArg EyeZones.tearTrough hEB
  · rw [zoneGet_subdivide verts masks (by decide)]
    exact eyeBlock_lower_ne_nil (xCoords verts) (yCoords verts) true
      (regionIdx verts.length masks "left_eyeball") hne hres

/-- Witness for claim4_amended at a concrete input. -/
theorem claim4_amended_witness :
    zoneGet (subdivide [((0 : ℚ), 0, 0), (0, 1, 0), (0, 2, 0)]
      [("left_eye_region", MaskVal.ints [0, 2]),
       ("left_eyeball", MaskVal.ints [0, 2])]) "eye_left_lower" =
    zoneGet (subdivide [((0 : ℚ), 0, 0), (0, 1, 0), (0, 2, 0)]
      (("left_eyeball", MaskVal.ints []) ::
        [("left_eye_region", MaskVal.ints [0, 2]),
         ("left_eyeball", MaskVal.ints [0, 2])])) "eye_left_lower" ∧
    zoneGet (subdivide [((0 : ℚ), 0, 0), (0, 1, 0), (0, 2, 0)]
      [("left_eye_region", MaskVal.ints [0, 2]),
       ("left_eyeball", MaskVal.ints [0, 2])]) "eye_left_lower" ≠ [] :=
  ⟨(claim4_amended [((0 : ℚ), 0, 0), (0, 1, 0), (0, 2, 0)]
      [("left_eye_region", MaskVal.ints [0, 2]),
       ("left_eyeball", MaskVal.ints [0, 2])]
      (by with_unfolding_all decide) (by with_unfolding_all decide)).1
      "eye_left_lower" (by decide),
   (claim4_amended [((0 : ℚ), 0, 0), (0, 1, 0), (0, 2, 0)]
      [("left_eye_region", MaskVal.ints [0, 2]),
       ("left_eyeball", MaskVal.ints [0, 2])]
      (by with_unfolding_all decide) (by with_unfolding_all decide)).2⟩

theorem zoneFun_full_face_nil {P : SubParts}
    (hff : ∀ l ∈ ffList P, l = ([] : List ℕ)) : zoneFun P "full_face" = [] := by
  have hnm : ∀ i : ℕ, ¬ i ∈ sortFinset (unionFinsets (ffList P)) := by
    intro i hi
    rcases mem_unionFinsets.mp (mem_sortFinset.mp hi) with ⟨l, hl, hil⟩
    rw [hff l hl] at hil
    exact List.not_mem_nil i hil
  have h2 : sortFinset (unionFinsets (ffList P)) = [] :=
    List.eq_nil_iff_forall_not_mem.mpr hnm
  exact h2

/-- C6: the Mask-Guided Subdivider is total on degraded inputs.  With at
least one vertex and all supplied region indices in range, the checked
run (whose none models the numpy fault surface) succeeds and returns the
zone map of the total model; and when every read coarse region is absent
or empty, every computation degrades and every zone list is empty. -/
theorem claim6 : ∀ (verts : List Vec3) (masks : List (String × MaskVal)),
    1 ≤ verts.length →
    (∀ k, ∀ i ∈ regionIdx verts.length masks k, i < verts.length) →
    subdivideChecked verts masks = some (subdivide verts masks) ∧
    ((∀ k ∈ usedRegionKeys, regionIdx verts.length masks k = []) →
      ∀ p ∈ subdivide verts masks, p.2 = []) := by
  intro verts masks hn hbd
  constructor
  · unfold subdivideChecked
    rw [if_neg (by omega)]
    have hcheck : usedRegionKeys.all (fun k => (regionIdx verts.length masks k).all
        (fun i => decide (i < verts.length))) = true := by
      rw [List.all_eq_true]
      intro k hk
      rw [List.all_eq_true]
      intro i hi
      exact decide_eq_true (hbd k i hi)
    rw [if_pos hcheck]
  · intro hempty p hp
    have hP : subParts verts masks =
        { n := verts.length, x := xCoords verts, y := yCoords verts
          noseIdx := [], lipsIdx := [], foreheadIdx := []
          leftEyeIdx := [], rightEyeIdx := [], faceIdx := []
          neckIdx := [], leftEarIdx := [], rightEarIdx := []
          scalpIdx := [], leftEyeballIdx := [], rightEyeballIdx := []
          faceRem := [], midlineX := 0
          F := ⟨[], [], [], [], [], [], [], [], [], []⟩
          EL := ⟨[], [], [], [], [], []⟩
          ER := ⟨[], [], [], [], [], []⟩
          NZ := ⟨[], [], [], [], [], [], [], []⟩
          LZ := ⟨[], [], [], [], [], [], [], [], [], []⟩
          FZ := ⟨[], [], [], [], [], [], [], [], [], [], [], [], [], [], [], []⟩
          templeLZ := [], templeRZ := [] } := by
      unfold subParts
      simp only []
      rw [hempty "nose" (by decide), hempty "lips" (by decide),
        hempty "forehead" (by decide), hempty "left_eye_region" (by decide),
        hempty "right_eye_region" (by decide), hempty "face" (by decide),
        hempty "neck" (by decide), hempty "left_ear" (by decide),
        hempty "right_ear" (by decide), hempty "scalp" (by decide),
        hempty "left_eyeball" (by decide), hempty "right_eyeball" (by decide)]
      rfl
    unfold subdivide at hp
    rcases List.mem_map.mp hp with ⟨nm, hnm, rfl⟩
    show zoneFun (subParts verts masks) nm = []
    rw [hP]
    simp only [ALL_CLINICAL_ZONES, List.mem_cons, List.not_mem_nil, or_false] at hnm
    rcases hnm with rfl | rfl | rfl | rfl | rfl | rfl | rfl | rfl | rfl | rfl |
      rfl | rfl | rfl | rfl | rfl | rfl | rfl | rfl | rfl | rfl | rfl | rfl |
      rfl | rfl | rfl | rfl | rfl | rfl | rfl | rfl | rfl | rfl | rfl | rfl |
      rfl | rfl | rfl | rfl | rfl | rfl | rfl | rfl | rfl | rfl | rfl | rfl |
      rfl | rfl | rfl | rfl | rfl | rfl | rfl | rfl | rfl | rfl | rfl | rfl |
      rfl | rfl | rfl
    · apply zoneFun_full_face_nil
      intro l hl
      simp only [ffList, List.mem_cons, List.not_mem_nil, or_false, or_self] at hl
      exact hl
    all_goals rfl

/-- Witness for claim6 at a concrete input: a one-vertex mesh with an
empty coarse mapping. -/
theorem claim6_witness :
    subdivideChecked [((0 : ℚ), 0, 0)] [] = some (subdivide [((0 : ℚ), 0, 0)] []) ∧
    ("neck", ([] : List ℕ)).2 = [] :=
  ⟨(claim6 [((0 : ℚ), 0, 0)] [] (by decide)
      (fun k i hi => absurd hi (List.not_mem_nil i))).1,
   (claim6 [((0 : ℚ), 0, 0)] [] (by decide)
      (fun k i hi => absurd hi (List.not_mem_nil i))).2
     (fun k _ => rfl) ("neck", []) (by with_unfolding_all decide)⟩

/-- C10, counterexample: an explicit index list of valid indices can be
misread as a boolean mask.  With N = 2 and neck supplied as the index
list [0, 1] (length N, all entries at most 1), _mask_to_indices takes it
for a boolean mask and np.where turns it into [1], so the neck zone is
[1] instead of the supplied set [0, 1]. -/
theorem claim10_cex :
    regionIdx 2 [("neck", MaskVal.ints [0, 1])] "neck" = [1] ∧
    zoneGet (subdivide [((0 : ℚ), 0, 0), (0, 0, 0)]
      [("neck", MaskVal.ints [0, 1])]) "neck" = [1] ∧
    zoneGet (subdivide [((0 : ℚ), 0, 0), (0, 0, 0)]
      [("neck", MaskVal.ints [0, 1])]) "neck" ≠ pySorted [0, 1] := by
  refine ⟨by with_unfolding_all decide, by with_unfolding_all decide,
    by with_unfolding_all decide⟩

/-- C10, amended: an explicit integer index list is interpreted as
exactly that set of indices unless it is misreadable as a boolean mask
(length N with every entry at most 1); under that proviso each
pass-through zone (neck, ear_left, ear_right) equals the sorted supplied
list. -/
theorem claim10_amended : ∀ (verts : List Vec3) (masks : List (String × MaskVal))
    (l : List ℕ) (key zn : String),
    ((key = "neck" ∧ zn = "neck") ∨ (key = "left_ear" ∧ zn = "ear_left") ∨
     (key = "right_ear" ∧ zn = "ear_right")) →
    lookupMask masks key = some (MaskVal.ints l) →
    (l.length ≠ verts.length ∨ ¬ (∀ e ∈ l, e ≤ 1)) →
    regionIdx verts.length masks key = l ∧
    zoneGet (subdivide verts masks) zn = pySorted l := by
  intro verts masks l key zn hkey hlk hprov
  have hreg : regionIdx verts.length masks key = l := by
    unfold regionIdx
    rw [hlk]
    show (if l.isEmpty then [] else
      if l.length = verts.length ∧ (∀ e ∈ l, e ≤ 1) then
        (List.range l.length).filter (fun i => l.getD i 0 ≠ 0)
      else l) = l
    by_cases hemp : l.isEmpty
    · rw [if_pos hemp]
      exact (List.isEmpty_iff.mp hemp).symm
    · rw [if_neg hemp, if_neg ?_]
      rintro ⟨h1, h2⟩
      rcases hprov with h | h
      · exact h h1
      · exact h h2
  refine ⟨hreg, ?_⟩
  rcases hkey with ⟨rfl, rfl⟩ | ⟨rfl, rfl⟩ | ⟨rfl, rfl⟩
  · rw [zoneGet_subdivide verts masks (by decide)]
    show pySorted (regionIdx verts.length masks "neck") = pySorted l
    rw [hreg]
  · rw [zoneGet_subdivide verts masks (by decide)]
    show pySorted (regionIdx verts.length masks "left_ear") = pySorted l
    rw [hreg]
  · rw [zoneGet_subdivide verts masks (by decide)]
    show pySorted (regionIdx verts.length masks "right_ear") = pySorted l
    rw [hreg]

/-- Witness for claim10_amended at a concrete input. -/
theorem claim10_amended_witness :
    regionIdx 3 [("neck", MaskVal.ints [2, 0])] "neck" = [2, 0] ∧
    zoneGet (subdivide [((0 : ℚ), 0, 0), (0, 0, 0), (0, 0, 0)]
      [("neck", MaskVal.ints [2, 0])]) "neck" = pySorted [2, 0] :=
  claim10_amended [((0 : ℚ), 0, 0), (0, 0, 0), (0, 0, 0)]
    [("neck", MaskVal.ints [2, 0])] [2, 0] "neck" "neck"
    (Or.inl ⟨rfl, rfl⟩) rfl (Or.inl (by decide))
